import Mathlib

/-! # Review moderation console: view filter and form validation

A shallow embedding of `src/pages/Review.jsx`.

* JavaScript strings are embedded as Lean `String`s (sequences of Unicode scalar values);
  a string holding a lone surrogate has no counterpart here.  `length` counts UTF-16 code
  units, as the JavaScript property does.
* A record field that the code reads with a method call (`review.name.toLowerCase()`) is an
  `Option String`: `none` stands for every value that is not a string (missing, `null`), on
  which the method call raises a `TypeError`.
* `approved` carries the truthiness of the JavaScript field.
* `toLowerCase` and `toUpperCase` are the default case conversions of Unicode, which
  ECMAScript prescribes, with the tables of the Unicode Character Database 14.0.0 and the
  condition `Final_Sigma` for U+03A3.
* The remote system behind `api` is not in the sources; where a statement needs it, it is
  modelled from the specification (`Remote`).
-/

set_option autoImplicit false

namespace DigitalLabAdmin

/-! ## JavaScript string primitives -/

namespace JsString

/-- ECMAScript `WhiteSpace` and `LineTerminator` code points: the class `\s` of a regular
expression, and the characters removed by `trim`. -/
def isWhiteSpace (c : Char) : Bool :=
  c.toNat = 0x09 || c.toNat = 0x0A || c.toNat = 0x0B || c.toNat = 0x0C || c.toNat = 0x0D ||
  c.toNat = 0x20 || c.toNat = 0xA0 || c.toNat = 0x1680 ||
  (0x2000 ≤ c.toNat && c.toNat ≤ 0x200A) ||
  c.toNat = 0x2028 || c.toNat = 0x2029 || c.toNat = 0x202F || c.toNat = 0x205F ||
  c.toNat = 0x3000 || c.toNat = 0xFEFF

/-- `String.prototype.trim` on a list of characters: white space is removed at both ends. -/
def trimChars (cs : List Char) : List Char :=
  ((cs.dropWhile isWhiteSpace).reverse.dropWhile isWhiteSpace).reverse

/-- `String.prototype.trim`. -/
def trim (s : String) : String := ⟨trimChars s.data⟩

/-- Number of UTF-16 code units of one character. -/
def codeUnits (c : Char) : Nat := if c.toNat < 0x10000 then 1 else 2

/-- The `length` property: the number of UTF-16 code units. -/
def length (s : String) : Nat := (s.data.map codeUnits).sum

/-- A table cut into blocks: each block comes with the last code point it speaks of, and the
blocks are in ascending order. -/
abbrev Blocks (α : Type) := List (Nat × List α)

/-- The block that speaks of the code point `n`: the first whose last code point is not
below `n`. -/
def blockOf {α : Type} (table : Blocks α) (n : Nat) : List α :=
  match table.find? (fun b => decide (n ≤ b.1)) with
  | some b => b.2
  | none => []

/-- A run of a case table `(lo, hi, stride, target)`: the code points `lo`, `lo + stride`, ...,
up to `hi`, are mapped to `target`, `target + stride`, ... -/
abbrev CaseRun := Nat × Nat × Nat × Nat

/-- The run covers the code point. -/
def CaseRun.covers (r : CaseRun) (n : Nat) : Bool :=
  decide (r.1 ≤ n) && decide (n ≤ r.2.1) && decide ((n - r.1) % r.2.2.1 = 0)

/-- The code point a table maps `n` to; `n` itself when no run covers it. -/
def caseLookup (table : Blocks CaseRun) (n : Nat) : Nat :=
  match (blockOf table n).find? (fun r => r.covers n) with
  | some r => r.2.2.2 + (n - r.1)
  | none => n

/-- The code point lies in one of the ranges `(lo, hi)` of the table. -/
def inRanges (table : Blocks (Nat × Nat)) (n : Nat) : Bool :=
  (blockOf table n).any fun r => decide (r.1 ≤ n) && decide (n ≤ r.2)

/-- Lower-case mappings of single code points to single code points (Unicode Character
Database 14.0.0, `UnicodeData.txt`), the table behind `String.prototype.toLowerCase`. -/
def lowerTable : Blocks CaseRun :=
  [(0x018A,
    [(0x0041, 0x005A, 1, 0x0061), (0x00C0, 0x00D6, 1, 0x00E0), (0x00D8, 0x00DE, 1, 0x00F8),
     (0x0100, 0x012E, 2, 0x0101), (0x0132, 0x0136, 2, 0x0133), (0x0139, 0x0147, 2, 0x013A),
     (0x014A, 0x0176, 2, 0x014B), (0x0178, 0x0178, 1, 0x00FF), (0x0179, 0x017D, 2, 0x017A),
     (0x0181, 0x0181, 1, 0x0253), (0x0182, 0x0184, 2, 0x0183), (0x0186, 0x0186, 1, 0x0254),
     (0x0187, 0x0187, 1, 0x0188), (0x0189, 0x018A, 1, 0x0256)]),
  (0x01A4,
    [(0x018B, 0x018B, 1, 0x018C), (0x018E, 0x018E, 1, 0x01DD), (0x018F, 0x018F, 1, 0x0259),
     (0x0190, 0x0190, 1, 0x025B), (0x0191, 0x0191, 1, 0x0192), (0x0193, 0x0193, 1, 0x0260),
     (0x0194, 0x0194, 1, 0x0263), (0x0196, 0x0196, 1, 0x0269), (0x0197, 0x0197, 1, 0x0268),
     (0x0198, 0x0198, 1, 0x0199), (0x019C, 0x019C, 1, 0x026F), (0x019D, 0x019D, 1, 0x0272),
     (0x019F, 0x019F, 1, 0x0275), (0x01A0, 0x01A4, 2, 0x01A1)]),
  (0x01C7,
    [(0x01A6, 0x01A6, 1, 0x0280), (0x01A7, 0x01A7, 1, 0x01A8), (0x01A9, 0x01A9, 1, 0x0283),
     (0x01AC, 0x01AC, 1, 0x01AD), (0x01AE, 0x01AE, 1, 0x0288), (0x01AF, 0x01AF, 1, 0x01B0),
     (0x01B1, 0x01B2, 1, 0x028A), (0x01B3, 0x01B5, 2, 0x01B4), (0x01B7, 0x01B7, 1, 0x0292),
     (0x01B8, 0x01B8, 1, 0x01B9), (0x01BC, 0x01BC, 1, 0x01BD), (0x01C4, 0x01C4, 1, 0x01C6),
     (0x01C5, 0x01C5, 1, 0x01C6), (0x01C7, 0x01C7, 1, 0x01C9)]),
  (0x023D,
    [(0x01C8, 0x01C8, 1, 0x01C9), (0x01CA, 0x01CA, 1, 0x01CC), (0x01CB, 0x01DB, 2, 0x01CC),
     (0x01DE, 0x01EE, 2, 0x01DF), (0x01F1, 0x01F1, 1, 0x01F3), (0x01F2, 0x01F4, 2, 0x01F3),
     (0x01F6, 0x01F6, 1, 0x0195), (0x01F7, 0x01F7, 1, 0x01BF), (0x01F8, 0x021E, 2, 0x01F9),
     (0x0220, 0x0220, 1, 0x019E), (0x0222, 0x0232, 2, 0x0223), (0x023A, 0x023A, 1, 0x2C65),
     (0x023B, 0x023B, 1, 0x023C), (0x023D, 0x023D, 1, 0x019A)]),
  (0x03A1,
    [(0x023E, 0x023E, 1, 0x2C66), (0x0241, 0x0241, 1, 0x0242), (0x0243, 0x0243, 1, 0x0180),
     (0x0244, 0x0244, 1, 0x0289), (0x0245, 0x0245, 1, 0x028C), (0x0246, 0x024E, 2, 0x0247),
     (0x0370, 0x0372, 2, 0x0371), (0x0376, 0x0376, 1, 0x0377), (0x037F, 0x037F, 1, 0x03F3),
     (0x0386, 0x0386, 1, 0x03AC), (0x0388, 0x038A, 1, 0x03AD), (0x038C, 0x038C, 1, 0x03CC),
     (0x038E, 0x038F, 1, 0x03CD), (0x0391, 0x03A1, 1, 0x03B1)]),
  (0x04CD,
    [(0x03A3, 0x03AB, 1, 0x03C3), (0x03CF, 0x03CF, 1, 0x03D7), (0x03D8, 0x03EE, 2, 0x03D9),
     (0x03F4, 0x03F4, 1, 0x03B8), (0x03F7, 0x03F7, 1, 0x03F8), (0x03F9, 0x03F9, 1, 0x03F2),
     (0x03FA, 0x03FA, 1, 0x03FB), (0x03FD, 0x03FF, 1, 0x037B), (0x0400, 0x040F, 1, 0x0450),
     (0x0410, 0x042F, 1, 0x0430), (0x0460, 0x0480, 2, 0x0461), (0x048A, 0x04BE, 2, 0x048B),
     (0x04C0, 0x04C0, 1, 0x04CF), (0x04C1, 0x04CD, 2, 0x04C2)]),
  (0x1F1D,
    [(0x04D0, 0x052E, 2, 0x04D1), (0x0531, 0x0556, 1, 0x0561), (0x10A0, 0x10C5, 1, 0x2D00),
     (0x10C7, 0x10C7, 1, 0x2D27), (0x10CD, 0x10CD, 1, 0x2D2D), (0x13A0, 0x13EF, 1, 0xAB70),
     (0x13F0, 0x13F5, 1, 0x13F8), (0x1C90, 0x1CBA, 1, 0x10D0), (0x1CBD, 0x1CBF, 1, 0x10FD),
     (0x1E00, 0x1E94, 2, 0x1E01), (0x1E9E, 0x1E9E, 1, 0x00DF), (0x1EA0, 0x1EFE, 2, 0x1EA1),
     (0x1F08, 0x1F0F, 1, 0x1F00), (0x1F18, 0x1F1D, 1, 0x1F10)]),
  (0x1FD9,
    [(0x1F28, 0x1F2F, 1, 0x1F20), (0x1F38, 0x1F3F, 1, 0x1F30), (0x1F48, 0x1F4D, 1, 0x1F40),
     (0x1F59, 0x1F5F, 2, 0x1F51), (0x1F68, 0x1F6F, 1, 0x1F60), (0x1F88, 0x1F8F, 1, 0x1F80),
     (0x1F98, 0x1F9F, 1, 0x1F90), (0x1FA8, 0x1FAF, 1, 0x1FA0), (0x1FB8, 0x1FB9, 1, 0x1FB0),
     (0x1FBA, 0x1FBB, 1, 0x1F70), (0x1FBC, 0x1FBC, 1, 0x1FB3), (0x1FC8, 0x1FCB, 1, 0x1F72),
     (0x1FCC, 0x1FCC, 1, 0x1FC3), (0x1FD8, 0x1FD9, 1, 0x1FD0)]),
  (0x24CF,
    [(0x1FDA, 0x1FDB, 1, 0x1F76), (0x1FE8, 0x1FE9, 1, 0x1FE0), (0x1FEA, 0x1FEB, 1, 0x1F7A),
     (0x1FEC, 0x1FEC, 1, 0x1FE5), (0x1FF8, 0x1FF9, 1, 0x1F78), (0x1FFA, 0x1FFB, 1, 0x1F7C),
     (0x1FFC, 0x1FFC, 1, 0x1FF3), (0x2126, 0x2126, 1, 0x03C9), (0x212A, 0x212A, 1, 0x006B),
     (0x212B, 0x212B, 1, 0x00E5), (0x2132, 0x2132, 1, 0x214E), (0x2160, 0x216F, 1, 0x2170),
     (0x2183, 0x2183, 1, 0x2184), (0x24B6, 0x24CF, 1, 0x24D0)]),
  (0x2CE2,
    [(0x2C00, 0x2C2F, 1, 0x2C30), (0x2C60, 0x2C60, 1, 0x2C61), (0x2C62, 0x2C62, 1, 0x026B),
     (0x2C63, 0x2C63, 1, 0x1D7D), (0x2C64, 0x2C64, 1, 0x027D), (0x2C67, 0x2C6B, 2, 0x2C68),
     (0x2C6D, 0x2C6D, 1, 0x0251), (0x2C6E, 0x2C6E, 1, 0x0271), (0x2C6F, 0x2C6F, 1, 0x0250),
     (0x2C70, 0x2C70, 1, 0x0252), (0x2C72, 0x2C72, 1, 0x2C73), (0x2C75, 0x2C75, 1, 0x2C76),
     (0x2C7E, 0x2C7F, 1, 0x023F), (0x2C80, 0x2CE2, 2, 0x2C81)]),
  (0xA7AA,
    [(0x2CEB, 0x2CED, 2, 0x2CEC), (0x2CF2, 0x2CF2, 1, 0x2CF3), (0xA640, 0xA66C, 2, 0xA641),
     (0xA680, 0xA69A, 2, 0xA681), (0xA722, 0xA72E, 2, 0xA723), (0xA732, 0xA76E, 2, 0xA733),
     (0xA779, 0xA77B, 2, 0xA77A), (0xA77D, 0xA77D, 1, 0x1D79), (0xA77E, 0xA786, 2, 0xA77F),
     (0xA78B, 0xA78B, 1, 0xA78C), (0xA78D, 0xA78D, 1, 0x0265), (0xA790, 0xA792, 2, 0xA791),
     (0xA796, 0xA7A8, 2, 0xA797), (0xA7AA, 0xA7AA, 1, 0x0266)]),
  (0xA7D0,
    [(0xA7AB, 0xA7AB, 1, 0x025C), (0xA7AC, 0xA7AC, 1, 0x0261), (0xA7AD, 0xA7AD, 1, 0x026C),
     (0xA7AE, 0xA7AE, 1, 0x026A), (0xA7B0, 0xA7B0, 1, 0x029E), (0xA7B1, 0xA7B1, 1, 0x0287),
     (0xA7B2, 0xA7B2, 1, 0x029D), (0xA7B3, 0xA7B3, 1, 0xAB53), (0xA7B4, 0xA7C2, 2, 0xA7B5),
     (0xA7C4, 0xA7C4, 1, 0xA794), (0xA7C5, 0xA7C5, 1, 0x0282), (0xA7C6, 0xA7C6, 1, 0x1D8E),
     (0xA7C7, 0xA7C9, 2, 0xA7C8), (0xA7D0, 0xA7D0, 1, 0xA7D1)]),
  (0x1E921,
    [(0xA7D6, 0xA7D8, 2, 0xA7D7), (0xA7F5, 0xA7F5, 1, 0xA7F6), (0xFF21, 0xFF3A, 1, 0xFF41),
     (0x10400, 0x10427, 1, 0x10428), (0x104B0, 0x104D3, 1, 0x104D8), (0x10570, 0x1057A, 1, 0x10597),
     (0x1057C, 0x1058A, 1, 0x105A3), (0x1058C, 0x10592, 1, 0x105B3), (0x10594, 0x10595, 1, 0x105BB),
     (0x10C80, 0x10CB2, 1, 0x10CC0), (0x118A0, 0x118BF, 1, 0x118C0), (0x16E40, 0x16E5F, 1, 0x16E60),
     (0x1E900, 0x1E921, 1, 0x1E922)])]

/-- Upper-case mappings of single code points to single code points (Unicode Character
Database 14.0.0, `UnicodeData.txt`). -/
def upperTable : Blocks CaseRun :=
  [(0x0185,
    [(0x0061, 0x007A, 1, 0x0041), (0x00B5, 0x00B5, 1, 0x039C), (0x00E0, 0x00F6, 1, 0x00C0),
     (0x00F8, 0x00FE, 1, 0x00D8), (0x00FF, 0x00FF, 1, 0x0178), (0x0101, 0x012F, 2, 0x0100),
     (0x0131, 0x0131, 1, 0x0049), (0x0133, 0x0137, 2, 0x0132), (0x013A, 0x0148, 2, 0x0139),
     (0x014B, 0x0177, 2, 0x014A), (0x017A, 0x017E, 2, 0x0179), (0x017F, 0x017F, 1, 0x0053),
     (0x0180, 0x0180, 1, 0x0243), (0x0183, 0x0185, 2, 0x0182)]),
  (0x01BD,
    [(0x0188, 0x0188, 1, 0x0187), (0x018C, 0x018C, 1, 0x018B), (0x0192, 0x0192, 1, 0x0191),
     (0x0195, 0x0195, 1, 0x01F6), (0x0199, 0x0199, 1, 0x0198), (0x019A, 0x019A, 1, 0x023D),
     (0x019E, 0x019E, 1, 0x0220), (0x01A1, 0x01A5, 2, 0x01A0), (0x01A8, 0x01A8, 1, 0x01A7),
     (0x01AD, 0x01AD, 1, 0x01AC), (0x01B0, 0x01B0, 1, 0x01AF), (0x01B4, 0x01B6, 2, 0x01B3),
     (0x01B9, 0x01B9, 1, 0x01B8), (0x01BD, 0x01BD, 1, 0x01BC)]),
  (0x021F,
    [(0x01BF, 0x01BF, 1, 0x01F7), (0x01C5, 0x01C5, 1, 0x01C4), (0x01C6, 0x01C6, 1, 0x01C4),
     (0x01C8, 0x01C8, 1, 0x01C7), (0x01C9, 0x01C9, 1, 0x01C7), (0x01CB, 0x01CB, 1, 0x01CA),
     (0x01CC, 0x01CC, 1, 0x01CA), (0x01CE, 0x01DC, 2, 0x01CD), (0x01DD, 0x01DD, 1, 0x018E),
     (0x01DF, 0x01EF, 2, 0x01DE), (0x01F2, 0x01F2, 1, 0x01F1), (0x01F3, 0x01F3, 1, 0x01F1),
     (0x01F5, 0x01F5, 1, 0x01F4), (0x01F9, 0x021F, 2, 0x01F8)]),
  (0x025C,
    [(0x0223, 0x0233, 2, 0x0222), (0x023C, 0x023C, 1, 0x023B), (0x023F, 0x0240, 1, 0x2C7E),
     (0x0242, 0x0242, 1, 0x0241), (0x0247, 0x024F, 2, 0x0246), (0x0250, 0x0250, 1, 0x2C6F),
     (0x0251, 0x0251, 1, 0x2C6D), (0x0252, 0x0252, 1, 0x2C70), (0x0253, 0x0253, 1, 0x0181),
     (0x0254, 0x0254, 1, 0x0186), (0x0256, 0x0257, 1, 0x0189), (0x0259, 0x0259, 1, 0x018F),
     (0x025B, 0x025B, 1, 0x0190), (0x025C, 0x025C, 1, 0xA7AB)]),
  (0x0275,
    [(0x0260, 0x0260, 1, 0x0193), (0x0261, 0x0261, 1, 0xA7AC), (0x0263, 0x0263, 1, 0x0194),
     (0x0265, 0x0265, 1, 0xA78D), (0x0266, 0x0266, 1, 0xA7AA), (0x0268, 0x0268, 1, 0x0197),
     (0x0269, 0x0269, 1, 0x0196), (0x026A, 0x026A, 1, 0xA7AE), (0x026B, 0x026B, 1, 0x2C62),
     (0x026C, 0x026C, 1, 0xA7AD), (0x026F, 0x026F, 1, 0x019C), (0x0271, 0x0271, 1, 0x2C6E),
     (0x0272, 0x0272, 1, 0x019D), (0x0275, 0x0275, 1, 0x019F)]),
  (0x0373,
    [(0x027D, 0x027D, 1, 0x2C64), (0x0280, 0x0280, 1, 0x01A6), (0x0282, 0x0282, 1, 0xA7C5),
     (0x0283, 0x0283, 1, 0x01A9), (0x0287, 0x0287, 1, 0xA7B1), (0x0288, 0x0288, 1, 0x01AE),
     (0x0289, 0x0289, 1, 0x0244), (0x028A, 0x028B, 1, 0x01B1), (0x028C, 0x028C, 1, 0x0245),
     (0x0292, 0x0292, 1, 0x01B7), (0x029D, 0x029D, 1, 0xA7B2), (0x029E, 0x029E, 1, 0xA7B0),
     (0x0345, 0x0345, 1, 0x0399), (0x0371, 0x0373, 2, 0x0370)]),
  (0x03D7,
    [(0x0377, 0x0377, 1, 0x0376), (0x037B, 0x037D, 1, 0x03FD), (0x03AC, 0x03AC, 1, 0x0386),
     (0x03AD, 0x03AF, 1, 0x0388), (0x03B1, 0x03C1, 1, 0x0391), (0x03C2, 0x03C2, 1, 0x03A3),
     (0x03C3, 0x03CB, 1, 0x03A3), (0x03CC, 0x03CC, 1, 0x038C), (0x03CD, 0x03CE, 1, 0x038E),
     (0x03D0, 0x03D0, 1, 0x0392), (0x03D1, 0x03D1, 1, 0x0398), (0x03D5, 0x03D5, 1, 0x03A6),
     (0x03D6, 0x03D6, 1, 0x03A0), (0x03D7, 0x03D7, 1, 0x03CF)]),
  (0x04CF,
    [(0x03D9, 0x03EF, 2, 0x03D8), (0x03F0, 0x03F0, 1, 0x039A), (0x03F1, 0x03F1, 1, 0x03A1),
     (0x03F2, 0x03F2, 1, 0x03F9), (0x03F3, 0x03F3, 1, 0x037F), (0x03F5, 0x03F5, 1, 0x0395),
     (0x03F8, 0x03F8, 1, 0x03F7), (0x03FB, 0x03FB, 1, 0x03FA), (0x0430, 0x044F, 1, 0x0410),
     (0x0450, 0x045F, 1, 0x0400), (0x0461, 0x0481, 2, 0x0460), (0x048B, 0x04BF, 2, 0x048A),
     (0x04C2, 0x04CE, 2, 0x04C1), (0x04CF, 0x04CF, 1, 0x04C0)]),
  (0x1D79,
    [(0x04D1, 0x052F, 2, 0x04D0), (0x0561, 0x0586, 1, 0x0531), (0x10D0, 0x10FA, 1, 0x1C90),
     (0x10FD, 0x10FF, 1, 0x1CBD), (0x13F8, 0x13FD, 1, 0x13F0), (0x1C80, 0x1C80, 1, 0x0412),
     (0x1C81, 0x1C81, 1, 0x0414), (0x1C82, 0x1C82, 1, 0x041E), (0x1C83, 0x1C84, 1, 0x0421),
     (0x1C85, 0x1C85, 1, 0x0422), (0x1C86, 0x1C86, 1, 0x042A), (0x1C87, 0x1C87, 1, 0x0462),
     (0x1C88, 0x1C88, 1, 0xA64A), (0x1D79, 0x1D79, 1, 0xA77D)]),
  (0x1F75,
    [(0x1D7D, 0x1D7D, 1, 0x2C63), (0x1D8E, 0x1D8E, 1, 0xA7C6), (0x1E01, 0x1E95, 2, 0x1E00),
     (0x1E9B, 0x1E9B, 1, 0x1E60), (0x1EA1, 0x1EFF, 2, 0x1EA0), (0x1F00, 0x1F07, 1, 0x1F08),
     (0x1F10, 0x1F15, 1, 0x1F18), (0x1F20, 0x1F27, 1, 0x1F28), (0x1F30, 0x1F37, 1, 0x1F38),
     (0x1F40, 0x1F45, 1, 0x1F48), (0x1F51, 0x1F57, 2, 0x1F59), (0x1F60, 0x1F67, 1, 0x1F68),
     (0x1F70, 0x1F71, 1, 0x1FBA), (0x1F72, 0x1F75, 1, 0x1FC8)]),
  (0x2C5F,
    [(0x1F76, 0x1F77, 1, 0x1FDA), (0x1F78, 0x1F79, 1, 0x1FF8), (0x1F7A, 0x1F7B, 1, 0x1FEA),
     (0x1F7C, 0x1F7D, 1, 0x1FFA), (0x1FB0, 0x1FB1, 1, 0x1FB8), (0x1FBE, 0x1FBE, 1, 0x0399),
     (0x1FD0, 0x1FD1, 1, 0x1FD8), (0x1FE0, 0x1FE1, 1, 0x1FE8), (0x1FE5, 0x1FE5, 1, 0x1FEC),
     (0x214E, 0x214E, 1, 0x2132), (0x2170, 0x217F, 1, 0x2160), (0x2184, 0x2184, 1, 0x2183),
     (0x24D0, 0x24E9, 1, 0x24B6), (0x2C30, 0x2C5F, 1, 0x2C00)]),
  (0xA69B,
    [(0x2C61, 0x2C61, 1, 0x2C60), (0x2C65, 0x2C65, 1, 0x023A), (0x2C66, 0x2C66, 1, 0x023E),
     (0x2C68, 0x2C6C, 2, 0x2C67), (0x2C73, 0x2C73, 1, 0x2C72), (0x2C76, 0x2C76, 1, 0x2C75),
     (0x2C81, 0x2CE3, 2, 0x2C80), (0x2CEC, 0x2CEE, 2, 0x2CEB), (0x2CF3, 0x2CF3, 1, 0x2CF2),
     (0x2D00, 0x2D25, 1, 0x10A0), (0x2D27, 0x2D27, 1, 0x10C7), (0x2D2D, 0x2D2D, 1, 0x10CD),
     (0xA641, 0xA66D, 2, 0xA640), (0xA681, 0xA69B, 2, 0xA680)]),
  (0xAB53,
    [(0xA723, 0xA72F, 2, 0xA722), (0xA733, 0xA76F, 2, 0xA732), (0xA77A, 0xA77C, 2, 0xA779),
     (0xA77F, 0xA787, 2, 0xA77E), (0xA78C, 0xA78C, 1, 0xA78B), (0xA791, 0xA793, 2, 0xA790),
     (0xA794, 0xA794, 1, 0xA7C4), (0xA797, 0xA7A9, 2, 0xA796), (0xA7B5, 0xA7C3, 2, 0xA7B4),
     (0xA7C8, 0xA7CA, 2, 0xA7C7), (0xA7D1, 0xA7D1, 1, 0xA7D0), (0xA7D7, 0xA7D9, 2, 0xA7D6),
     (0xA7F6, 0xA7F6, 1, 0xA7F5), (0xAB53, 0xAB53, 1, 0xA7B3)]),
  (0x1E943,
    [(0xAB70, 0xABBF, 1, 0x13A0), (0xFF41, 0xFF5A, 1, 0xFF21), (0x10428, 0x1044F, 1, 0x10400),
     (0x104D8, 0x104FB, 1, 0x104B0), (0x10597, 0x105A1, 1, 0x10570), (0x105A3, 0x105B1, 1, 0x1057C),
     (0x105B3, 0x105B9, 1, 0x1058C), (0x105BB, 0x105BC, 1, 0x10594), (0x10CC0, 0x10CF2, 1, 0x10C80),
     (0x118C0, 0x118DF, 1, 0x118A0), (0x16E60, 0x16E7F, 1, 0x16E40),
     (0x1E922, 0x1E943, 1, 0x1E900)])]

/-- Upper-case mappings to more than one code point (Unicode Character Database 14.0.0,
`SpecialCasing.txt`, the mappings without condition), such as U+00DF to `SS`. -/
def upperSpecial : Blocks (Nat × List Nat) :=
  [(0x1E9A,
    [(0x00DF, [0x0053, 0x0053]), (0x0149, [0x02BC, 0x004E]), (0x01F0, [0x004A, 0x030C]),
     (0x0390, [0x0399, 0x0308, 0x0301]), (0x03B0, [0x03A5, 0x0308, 0x0301]),
     (0x0587, [0x0535, 0x0552]),
     (0x1E96, [0x0048, 0x0331]), (0x1E97, [0x0054, 0x0308]), (0x1E98, [0x0057, 0x030A]),
     (0x1E99, [0x0059, 0x030A]), (0x1E9A, [0x0041, 0x02BE])]),
  (0x1F86,
    [(0x1F50, [0x03A5, 0x0313]), (0x1F52, [0x03A5, 0x0313, 0x0300]),
     (0x1F54, [0x03A5, 0x0313, 0x0301]),
     (0x1F56, [0x03A5, 0x0313, 0x0342]), (0x1F80, [0x1F08, 0x0399]), (0x1F81, [0x1F09, 0x0399]),
     (0x1F82, [0x1F0A, 0x0399]), (0x1F83, [0x1F0B, 0x0399]), (0x1F84, [0x1F0C, 0x0399]),
     (0x1F85, [0x1F0D, 0x0399]), (0x1F86, [0x1F0E, 0x0399])]),
  (0x1F91,
    [(0x1F87, [0x1F0F, 0x0399]), (0x1F88, [0x1F08, 0x0399]), (0x1F89, [0x1F09, 0x0399]),
     (0x1F8A, [0x1F0A, 0x0399]), (0x1F8B, [0x1F0B, 0x0399]), (0x1F8C, [0x1F0C, 0x0399]),
     (0x1F8D, [0x1F0D, 0x0399]), (0x1F8E, [0x1F0E, 0x0399]), (0x1F8F, [0x1F0F, 0x0399]),
     (0x1F90, [0x1F28, 0x0399]), (0x1F91, [0x1F29, 0x0399])]),
  (0x1F9C,
    [(0x1F92, [0x1F2A, 0x0399]), (0x1F93, [0x1F2B, 0x0399]), (0x1F94, [0x1F2C, 0x0399]),
     (0x1F95, [0x1F2D, 0x0399]), (0x1F96, [0x1F2E, 0x0399]), (0x1F97, [0x1F2F, 0x0399]),
     (0x1F98, [0x1F28, 0x0399]), (0x1F99, [0x1F29, 0x0399]), (0x1F9A, [0x1F2A, 0x0399]),
     (0x1F9B, [0x1F2B, 0x0399]), (0x1F9C, [0x1F2C, 0x0399])]),
  (0x1FA7,
    [(0x1F9D, [0x1F2D, 0x0399]), (0x1F9E, [0x1F2E, 0x0399]), (0x1F9F, [0x1F2F, 0x0399]),
     (0x1FA0, [0x1F68, 0x0399]), (0x1FA1, [0x1F69, 0x0399]), (0x1FA2, [0x1F6A, 0x0399]),
     (0x1FA3, [0x1F6B, 0x0399]), (0x1FA4, [0x1F6C, 0x0399]), (0x1FA5, [0x1F6D, 0x0399]),
     (0x1FA6, [0x1F6E, 0x0399]), (0x1FA7, [0x1F6F, 0x0399])]),
  (0x1FB4,
    [(0x1FA8, [0x1F68, 0x0399]), (0x1FA9, [0x1F69, 0x0399]), (0x1FAA, [0x1F6A, 0x0399]),
     (0x1FAB, [0x1F6B, 0x0399]), (0x1FAC, [0x1F6C, 0x0399]), (0x1FAD, [0x1F6D, 0x0399]),
     (0x1FAE, [0x1F6E, 0x0399]), (0x1FAF, [0x1F6F, 0x0399]), (0x1FB2, [0x1FBA, 0x0399]),
     (0x1FB3, [0x0391, 0x0399]), (0x1FB4, [0x0386, 0x0399])]),
  (0x1FD3,
    [(0x1FB6, [0x0391, 0x0342]), (0x1FB7, [0x0391, 0x0342, 0x0399]), (0x1FBC, [0x0391, 0x0399]),
     (0x1FC2, [0x1FCA, 0x0399]), (0x1FC3, [0x0397, 0x0399]), (0x1FC4, [0x0389, 0x0399]),
     (0x1FC6, [0x0397, 0x0342]), (0x1FC7, [0x0397, 0x0342, 0x0399]), (0x1FCC, [0x0397, 0x0399]),
     (0x1FD2, [0x0399, 0x0308, 0x0300]), (0x1FD3, [0x0399, 0x0308, 0x0301])]),
  (0x1FF6,
    [(0x1FD6, [0x0399, 0x0342]), (0x1FD7, [0x0399, 0x0308, 0x0342]),
     (0x1FE2, [0x03A5, 0x0308, 0x0300]),
     (0x1FE3, [0x03A5, 0x0308, 0x0301]), (0x1FE4, [0x03A1, 0x0313]), (0x1FE6, [0x03A5, 0x0342]),
     (0x1FE7, [0x03A5, 0x0308, 0x0342]), (0x1FF2, [0x1FFA, 0x0399]), (0x1FF3, [0x03A9, 0x0399]),
     (0x1FF4, [0x038F, 0x0399]), (0x1FF6, [0x03A9, 0x0342])]),
  (0xFB14,
    [(0x1FF7, [0x03A9, 0x0342, 0x0399]), (0x1FFC, [0x03A9, 0x0399]), (0xFB00, [0x0046, 0x0046]),
     (0xFB01, [0x0046, 0x0049]), (0xFB02, [0x0046, 0x004C]), (0xFB03, [0x0046, 0x0046, 0x0049]),
     (0xFB04, [0x0046, 0x0046, 0x004C]), (0xFB05, [0x0053, 0x0054]), (0xFB06, [0x0053, 0x0054]),
     (0xFB13, [0x0544, 0x0546]), (0xFB14, [0x0544, 0x0535])]),
  (0xFB17,
    [(0xFB15, [0x0544, 0x053B]), (0xFB16, [0x054E, 0x0546]), (0xFB17, [0x0544, 0x053D])])]

/-- Ranges of the code points that are cased and not case-ignorable (Unicode Character
Database 14.0.0, `DerivedCoreProperties.txt`). -/
def casedRanges : Blocks (Nat × Nat) :=
  [(0x0377,
    [(0x0041, 0x005A), (0x0061, 0x007A), (0x00AA, 0x00AA), (0x00B5, 0x00B5), (0x00BA, 0x00BA),
     (0x00C0, 0x00D6), (0x00D8, 0x00F6), (0x00F8, 0x01BA), (0x01BC, 0x01BF), (0x01C4, 0x0293),
     (0x0295, 0x02AF), (0x0370, 0x0373), (0x0376, 0x0377)]),
  (0x10C7,
    [(0x037B, 0x037D), (0x037F, 0x037F), (0x0386, 0x0386), (0x0388, 0x038A), (0x038C, 0x038C),
     (0x038E, 0x03A1), (0x03A3, 0x03F5), (0x03F7, 0x0481), (0x048A, 0x052F), (0x0531, 0x0556),
     (0x0560, 0x0588), (0x10A0, 0x10C5), (0x10C7, 0x10C7)]),
  (0x1F1D,
    [(0x10CD, 0x10CD), (0x10D0, 0x10FA), (0x10FD, 0x10FF), (0x13A0, 0x13F5), (0x13F8, 0x13FD),
     (0x1C80, 0x1C88), (0x1C90, 0x1CBA), (0x1CBD, 0x1CBF), (0x1D00, 0x1D2B), (0x1D6B, 0x1D77),
     (0x1D79, 0x1D9A), (0x1E00, 0x1F15), (0x1F18, 0x1F1D)]),
  (0x1FD3,
    [(0x1F20, 0x1F45), (0x1F48, 0x1F4D), (0x1F50, 0x1F57), (0x1F59, 0x1F59), (0x1F5B, 0x1F5B),
     (0x1F5D, 0x1F5D), (0x1F5F, 0x1F7D), (0x1F80, 0x1FB4), (0x1FB6, 0x1FBC), (0x1FBE, 0x1FBE),
     (0x1FC2, 0x1FC4), (0x1FC6, 0x1FCC), (0x1FD0, 0x1FD3)]),
  (0x212D,
    [(0x1FD6, 0x1FDB), (0x1FE0, 0x1FEC), (0x1FF2, 0x1FF4), (0x1FF6, 0x1FFC), (0x2102, 0x2102),
     (0x2107, 0x2107), (0x210A, 0x2113), (0x2115, 0x2115), (0x2119, 0x211D), (0x2124, 0x2124),
     (0x2126, 0x2126), (0x2128, 0x2128), (0x212A, 0x212D)]),
  (0x2D25,
    [(0x212F, 0x2134), (0x2139, 0x2139), (0x213C, 0x213F), (0x2145, 0x2149), (0x214E, 0x214E),
     (0x2160, 0x217F), (0x2183, 0x2184), (0x24B6, 0x24E9), (0x2C00, 0x2C7B), (0x2C7E, 0x2CE4),
     (0x2CEB, 0x2CEE), (0x2CF2, 0x2CF3), (0x2D00, 0x2D25)]),
  (0xA7FA,
    [(0x2D27, 0x2D27), (0x2D2D, 0x2D2D), (0xA640, 0xA66D), (0xA680, 0xA69B), (0xA722, 0xA76F),
     (0xA771, 0xA787), (0xA78B, 0xA78E), (0xA790, 0xA7CA), (0xA7D0, 0xA7D1), (0xA7D3, 0xA7D3),
     (0xA7D5, 0xA7D9), (0xA7F5, 0xA7F6), (0xA7FA, 0xA7FA)]),
  (0x10592,
    [(0xAB30, 0xAB5A), (0xAB60, 0xAB68), (0xAB70, 0xABBF), (0xFB00, 0xFB06), (0xFB13, 0xFB17),
     (0xFF21, 0xFF3A), (0xFF41, 0xFF5A), (0x10400, 0x1044F), (0x104B0, 0x104D3), (0x104D8, 0x104FB),
     (0x10570, 0x1057A), (0x1057C, 0x1058A), (0x1058C, 0x10592)]),
  (0x1D4A2,
    [(0x10594, 0x10595), (0x10597, 0x105A1), (0x105A3, 0x105B1), (0x105B3, 0x105B9),
     (0x105BB, 0x105BC),
     (0x10C80, 0x10CB2), (0x10CC0, 0x10CF2), (0x118A0, 0x118DF), (0x16E40, 0x16E7F),
     (0x1D400, 0x1D454),
     (0x1D456, 0x1D49C), (0x1D49E, 0x1D49F), (0x1D4A2, 0x1D4A2)]),
  (0x1D546,
    [(0x1D4A5, 0x1D4A6), (0x1D4A9, 0x1D4AC), (0x1D4AE, 0x1D4B9), (0x1D4BB, 0x1D4BB),
     (0x1D4BD, 0x1D4C3),
     (0x1D4C5, 0x1D505), (0x1D507, 0x1D50A), (0x1D50D, 0x1D514), (0x1D516, 0x1D51C),
     (0x1D51E, 0x1D539),
     (0x1D53B, 0x1D53E), (0x1D540, 0x1D544), (0x1D546, 0x1D546)]),
  (0x1D7CB,
    [(0x1D54A, 0x1D550), (0x1D552, 0x1D6A5), (0x1D6A8, 0x1D6C0), (0x1D6C2, 0x1D6DA),
     (0x1D6DC, 0x1D6FA),
     (0x1D6FC, 0x1D714), (0x1D716, 0x1D734), (0x1D736, 0x1D74E), (0x1D750, 0x1D76E),
     (0x1D770, 0x1D788),
     (0x1D78A, 0x1D7A8), (0x1D7AA, 0x1D7C2), (0x1D7C4, 0x1D7CB)]),
  (0x1F189,
    [(0x1DF00, 0x1DF09), (0x1DF0B, 0x1DF1E), (0x1E900, 0x1E943), (0x1F130, 0x1F149),
     (0x1F150, 0x1F169),
     (0x1F170, 0x1F189)])]

/-- Ranges of the case-ignorable code points (Unicode Character Database 14.0.0,
`DerivedCoreProperties.txt`). -/
def ignorableRanges : Blocks (Nat × Nat) :=
  [(0x05C2,
    [(0x0027, 0x0027), (0x002E, 0x002E), (0x003A, 0x003A), (0x005E, 0x005E), (0x0060, 0x0060),
     (0x00A8, 0x00A8), (0x00AD, 0x00AD), (0x00AF, 0x00AF), (0x00B4, 0x00B4), (0x00B7, 0x00B8),
     (0x02B0, 0x036F), (0x0374, 0x0375), (0x037A, 0x037A), (0x0384, 0x0385), (0x0387, 0x0387),
     (0x0483, 0x0489), (0x0559, 0x0559), (0x055F, 0x055F), (0x0591, 0x05BD), (0x05BF, 0x05BF),
     (0x05C1, 0x05C2)]),
  (0x085B,
    [(0x05C4, 0x05C5), (0x05C7, 0x05C7), (0x05F4, 0x05F4), (0x0600, 0x0605), (0x0610, 0x061A),
     (0x061C, 0x061C), (0x0640, 0x0640), (0x064B, 0x065F), (0x0670, 0x0670), (0x06D6, 0x06DD),
     (0x06DF, 0x06E8), (0x06EA, 0x06ED), (0x070F, 0x070F), (0x0711, 0x0711), (0x0730, 0x074A),
     (0x07A6, 0x07B0), (0x07EB, 0x07F5), (0x07FA, 0x07FA), (0x07FD, 0x07FD), (0x0816, 0x082D),
     (0x0859, 0x085B)]),
  (0x0A48,
    [(0x0888, 0x0888), (0x0890, 0x0891), (0x0898, 0x089F), (0x08C9, 0x0902), (0x093A, 0x093A),
     (0x093C, 0x093C), (0x0941, 0x0948), (0x094D, 0x094D), (0x0951, 0x0957), (0x0962, 0x0963),
     (0x0971, 0x0971), (0x0981, 0x0981), (0x09BC, 0x09BC), (0x09C1, 0x09C4), (0x09CD, 0x09CD),
     (0x09E2, 0x09E3), (0x09FE, 0x09FE), (0x0A01, 0x0A02), (0x0A3C, 0x0A3C), (0x0A41, 0x0A42),
     (0x0A47, 0x0A48)]),
  (0x0BCD,
    [(0x0A4B, 0x0A4D), (0x0A51, 0x0A51), (0x0A70, 0x0A71), (0x0A75, 0x0A75), (0x0A81, 0x0A82),
     (0x0ABC, 0x0ABC), (0x0AC1, 0x0AC5), (0x0AC7, 0x0AC8), (0x0ACD, 0x0ACD), (0x0AE2, 0x0AE3),
     (0x0AFA, 0x0AFF), (0x0B01, 0x0B01), (0x0B3C, 0x0B3C), (0x0B3F, 0x0B3F), (0x0B41, 0x0B44),
     (0x0B4D, 0x0B4D), (0x0B55, 0x0B56), (0x0B62, 0x0B63), (0x0B82, 0x0B82), (0x0BC0, 0x0BC0),
     (0x0BCD, 0x0BCD)]),
  (0x0DCA,
    [(0x0C00, 0x0C00), (0x0C04, 0x0C04), (0x0C3C, 0x0C3C), (0x0C3E, 0x0C40), (0x0C46, 0x0C48),
     (0x0C4A, 0x0C4D), (0x0C55, 0x0C56), (0x0C62, 0x0C63), (0x0C81, 0x0C81), (0x0CBC, 0x0CBC),
     (0x0CBF, 0x0CBF), (0x0CC6, 0x0CC6), (0x0CCC, 0x0CCD), (0x0CE2, 0x0CE3), (0x0D00, 0x0D01),
     (0x0D3B, 0x0D3C), (0x0D41, 0x0D44), (0x0D4D, 0x0D4D), (0x0D62, 0x0D63), (0x0D81, 0x0D81),
     (0x0DCA, 0x0DCA)]),
  (0x1037,
    [(0x0DD2, 0x0DD4), (0x0DD6, 0x0DD6), (0x0E31, 0x0E31), (0x0E34, 0x0E3A), (0x0E46, 0x0E4E),
     (0x0EB1, 0x0EB1), (0x0EB4, 0x0EBC), (0x0EC6, 0x0EC6), (0x0EC8, 0x0ECD), (0x0F18, 0x0F19),
     (0x0F35, 0x0F35), (0x0F37, 0x0F37), (0x0F39, 0x0F39), (0x0F71, 0x0F7E), (0x0F80, 0x0F84),
     (0x0F86, 0x0F87), (0x0F8D, 0x0F97), (0x0F99, 0x0FBC), (0x0FC6, 0x0FC6), (0x102D, 0x1030),
     (0x1032, 0x1037)]),
  (0x17DD,
    [(0x1039, 0x103A), (0x103D, 0x103E), (0x1058, 0x1059), (0x105E, 0x1060), (0x1071, 0x1074),
     (0x1082, 0x1082), (0x1085, 0x1086), (0x108D, 0x108D), (0x109D, 0x109D), (0x10FC, 0x10FC),
     (0x135D, 0x135F), (0x1712, 0x1714), (0x1732, 0x1733), (0x1752, 0x1753), (0x1772, 0x1773),
     (0x17B4, 0x17B5), (0x17B7, 0x17BD), (0x17C6, 0x17C6), (0x17C9, 0x17D3), (0x17D7, 0x17D7),
     (0x17DD, 0x17DD)]),
  (0x1B34,
    [(0x180B, 0x180F), (0x1843, 0x1843), (0x1885, 0x1886), (0x18A9, 0x18A9), (0x1920, 0x1922),
     (0x1927, 0x1928), (0x1932, 0x1932), (0x1939, 0x193B), (0x1A17, 0x1A18), (0x1A1B, 0x1A1B),
     (0x1A56, 0x1A56), (0x1A58, 0x1A5E), (0x1A60, 0x1A60), (0x1A62, 0x1A62), (0x1A65, 0x1A6C),
     (0x1A73, 0x1A7C), (0x1A7F, 0x1A7F), (0x1AA7, 0x1AA7), (0x1AB0, 0x1ACE), (0x1B00, 0x1B03),
     (0x1B34, 0x1B34)]),
  (0x1CF9,
    [(0x1B36, 0x1B3A), (0x1B3C, 0x1B3C), (0x1B42, 0x1B42), (0x1B6B, 0x1B73), (0x1B80, 0x1B81),
     (0x1BA2, 0x1BA5), (0x1BA8, 0x1BA9), (0x1BAB, 0x1BAD), (0x1BE6, 0x1BE6), (0x1BE8, 0x1BE9),
     (0x1BED, 0x1BED), (0x1BEF, 0x1BF1), (0x1C2C, 0x1C33), (0x1C36, 0x1C37), (0x1C78, 0x1C7D),
     (0x1CD0, 0x1CD2), (0x1CD4, 0x1CE0), (0x1CE2, 0x1CE8), (0x1CED, 0x1CED), (0x1CF4, 0x1CF4),
     (0x1CF8, 0x1CF9)]),
  (0x2C7D,
    [(0x1D2C, 0x1D6A), (0x1D78, 0x1D78), (0x1D9B, 0x1DFF), (0x1FBD, 0x1FBD), (0x1FBF, 0x1FC1),
     (0x1FCD, 0x1FCF), (0x1FDD, 0x1FDF), (0x1FED, 0x1FEF), (0x1FFD, 0x1FFE), (0x200B, 0x200F),
     (0x2018, 0x2019), (0x2024, 0x2024), (0x2027, 0x2027), (0x202A, 0x202E), (0x2060, 0x2064),
     (0x2066, 0x206F), (0x2071, 0x2071), (0x207F, 0x207F), (0x2090, 0x209C), (0x20D0, 0x20F0),
     (0x2C7C, 0x2C7D)]),
  (0xA770,
    [(0x2CEF, 0x2CF1), (0x2D6F, 0x2D6F), (0x2D7F, 0x2D7F), (0x2DE0, 0x2DFF), (0x2E2F, 0x2E2F),
     (0x3005, 0x3005), (0x302A, 0x302D), (0x3031, 0x3035), (0x303B, 0x303B), (0x3099, 0x309E),
     (0x30FC, 0x30FE), (0xA015, 0xA015), (0xA4F8, 0xA4FD), (0xA60C, 0xA60C), (0xA66F, 0xA672),
     (0xA674, 0xA67D), (0xA67F, 0xA67F), (0xA69C, 0xA69F), (0xA6F0, 0xA6F1), (0xA700, 0xA721),
     (0xA770, 0xA770)]),
  (0xAA32,
    [(0xA788, 0xA78A), (0xA7F2, 0xA7F4), (0xA7F8, 0xA7F9), (0xA802, 0xA802), (0xA806, 0xA806),
     (0xA80B, 0xA80B), (0xA825, 0xA826), (0xA82C, 0xA82C), (0xA8C4, 0xA8C5), (0xA8E0, 0xA8F1),
     (0xA8FF, 0xA8FF), (0xA926, 0xA92D), (0xA947, 0xA951), (0xA980, 0xA982), (0xA9B3, 0xA9B3),
     (0xA9B6, 0xA9B9), (0xA9BC, 0xA9BD), (0xA9CF, 0xA9CF), (0xA9E5, 0xA9E6), (0xAA29, 0xAA2E),
     (0xAA31, 0xAA32)]),
  (0xFBC2,
    [(0xAA35, 0xAA36), (0xAA43, 0xAA43), (0xAA4C, 0xAA4C), (0xAA70, 0xAA70), (0xAA7C, 0xAA7C),
     (0xAAB0, 0xAAB0), (0xAAB2, 0xAAB4), (0xAAB7, 0xAAB8), (0xAABE, 0xAABF), (0xAAC1, 0xAAC1),
     (0xAADD, 0xAADD), (0xAAEC, 0xAAED), (0xAAF3, 0xAAF4), (0xAAF6, 0xAAF6), (0xAB5B, 0xAB5F),
     (0xAB69, 0xAB6B), (0xABE5, 0xABE5), (0xABE8, 0xABE8), (0xABED, 0xABED), (0xFB1E, 0xFB1E),
     (0xFBB2, 0xFBC2)]),
  (0x107BA,
    [(0xFE00, 0xFE0F), (0xFE13, 0xFE13), (0xFE20, 0xFE2F), (0xFE52, 0xFE52), (0xFE55, 0xFE55),
     (0xFEFF, 0xFEFF), (0xFF07, 0xFF07), (0xFF0E, 0xFF0E), (0xFF1A, 0xFF1A), (0xFF3E, 0xFF3E),
     (0xFF40, 0xFF40), (0xFF70, 0xFF70), (0xFF9E, 0xFF9F), (0xFFE3, 0xFFE3), (0xFFF9, 0xFFFB),
     (0x101FD, 0x101FD), (0x102E0, 0x102E0), (0x10376, 0x1037A), (0x10780, 0x10785),
     (0x10787, 0x107B0),
     (0x107B2, 0x107BA)]),
  (0x11102,
    [(0x10A01, 0x10A03), (0x10A05, 0x10A06), (0x10A0C, 0x10A0F), (0x10A38, 0x10A3A),
     (0x10A3F, 0x10A3F),
     (0x10AE5, 0x10AE6), (0x10D24, 0x10D27), (0x10EAB, 0x10EAC), (0x10F46, 0x10F50),
     (0x10F82, 0x10F85),
     (0x11001, 0x11001), (0x11038, 0x11046), (0x11070, 0x11070), (0x11073, 0x11074),
     (0x1107F, 0x11081),
     (0x110B3, 0x110B6), (0x110B9, 0x110BA), (0x110BD, 0x110BD), (0x110C2, 0x110C2),
     (0x110CD, 0x110CD),
     (0x11100, 0x11102)]),
  (0x11446,
    [(0x11127, 0x1112B), (0x1112D, 0x11134), (0x11173, 0x11173), (0x11180, 0x11181),
     (0x111B6, 0x111BE),
     (0x111C9, 0x111CC), (0x111CF, 0x111CF), (0x1122F, 0x11231), (0x11234, 0x11234),
     (0x11236, 0x11237),
     (0x1123E, 0x1123E), (0x112DF, 0x112DF), (0x112E3, 0x112EA), (0x11300, 0x11301),
     (0x1133B, 0x1133C),
     (0x11340, 0x11340), (0x11366, 0x1136C), (0x11370, 0x11374), (0x11438, 0x1143F),
     (0x11442, 0x11444),
     (0x11446, 0x11446)]),
  (0x1183A,
    [(0x1145E, 0x1145E), (0x114B3, 0x114B8), (0x114BA, 0x114BA), (0x114BF, 0x114C0),
     (0x114C2, 0x114C3),
     (0x115B2, 0x115B5), (0x115BC, 0x115BD), (0x115BF, 0x115C0), (0x115DC, 0x115DD),
     (0x11633, 0x1163A),
     (0x1163D, 0x1163D), (0x1163F, 0x11640), (0x116AB, 0x116AB), (0x116AD, 0x116AD),
     (0x116B0, 0x116B5),
     (0x116B7, 0x116B7), (0x1171D, 0x1171F), (0x11722, 0x11725), (0x11727, 0x1172B),
     (0x1182F, 0x11837),
     (0x11839, 0x1183A)]),
  (0x11CB6,
    [(0x1193B, 0x1193C), (0x1193E, 0x1193E), (0x11943, 0x11943), (0x119D4, 0x119D7),
     (0x119DA, 0x119DB),
     (0x119E0, 0x119E0), (0x11A01, 0x11A0A), (0x11A33, 0x11A38), (0x11A3B, 0x11A3E),
     (0x11A47, 0x11A47),
     (0x11A51, 0x11A56), (0x11A59, 0x11A5B), (0x11A8A, 0x11A96), (0x11A98, 0x11A99),
     (0x11C30, 0x11C36),
     (0x11C38, 0x11C3D), (0x11C3F, 0x11C3F), (0x11C92, 0x11CA7), (0x11CAA, 0x11CB0),
     (0x11CB2, 0x11CB3),
     (0x11CB5, 0x11CB6)]),
  (0x1BC9E,
    [(0x11D31, 0x11D36), (0x11D3A, 0x11D3A), (0x11D3C, 0x11D3D), (0x11D3F, 0x11D45),
     (0x11D47, 0x11D47),
     (0x11D90, 0x11D91), (0x11D95, 0x11D95), (0x11D97, 0x11D97), (0x11EF3, 0x11EF4),
     (0x13430, 0x13438),
     (0x16AF0, 0x16AF4), (0x16B30, 0x16B36), (0x16B40, 0x16B43), (0x16F4F, 0x16F4F),
     (0x16F8F, 0x16F9F),
     (0x16FE0, 0x16FE1), (0x16FE3, 0x16FE4), (0x1AFF0, 0x1AFF3), (0x1AFF5, 0x1AFFB),
     (0x1AFFD, 0x1AFFE),
     (0x1BC9D, 0x1BC9E)]),
  (0x1E2AE,
    [(0x1BCA0, 0x1BCA3), (0x1CF00, 0x1CF2D), (0x1CF30, 0x1CF46), (0x1D167, 0x1D169),
     (0x1D173, 0x1D182),
     (0x1D185, 0x1D18B), (0x1D1AA, 0x1D1AD), (0x1D242, 0x1D244), (0x1DA00, 0x1DA36),
     (0x1DA3B, 0x1DA6C),
     (0x1DA75, 0x1DA75), (0x1DA84, 0x1DA84), (0x1DA9B, 0x1DA9F), (0x1DAA1, 0x1DAAF),
     (0x1E000, 0x1E006),
     (0x1E008, 0x1E018), (0x1E01B, 0x1E021), (0x1E023, 0x1E024), (0x1E026, 0x1E02A),
     (0x1E130, 0x1E13D),
     (0x1E2AE, 0x1E2AE)]),
  (0xE01EF,
    [(0x1E2EC, 0x1E2EF), (0x1E8D0, 0x1E8D6), (0x1E944, 0x1E94B), (0x1F3FB, 0x1F3FF),
     (0xE0001, 0xE0001),
     (0xE0020, 0xE007F), (0xE0100, 0xE01EF)])]

/-- Lower-case mapping of one character out of context: U+0130 gives two characters, every
other character the one of `lowerTable` (which maps U+03A3 to U+03C3). -/
def lowerChar (c : Char) : List Char :=
  if c.toNat = 0x130 then [Char.ofNat 0x69, Char.ofNat 0x307]
  else [Char.ofNat (caseLookup lowerTable c.toNat)]

/-- Going away from a sigma over the case-ignorable characters, the first other character is
cased. -/
def casedBeyondIgnorable : List Char → Bool
  | [] => false
  | c :: cs =>
    if inRanges ignorableRanges c.toNat then casedBeyondIgnorable cs
    else inRanges casedRanges c.toNat

/-- The lower-case form of the characters `cs` that come after the characters `before` (held
in reverse order).  U+03A3 becomes U+03C2 under the condition `Final_Sigma`, a cased letter
before it and none after it, case-ignorable characters aside, and U+03C3 otherwise. -/
def lowerFrom (before : List Char) : List Char → List Char
  | [] => []
  | c :: cs =>
    (if c.toNat = 0x3A3 then
      (if casedBeyondIgnorable before && !casedBeyondIgnorable cs then [Char.ofNat 0x3C2]
       else [Char.ofNat 0x3C3])
     else lowerChar c) ++ lowerFrom (c :: before) cs

/-- `String.prototype.toLowerCase`: the Unicode default case conversion, with the tables of
the Unicode Character Database 14.0.0. -/
def toLowerCase (s : String) : String := ⟨lowerFrom [] s.data⟩

/-- Upper-case mapping of one character, which may give up to three characters. -/
def upperChar (c : Char) : List Char :=
  match (blockOf upperSpecial c.toNat).find? (fun e => decide (e.1 = c.toNat)) with
  | some e => e.2.map Char.ofNat
  | none => [Char.ofNat (caseLookup upperTable c.toNat)]

/-- `String.prototype.toUpperCase`: the Unicode default case conversion, with the tables of
the Unicode Character Database 14.0.0. -/
def toUpperCase (s : String) : String := ⟨(s.data.map upperChar).flatten⟩


/-- The entries of a table, block after block. -/
def runsOf {α : Type} (table : Blocks α) : List α := (table.map Prod.snd).flatten

/-- The number is a Unicode scalar value. -/
def validCode (n : Nat) : Bool :=
  decide (n < 0xD800) || (decide (0xDFFF < n) && decide (n < 0x110000))

/-- The code point is a scalar value other than U+03A3 and U+0130 that `lowerTable` maps to
itself. -/
def lowerStableCode (m : Nat) : Bool :=
  validCode m && decide (m ≠ 0x3A3) && decide (m ≠ 0x130) &&
    decide (caseLookup lowerTable m = m)

/-- Every image of a run of `lowerTable` passes `lowerStableCode`. -/
def lowerImagesStable : Bool :=
  (runsOf lowerTable).all fun r =>
    (List.range ((r.2.1 - r.1) / r.2.2.1 + 1)).all fun k =>
      lowerStableCode (r.2.2.2 + k * r.2.2.1)

/-- Every entry of `upperSpecial` has an image of at least one code point. -/
def upperSpecialNonEmpty : Bool :=
  (runsOf upperSpecial).all fun e => !e.2.isEmpty

/-- `String.prototype.includes`: `t` occurs in `s` as a contiguous substring. -/
def includes (s t : String) : Bool := decide (t.data <:+: s.data)

/-- `String.prototype.startsWith`. -/
def startsWith (s t : String) : Bool := decide (t.data <+: s.data)

end JsString

open JsString

/-! ## Data model -/

/-- A review record as returned by the review resource. -/
structure Review where
  _id : String
  name : Option String
  email : Option String
  role : Option String
  review : Option String
  image : Option String
  approved : Bool
  createdAt : String
deriving DecidableEq, Repr

/-- An exception raised while the code runs: a `TypeError` (a method called on a value that
has none, a failed `fetch`), an `Error` created with `new Error(message)`, or the
`SyntaxError` of `response.json()` on a body that is not JSON. -/
inductive JsError where
  | typeError (method : String)
  | error (message : String)
  | syntaxError
deriving DecidableEq, Repr

deriving instance DecidableEq for Except

/-! ## View filter (`filterReviews`, Review.jsx 443-461) -/

/-- The call `field.toLowerCase()`: a `TypeError` when the field holds no string. -/
def fieldToLowerCase : Option String → Except JsError String
  | some s => .ok (toLowerCase s)
  | none => .error (.typeError "toLowerCase")

/-- The callback of the search filter (Review.jsx 453-457).  `||` evaluates its operands from
left to right and stops at the first that is true. -/
def searchPredicate (searchTerm : String) (review : Review) : Except JsError Bool :=
  match fieldToLowerCase review.name with
  | .error e => .error e
  | .ok n =>
    if includes n (toLowerCase searchTerm) then .ok true
    else
      match fieldToLowerCase review.role with
      | .error e => .error e
      | .ok r =>
        if includes r (toLowerCase searchTerm) then .ok true
        else
          match fieldToLowerCase review.email with
          | .error e => .error e
          | .ok m => .ok (includes m (toLowerCase searchTerm))

/-- `Array.prototype.filter` with a callback that may raise: the elements are visited in
order and the first exception ends the call. -/
def filterE {α : Type} (p : α → Except JsError Bool) : List α → Except JsError (List α)
  | [] => .ok []
  | a :: as =>
    match p a with
    | .error e => .error e
    | .ok b =>
      match filterE p as with
      | .error e => .error e
      | .ok rest => .ok (if b then a :: rest else rest)

/-- The status step of `filterReviews` (Review.jsx 444-450). -/
def statusFiltered (reviews : List Review) (filter : String) : List Review :=
  if filter = "approved" then reviews.filter (fun review => review.approved)
  else if filter = "pending" then reviews.filter (fun review => !review.approved)
  else reviews

/-- `filterReviews` (Review.jsx 443-461) as a function of the three state variables it reads;
the value is the list handed to `setFilteredReviews`. -/
def filterReviews (reviews : List Review) (filter searchTerm : String) :
    Except JsError (List Review) :=
  let filtered := statusFiltered reviews filter
  if searchTerm ≠ "" then filterE (searchPredicate searchTerm) filtered
  else .ok filtered

/-- Statistics tile "Total Reviews" (Review.jsx 602). -/
def statsTotal (reviews : List Review) : Nat := reviews.length

/-- Statistics tile "Approved" (Review.jsx 607). -/
def statsApproved (reviews : List Review) : Nat := (reviews.filter (fun r => r.approved)).length

/-- Statistics tile "Pending" (Review.jsx 613). -/
def statsPending (reviews : List Review) : Nat := (reviews.filter (fun r => !r.approved)).length

/-! ## Regular expressions of the shape used by the form -/

/-- One item of a pattern: a literal character, or `C+` for a character class `C`. -/
inductive RegexItem where
  | char (c : Char)
  | plusClass (cls : Char → Bool)

/-- The pattern, a sequence of items, matches a prefix of the input. -/
def matchHere : List RegexItem → List Char → Bool
  | [], _ => true
  | _ :: _, [] => false
  | .char c :: rest, x :: xs => decide (x = c) && matchHere rest xs
  | .plusClass cls :: rest, x :: xs =>
    cls x && (matchHere rest xs || matchHere (.plusClass cls :: rest) xs)

/-- The pattern matches at some position of the input (an unanchored match). -/
def searchFrom (re : List RegexItem) : List Char → Bool
  | [] => matchHere re []
  | x :: xs => matchHere re (x :: xs) || searchFrom re xs

/-- `RegExp.prototype.test` for a pattern without anchors and flags. -/
def test (re : List RegexItem) (s : String) : Bool := searchFrom re s.data

/-- The class `\S`. -/
def nonWhiteSpace (c : Char) : Bool := !isWhiteSpace c

/-- The literal `/\S+@\S+\.\S+/` of Review.jsx 189. -/
def emailRegex : List RegexItem :=
  [.plusClass nonWhiteSpace, .char (Char.ofNat 0x40), .plusClass nonWhiteSpace,
   .char (Char.ofNat 0x2E), .plusClass nonWhiteSpace]

/-! ## Review form (`ReviewForm`, Review.jsx 173-232) -/

/-- A file chosen in the file input, with the properties the code reads. -/
structure File where
  name : String
  size : Nat
  type : String
deriving DecidableEq, Repr

/-- The `formData` state of the form (Review.jsx 174-180). -/
structure FormFields where
  name : String
  email : String
  role : String
  review : String
  image : Option File
deriving DecidableEq, Repr

/-- The `errors` object: its own keys in insertion order, each with a message or `null`
(`none`). -/
abbrev Errors := List (String × Option String)

/-- Assignment `errors[key] = value`: an existing key keeps its place, a new key goes last. -/
def Errors.set (errors : Errors) (key : String) (value : Option String) : Errors :=
  if errors.any (fun kv => decide (kv.1 = key)) then
    errors.map (fun kv => if kv.1 = key then (kv.1, value) else kv)
  else errors ++ [(key, value)]

/-- `Object.keys(errors)`. -/
def Errors.keys (errors : Errors) : List String := errors.map Prod.fst

/-- The message shown for a field, `errors[key]`; a missing key and `null` both show
nothing. -/
def Errors.get (errors : Errors) (key : String) : Option String :=
  match errors.find? (fun kv => decide (kv.1 = key)) with
  | some kv => kv.2
  | none => none

/-- The state of the form component. -/
structure ReviewFormState where
  formData : FormFields
  imagePreview : Option String
  errors : Errors
deriving DecidableEq, Repr

/-- `validateForm` (Review.jsx 184-196): the object handed to `setErrors` and the value
returned. -/
def validateForm (formData : FormFields) : Errors × Bool :=
  let newErrors : Errors := []
  let newErrors :=
    if trim formData.name = "" then newErrors.set "name" (some "Name is required")
    else newErrors
  let newErrors :=
    if trim formData.email = "" then newErrors.set "email" (some "Email is required")
    else if !test emailRegex formData.email then
      newErrors.set "email" (some "Invalid email format")
    else newErrors
  let newErrors :=
    if trim formData.role = "" then newErrors.set "role" (some "Role is required")
    else newErrors
  let newErrors :=
    if trim formData.review = "" then newErrors.set "review" (some "Review is required")
    else if length (trim formData.review) < 10 then
      newErrors.set "review" (some "Review must be at least 10 characters")
    else newErrors
  (newErrors, decide (newErrors.keys.length = 0))

/-- `handleImageChange` (Review.jsx 198-220) for the first selected file, if any.  The
preview is set later, by the callback of the file reader. -/
def handleImageChange (st : ReviewFormState) (file : Option File) : ReviewFormState :=
  match file with
  | none => st
  | some file =>
    if file.size > 5 * 1024 * 1024 then
      { st with errors := st.errors.set "image" (some "Image size must be less than 5MB") }
    else if !startsWith file.type "image/" then
      { st with errors := st.errors.set "image" (some "Please select a valid image file") }
    else
      { st with
        formData := { st.formData with image := some file }
        errors := st.errors.set "image" none }

/-- A value of a `formData` property, or of an entry of the submitted payload. -/
inductive FieldValue where
  | text (s : String)
  | file (f : File)
  | null
deriving DecidableEq, Repr

/-- The properties of `formData` in the order of `Object.keys` (Review.jsx 174-180). -/
def FormFields.entries (formData : FormFields) : List (String × FieldValue) :=
  [("name", .text formData.name), ("email", .text formData.email),
   ("role", .text formData.role), ("review", .text formData.review),
   ("image", match formData.image with
             | some f => .file f
             | none => .null)]

/-- `handleSubmit` (Review.jsx 222-232): the form state after the call, and the payload handed
to `onSubmit` when `onSubmit` is called. -/
def handleSubmit (st : ReviewFormState) :
    ReviewFormState × Option (List (String × FieldValue)) :=
  let result := validateForm st.formData
  let st := { st with errors := result.1 }
  if !result.2 then (st, none)
  else
    let submitData :=
      st.formData.entries.filter (fun kv => decide (kv.2 ≠ .null) && decide (kv.2 ≠ .text ""))
    (st, some submitData)

/-! ## Predicates used in the statements -/

/-- The test "the callback returns `true`". -/
def holds {α : Type} (p : α → Except JsError Bool) (a : α) : Bool := decide (p a = .ok true)

/-- The record holds a string in each of the three searched fields. -/
def hasTextFields (r : Review) : Bool := r.name.isSome && r.role.isSome && r.email.isSome

/-! ## Sample records -/

/-- The pending entity of the scenario of the specification. -/
def sampleAna : Review :=
  ⟨"1", some "Ana", some "ana@example.org", some "Writer", some "Very good work", none, false,
    "2024-01-01"⟩

/-- The approved entity of the scenario of the specification. -/
def sampleBo : Review :=
  ⟨"2", some "Bo", some "bo@example.org", some "Editor", some "Fine service", none, true,
    "2024-01-02"⟩

/-- A record whose name holds a sharp s. -/
def sampleStrasse : Review :=
  ⟨"3", some "Straße", some "post@example.org", some "Driver", some "Always on time", none,
    false, "2024-01-03"⟩

/-- A form filled in with valid values and no image. -/
def sampleForm : FormFields :=
  ⟨"Ana", "ana@example.org", "Writer", "Very good work", none⟩

/-- An image file of exactly 5 MB. -/
def samplePhoto : File := ⟨"photo.png", 5 * 1024 * 1024, "image/png"⟩

/-! ## Remote gateway (`api`, Review.jsx 4-44) -/

/-- Base URL of the review resource (Review.jsx 5). -/
def API_BASE_URL : String := "https://digitallab-server.vercel.app/api/review"

/-- A request handed to `fetch`: method, URL and, for `PUT` and `POST`, the form data sent as
body. -/
structure Request where
  method : String
  url : String
  body : Option (List (String × FieldValue))
deriving DecidableEq, Repr

/-- A response as the code observes it: the status code, the status text, the value
`response.json()` resolves to (`none` when the body is not JSON and the promise rejects), and
the `message` property of the body when the server supplies one. -/
structure Response (β : Type) where
  status : Nat
  statusText : String
  body : Option β
  message : Option String
deriving DecidableEq, Repr

/-- The property `response.ok`: the status is in the range 200 to 299. -/
def Response.ok {β : Type} (response : Response β) : Bool :=
  decide (200 ≤ response.status) && decide (response.status ≤ 299)

/-- What the promise returned by `fetch` settles to: a response, or a rejection when the
request did not get through. -/
abbrev FetchOutcome (β : Type) := Except JsError (Response β)

/-- One operation of `api`: the single request it hands to `fetch`, and the text with which
the message of its `Error` starts. -/
structure ApiCall (β : Type) where
  request : Request
  failure : String

/-- The body shared by the six operations once `fetch` has settled:
`if (!response.ok) throw new Error(failure + response.statusText); return response.json()`. -/
def ApiCall.result {β : Type} (call : ApiCall β) (outcome : FetchOutcome β) : Except JsError β :=
  match outcome with
  | .error e => .error e
  | .ok response =>
    if !response.ok then .error (.error (call.failure ++ response.statusText))
    else
      match response.body with
      | some data => .ok data
      | none => .error .syntaxError

/-- `api.getAllReviews` (Review.jsx 8-13). -/
def api.getAllReviews : ApiCall (List Review) :=
  ⟨⟨"GET", API_BASE_URL ++ "/", none⟩, "Failed to fetch reviews: "⟩

/-- `api.getApprovedReviews` (Review.jsx 15-19). -/
def api.getApprovedReviews : ApiCall (List Review) :=
  ⟨⟨"GET", API_BASE_URL ++ "/approved", none⟩, "Failed to fetch approved reviews: "⟩

/-- `api.approveReview` (Review.jsx 21-25). -/
def api.approveReview {β : Type} (id : String) : ApiCall β :=
  ⟨⟨"PATCH", API_BASE_URL ++ "/" ++ id ++ "/approve", none⟩, "Failed to approve review: "⟩

/-- `api.deleteReview` (Review.jsx 27-31). -/
def api.deleteReview {β : Type} (id : String) : ApiCall β :=
  ⟨⟨"DELETE", API_BASE_URL ++ "/" ++ id, none⟩, "Failed to delete review: "⟩

/-- `api.updateReview` (Review.jsx 33-37). -/
def api.updateReview {β : Type} (id : String) (formData : List (String × FieldValue)) :
    ApiCall β :=
  ⟨⟨"PUT", API_BASE_URL ++ "/" ++ id, some formData⟩, "Failed to update review: "⟩

/-- `api.createReview` (Review.jsx 39-43). -/
def api.createReview {β : Type} (formData : List (String × FieldValue)) : ApiCall β :=
  ⟨⟨"POST", API_BASE_URL ++ "/", some formData⟩, "Failed to create review: "⟩

/-! ## Console state (`AdminReviewsApp`, Review.jsx 402-530) -/

/-- The `toast` object. -/
structure Toast where
  message : String
  type : String
deriving DecidableEq, Repr

/-- The `loadingStates` object (Review.jsx 412-416): one slot for the id being approved, one
for the id being deleted, and the flag of the form. -/
structure LoadingStates where
  approving : Option String
  deleting : Option String
  submitting : Bool
deriving DecidableEq, Repr

/-- The state variables of the console (Review.jsx 403-416). -/
structure AppState where
  reviews : List Review
  filteredReviews : List Review
  loading : Bool
  showForm : Bool
  editingReview : Option Review
  viewingReview : Option Review
  filter : String
  searchTerm : String
  toast : Option Toast
  loadingStates : LoadingStates
deriving DecidableEq, Repr

/-- The initial values of the state variables (Review.jsx 403-416). -/
def initialState : AppState :=
  { reviews := [], filteredReviews := [], loading := true, showForm := false,
    editingReview := none, viewingReview := none, filter := "all", searchTerm := "",
    toast := none, loadingStates := ⟨none, none, false⟩ }

/-- What a handler does besides changing the state, in the order in which it happens. -/
inductive Event where
  | request (r : Request)
  | toast (t : Toast)
  | consoleError (label : String)
deriving DecidableEq, Repr

/-- A state together with the events that led to it. -/
structure Run where
  state : AppState
  trace : List Event
deriving DecidableEq, Repr

/-- Continue a run with a further piece of a handler. -/
def Run.andThen (r : Run) (next : AppState → Run) : Run :=
  ⟨(next r.state).state, r.trace ++ (next r.state).trace⟩

/-- The requests of a trace, in order. -/
def requestsOf : List Event → List Request
  | [] => []
  | .request r :: es => r :: requestsOf es
  | _ :: es => requestsOf es

/-- The notifications of a trace, in order. -/
def toastsOf : List Event → List Toast
  | [] => []
  | .toast t :: es => t :: toastsOf es
  | _ :: es => toastsOf es

/-- `showToast` (Review.jsx 426-428), with its event. -/
def showToast (st : AppState) (message type : String) : Run :=
  ⟨{ st with toast := some ⟨message, type⟩ }, [.toast ⟨message, type⟩]⟩

/-- `isApproving` of a row (Review.jsx 71). -/
def isApproving (loadingStates : LoadingStates) (review : Review) : Bool :=
  decide (loadingStates.approving = some review._id)

/-- `isDeleting` of a row (Review.jsx 72). -/
def isDeleting (loadingStates : LoadingStates) (review : Review) : Bool :=
  decide (loadingStates.deleting = some review._id)

/-! ### `fetchReviews` (Review.jsx 430-441) -/

/-- `fetchReviews` up to its `await`: the loading flag is set and the list request goes
out. -/
def fetchReviewsBegin (st : AppState) : Run :=
  ⟨{ st with loading := true }, [.request api.getAllReviews.request]⟩

/-- `fetchReviews` from the moment `api.getAllReviews` settles: the collection is replaced on
success, the failure is logged and notified otherwise; `finally` clears the loading flag. -/
def fetchReviewsSettle (outcome : FetchOutcome (List Review)) (st : AppState) : Run :=
  match api.getAllReviews.result outcome with
  | .ok data => ⟨{ st with reviews := data, loading := false }, []⟩
  | .error _ =>
    (Run.mk st [.consoleError "Error fetching reviews:"]).andThen fun st =>
      (showToast st "Failed to fetch reviews. Make sure your backend is running."
        "error").andThen fun st =>
      ⟨{ st with loading := false }, []⟩

/-- `fetchReviews` run from start to end with the outcome of its list request. -/
def fetchReviews (outcome : FetchOutcome (List Review)) (st : AppState) : Run :=
  (fetchReviewsBegin st).andThen (fetchReviewsSettle outcome)

/-! ### `handleApprove` (Review.jsx 463-475) -/

/-- `handleApprove` up to its first `await`: the approving slot takes the id and the approve
request goes out. -/
def handleApproveBegin (id : String) (st : AppState) : Run :=
  ⟨{ st with loadingStates := { st.loadingStates with approving := some id } },
    [.request (api.approveReview id : ApiCall Unit).request]⟩

/-- The `catch` and `finally` blocks of `handleApprove`. -/
def handleApproveCatch (st : AppState) : Run :=
  (Run.mk st [.consoleError "Error approving review:"]).andThen fun st =>
    (showToast st "Failed to approve review. Please try again." "error").andThen fun st =>
    ⟨{ st with loadingStates := { st.loadingStates with approving := none } }, []⟩

/-- The end of the `try` block of `handleApprove`, after `fetchReviews`, and `finally`. -/
def handleApproveEnd (st : AppState) : Run :=
  (showToast st "Review approved successfully!" "success").andThen fun st =>
    ⟨{ st with loadingStates := { st.loadingStates with approving := none } }, []⟩

/-- `handleApprove` from the moment `api.approveReview` settles: on success `fetchReviews`
runs with the outcome of its list request. -/
def handleApproveSettle {β : Type} (id : String) (approved : FetchOutcome β)
    (listed : FetchOutcome (List Review)) (st : AppState) : Run :=
  match (api.approveReview id).result approved with
  | .ok _ => (fetchReviews listed st).andThen handleApproveEnd
  | .error _ => handleApproveCatch st

/-- `handleApprove` run from start to end with the outcomes of its requests. -/
def handleApprove {β : Type} (id : String) (approved : FetchOutcome β)
    (listed : FetchOutcome (List Review)) (st : AppState) : Run :=
  (handleApproveBegin id st).andThen (handleApproveSettle id approved listed)

/-! ### `handleDelete` (Review.jsx 477-493) -/

/-- `handleDelete` up to its first `await`, once the user has confirmed. -/
def handleDeleteBegin (id : String) (st : AppState) : Run :=
  ⟨{ st with loadingStates := { st.loadingStates with deleting := some id } },
    [.request (api.deleteReview id : ApiCall Unit).request]⟩

/-- The `catch` and `finally` blocks of `handleDelete`. -/
def handleDeleteCatch (st : AppState) : Run :=
  (Run.mk st [.consoleError "Error deleting review:"]).andThen fun st =>
    (showToast st "Failed to delete review. Please try again." "error").andThen fun st =>
    ⟨{ st with loadingStates := { st.loadingStates with deleting := none } }, []⟩

/-- The end of the `try` block of `handleDelete`, after `fetchReviews`, and `finally`. -/
def handleDeleteEnd (st : AppState) : Run :=
  (showToast st "Review deleted successfully!" "success").andThen fun st =>
    ⟨{ st with loadingStates := { st.loadingStates with deleting := none } }, []⟩

/-- `handleDelete` from the moment `api.deleteReview` settles. -/
def handleDeleteSettle {β : Type} (id : String) (deleted : FetchOutcome β)
    (listed : FetchOutcome (List Review)) (st : AppState) : Run :=
  match (api.deleteReview id).result deleted with
  | .ok _ => (fetchReviews listed st).andThen handleDeleteEnd
  | .error _ => handleDeleteCatch st

/-- `handleDelete` run from start to end: `confirmed` is the answer to `window.confirm`. -/
def handleDelete {β : Type} (id : String) (confirmed : Bool) (deleted : FetchOutcome β)
    (listed : FetchOutcome (List Review)) (st : AppState) : Run :=
  if !confirmed then ⟨st, []⟩
  else (handleDeleteBegin id st).andThen (handleDeleteSettle id deleted listed)

/-! ### `handleFormSubmit` and the form dialog (Review.jsx 495-530) -/

/-- `handleFormSubmit` up to its first `await`: the submitting flag is set and the update
request (when a review is being edited) or the create request goes out. -/
def handleFormSubmitBegin (formData : List (String × FieldValue)) (st : AppState) : Run :=
  ⟨{ st with loadingStates := { st.loadingStates with submitting := true } },
    [.request
      (match st.editingReview with
       | some review => (api.updateReview review._id formData : ApiCall Unit).request
       | none => (api.createReview formData : ApiCall Unit).request)]⟩

/-- The `catch` and `finally` blocks of `handleFormSubmit`; `editing` is the value of
`editingReview` that the handler was created with. -/
def handleFormSubmitCatch (editing : Option Review) (st : AppState) : Run :=
  (Run.mk st [.consoleError "Error submitting form:"]).andThen fun st =>
    (showToast st
      ("Failed to " ++ (if editing.isSome then "update" else "create") ++
        " review. Please try again.") "error").andThen fun st =>
    ⟨{ st with loadingStates := { st.loadingStates with submitting := false } }, []⟩

/-- The end of the `try` block of `handleFormSubmit`, after `fetchReviews`: the form is
closed; then `finally`. -/
def handleFormSubmitEnd (st : AppState) : Run :=
  ⟨{ st with
      showForm := false
      editingReview := none
      loadingStates := { st.loadingStates with submitting := false } }, []⟩

/-- `handleFormSubmit` from the moment the update or create call settles: on success the
success notification comes first, then `fetchReviews` with the outcome of its list request. -/
def handleFormSubmitSettle {β : Type} (editing : Option Review)
    (formData : List (String × FieldValue)) (mutated : FetchOutcome β)
    (listed : FetchOutcome (List Review)) (st : AppState) : Run :=
  match editing with
  | some review =>
    match (api.updateReview review._id formData).result mutated with
    | .ok _ =>
      ((showToast st "Review updated successfully!" "success").andThen
        (fetchReviews listed)).andThen handleFormSubmitEnd
    | .error _ => handleFormSubmitCatch editing st
  | none =>
    match (api.createReview formData).result mutated with
    | .ok _ =>
      ((showToast st "Review created successfully!" "success").andThen
        (fetchReviews listed)).andThen handleFormSubmitEnd
    | .error _ => handleFormSubmitCatch editing st

/-- `handleFormSubmit` run from start to end with the outcomes of its requests. -/
def handleFormSubmit {β : Type} (formData : List (String × FieldValue))
    (mutated : FetchOutcome β) (listed : FetchOutcome (List Review)) (st : AppState) : Run :=
  (handleFormSubmitBegin formData st).andThen
    (handleFormSubmitSettle st.editingReview formData mutated listed)

/-- `handleEdit` (Review.jsx 518-521). -/
def handleEdit (review : Review) (st : AppState) : AppState :=
  { st with editingReview := some review, showForm := true }

/-- `handleCloseForm` (Review.jsx 527-530). -/
def handleCloseForm (st : AppState) : AppState :=
  { st with showForm := false, editingReview := none }

/-- The initial state of `ReviewForm` for its `review` property (Review.jsx 174-182):
`review?.name || ''` and so on, no image, no errors. -/
def initialFormState (review : Option Review) : ReviewFormState :=
  { formData :=
      { name := (review.bind fun r => r.name).getD ""
        email := (review.bind fun r => r.email).getD ""
        role := (review.bind fun r => r.role).getD ""
        review := (review.bind fun r => r.review).getD ""
        image := none }
    imagePreview := (review.bind fun r => r.image).filter fun s => decide (s ≠ "")
    errors := [] }

/-- What the user does in the form before submitting: typing in one of the four text fields
(Review.jsx 242, 255, 270, 284), choosing in the file dialog (311), and the file reader
delivering the preview (217). -/
inductive FormInput where
  | name (value : String)
  | email (value : String)
  | role (value : String)
  | review (value : String)
  | image (file : Option File)
  | preview (dataUrl : String)
deriving DecidableEq, Repr

/-- The effect of one input on the state of the form. -/
def formInput (st : ReviewFormState) : FormInput → ReviewFormState
  | .name value => { st with formData := { st.formData with name := value } }
  | .email value => { st with formData := { st.formData with email := value } }
  | .role value => { st with formData := { st.formData with role := value } }
  | .review value => { st with formData := { st.formData with review := value } }
  | .image file => handleImageChange st file
  | .preview dataUrl => { st with imagePreview := some dataUrl }

/-- The input is the choice of a file that `handleImageChange` accepts. -/
def selectsImage : FormInput → Bool
  | .image (some file) =>
    decide (file.size ≤ 5 * 1024 * 1024) && startsWith file.type "image/"
  | _ => false

/-- A click on the submit button of the form dialog (Review.jsx 323 and 662): `handleSubmit`
runs, and `handleFormSubmit`, its `onSubmit`, runs with the payload if `handleSubmit` hands
one over. -/
def submitForm {β : Type} (mutated : FetchOutcome β) (listed : FetchOutcome (List Review))
    (st : AppState) (form : ReviewFormState) : Run × ReviewFormState :=
  match (handleSubmit form).2 with
  | none => (⟨st, []⟩, (handleSubmit form).1)
  | some submitData => (handleFormSubmit submitData mutated listed st, (handleSubmit form).1)

/-! ## Sample outcomes -/

/-- A rejection by the server with a message in the body. -/
def sampleNotFound : Response Unit := ⟨404, "Not Found", none, some "Review not found"⟩

/-- A success response to a mutation. -/
def sampleDone : Response Unit := ⟨200, "OK", some (), some "Done"⟩

/-- A console showing two pending reviews. -/
def sampleConsole : AppState :=
  { initialState with
    reviews := [sampleAna, sampleStrasse]
    filteredReviews := [sampleAna, sampleStrasse]
    loading := false }

/-- The effect run on mount (Review.jsx 418-420): `fetchReviews` on the initial state. -/
def mountEffect (outcome : FetchOutcome (List Review)) : Run :=
  fetchReviews outcome initialState

/-! ## Notification feed of the FAQ console (FAQ.jsx 12, 20-33) -/

/-- A message of the feed `toasts` of the FAQ console. -/
structure FaqToast where
  id : Nat
  message : String
  type : String
deriving DecidableEq, Repr

/-- The synchronous part of `showToast` of the FAQ console (FAQ.jsx 21-24): `now` is the value
of `Date.now()`, and a missing `type` stands for `info`. -/
def faqShowToast (toasts : List FaqToast) (now : Nat) (message : String)
    (type : Option String) : List FaqToast :=
  toasts ++ [⟨now, message, type.getD "info"⟩]

/-- The callback of the timer started by `showToast`, five seconds later (FAQ.jsx 26-28). -/
def faqToastExpired (toasts : List FaqToast) (id : Nat) : List FaqToast :=
  toasts.filter fun t => decide (t.id ≠ id)

/-- `removeToast` of the FAQ console (FAQ.jsx 31-33). -/
def faqRemoveToast (toasts : List FaqToast) (id : Nat) : List FaqToast :=
  toasts.filter fun t => decide (t.id ≠ id)

/-- A pending record without a name, as a server without validation may return it. -/
def sampleNameless : Review :=
  ⟨"4", none, some "nobody@example.org", some "Guest", some "Nothing to add", none, false,
    "2024-01-04"⟩

/-- An approved record whose name starts with a letter outside Latin-1. -/
def sampleLukasz : Review :=
  ⟨"5", some "Łukasz", some "lukasz@example.org", some "Tester", some "Quick and careful", none,
    true, "2024-01-05"⟩

/-- The record `sampleLukasz` without role and without email. -/
def sampleRoleless : Review := { sampleLukasz with role := none, email := none }

/-! ## The remote system behind the gateway -/

/-- Modelled from the spec: the remote system, whose code is not part of this repository (only
its caller `api` is).  It holds the collection of entities that `list()` returns (spec,
sections 3 and 4, "a remote source of truth"). -/
structure Remote where
  reviews : List Review
deriving DecidableEq, Repr

/-- Modelled from the spec: the id a request addresses, which is what its URL holds behind the
base URL and `/` (the reverse of the URL built by `api.deleteReview`). -/
def Remote.addressed (rq : Request) : Option String :=
  if startsWith rq.url (API_BASE_URL ++ "/") then
    some ⟨rq.url.data.drop (API_BASE_URL ++ "/").data.length⟩
  else none

/-- Modelled from the spec: the remote system after one request.  An entity is "destroyed via
delete (removed from Entity Store and, implicitly, from the remote system)" (spec, section 3):
a `DELETE` request removes the entity with the id it addresses, and nothing when no entity has
that id.  A `GET` request changes nothing.  The effect of the other requests (`PATCH`, `PUT`,
`POST`) is not modelled. -/
def Remote.step (remote : Remote) (rq : Request) : Option Remote :=
  if rq.method = "DELETE" then
    match Remote.addressed rq with
    | some id => some ⟨remote.reviews.filter fun r => decide (r._id ≠ id)⟩
    | none => some remote
  else if rq.method = "GET" then some remote
  else none

/-- Modelled from the spec: the remote system after a sequence of requests, served in the
order in which they were sent. -/
def Remote.serve (remote : Remote) : List Request → Option Remote
  | [] => some remote
  | rq :: rqs =>
    match remote.step rq with
    | some next => next.serve rqs
    | none => none

/-- The requests of a trace that went out before its first list request. -/
def sentBeforeList (trace : List Event) : List Request :=
  (requestsOf trace).takeWhile fun rq => decide (rq ≠ api.getAllReviews.request)

/-! # Theorems -/

/-! ## Lemmas on `filterE` and the search callback -/

theorem filterE_eq_ok_iff {α : Type} (p : α → Except JsError Bool) (l out : List α) :
    filterE p l = .ok out ↔ (∀ a ∈ l, ∃ b, p a = .ok b) ∧ out = l.filter (holds p) := by
  induction l generalizing out with
  | nil => simp [filterE, eq_comm]
  | cons a as ih =>
    cases hp : p a with
    | error e =>
      simp only [filterE, hp]
      constructor
      · intro h; cases h
      · rintro ⟨h, -⟩
        obtain ⟨b, hb⟩ := h a (List.mem_cons_self _ _)
        rw [hp] at hb; cases hb
    | ok b =>
      cases hr : filterE p as with
      | error e =>
        simp only [filterE, hp, hr]
        constructor
        · intro h; cases h
        · rintro ⟨h, -⟩
          have := (ih (as.filter (holds p))).2 ⟨fun x hx => h x (List.mem_cons_of_mem _ hx), rfl⟩
          rw [hr] at this; cases this
      | ok rest =>
        obtain ⟨hall, hrest⟩ := (ih rest).1 hr
        simp only [filterE, hp, hr]
        constructor
        · intro h
          injection h with h
          refine ⟨?_, ?_⟩
          · intro x hx
            rcases List.mem_cons.1 hx with rfl | hx
            · exact ⟨b, hp⟩
            · exact hall x hx
          · subst h
            cases b <;> simp [List.filter, holds, hp, hrest]
        · rintro ⟨-, h⟩
          subst h
          cases b <;> simp [List.filter, holds, hp, hrest]

theorem searchPredicate_of_text (t : String) (r : Review) (n ro e : String)
    (hn : r.name = some n) (hr : r.role = some ro) (he : r.email = some e) :
    searchPredicate t r =
      .ok (includes (toLowerCase n) (toLowerCase t) || includes (toLowerCase ro) (toLowerCase t)
        || includes (toLowerCase e) (toLowerCase t)) := by
  simp only [searchPredicate, fieldToLowerCase, hn, hr, he]
  cases includes (toLowerCase n) (toLowerCase t) <;>
    cases includes (toLowerCase ro) (toLowerCase t) <;> simp

theorem searchPredicate_returns (t : String) (r : Review) (h : hasTextFields r = true) :
    ∃ b, searchPredicate t r = .ok b := by
  simp only [hasTextFields, Bool.and_eq_true, Option.isSome_iff_exists] at h
  obtain ⟨⟨⟨n, hn⟩, ⟨ro, hr⟩⟩, ⟨e, he⟩⟩ := h
  exact ⟨_, searchPredicate_of_text t r n ro e hn hr he⟩

theorem filterReviews_eq_ok_iff (C : List Review) (s t : String) (out : List Review) :
    filterReviews C s t = .ok out ↔
      (t ≠ "" → ∀ r ∈ statusFiltered C s, ∃ b, searchPredicate t r = .ok b) ∧
      out = if t ≠ "" then (statusFiltered C s).filter (holds (searchPredicate t))
            else statusFiltered C s := by
  unfold filterReviews
  by_cases ht : t = ""
  · simp [ht, eq_comm]
  · simp [ht, filterE_eq_ok_iff]

theorem statusFiltered_sublist (C : List Review) (s : String) :
    (statusFiltered C s).Sublist C := by
  unfold statusFiltered
  split_ifs
  · exact List.filter_sublist _
  · exact List.filter_sublist _
  · exact List.Sublist.refl _

/-! ## The view filter: claims C1 to C6 -/

/-- C1: with an empty search term the `approved` view is exactly the approved entities of the
collection, the `pending` view exactly the entities that are not approved, and the `all` view
the collection itself; for a collection of one pending and one approved entity the pending
view is the first entity alone, and for a collection in which every entity is approved the
pending view is empty. -/
theorem filterReviews_status_views (C : List Review) :
    filterReviews C "approved" "" = .ok (C.filter (fun r => r.approved)) ∧
    filterReviews C "pending" "" = .ok (C.filter (fun r => !r.approved)) ∧
    filterReviews C "all" "" = .ok C ∧
    (∀ r₁ r₂ : Review, r₁.approved = false → r₂.approved = true →
      filterReviews [r₁, r₂] "pending" "" = .ok [r₁]) ∧
    ((∀ r ∈ C, r.approved = true) → filterReviews C "pending" "" = .ok []) := by
  refine ⟨by simp [filterReviews, statusFiltered], by simp [filterReviews, statusFiltered],
    by simp [filterReviews, statusFiltered], ?_, ?_⟩
  · intro r₁ r₂ h₁ h₂
    simp [filterReviews, statusFiltered, List.filter, h₁, h₂]
  · intro h
    simp only [filterReviews, statusFiltered]
    simp only [ne_eq, not_true_eq_false, ↓reduceIte]
    have : C.filter (fun r => !r.approved) = [] := by
      rw [List.filter_eq_nil_iff]
      intro r hr
      simp [h r hr]
    simp [this]

/-- C1 at the scenario of the specification: Ana is pending and Bo approved, so the pending
view is Ana alone; once Ana is approved as well, the pending view is empty. -/
theorem filterReviews_status_views_witness :
    filterReviews [sampleAna, sampleBo] "pending" "" = .ok [sampleAna] ∧
    ((∀ r ∈ [{ sampleAna with approved := true }, sampleBo], r.approved = true) ∧
      filterReviews [{ sampleAna with approved := true }, sampleBo] "pending" "" = .ok []) :=
  ⟨(filterReviews_status_views []).2.2.2.1 sampleAna sampleBo rfl rfl,
    by decide, (filterReviews_status_views _).2.2.2.2 (by decide)⟩

/-- C2: with an empty term the result is the status-filtered collection unchanged; with a
non-empty term (and string-valued name, role and email) an entity of the status-filtered
collection is in the result if and only if the lower-cased term is a substring of its
lower-cased name, role or email; the callback depends on no other field of the entity.  The
lower-casing is that of `toLowerCase`: among Ana, Bo and Łukasz the term `AN` finds Ana alone,
and the terms `łukasz` and `ŁUK` find Łukasz alone. -/
theorem filterReviews_search_rule (C : List Review) (s t : String) :
    (t = "" → filterReviews C s t = .ok (statusFiltered C s)) ∧
    (t ≠ "" → (∀ r ∈ statusFiltered C s, hasTextFields r = true) →
      ∃ out, filterReviews C s t = .ok out ∧
        ∀ (r : Review) (n ro e : String),
          r.name = some n → r.role = some ro → r.email = some e →
          (r ∈ out ↔ r ∈ statusFiltered C s ∧
            ((toLowerCase t).data <:+: (toLowerCase n).data ∨
             (toLowerCase t).data <:+: (toLowerCase ro).data ∨
             (toLowerCase t).data <:+: (toLowerCase e).data))) ∧
    (∀ r r' : Review, r.name = r'.name → r.role = r'.role → r.email = r'.email →
      searchPredicate t r = searchPredicate t r') ∧
    (filterReviews [sampleAna, sampleBo, sampleLukasz] "all" "AN" = .ok [sampleAna] ∧
      filterReviews [sampleAna, sampleBo, sampleLukasz] "all" "łukasz" = .ok [sampleLukasz] ∧
      filterReviews [sampleAna, sampleBo, sampleLukasz] "all" "ŁUK" = .ok [sampleLukasz]) := by
  refine ⟨?_, ?_, ?_, by decide, by decide, by decide⟩
  · intro ht
    simp [filterReviews, ht]
  · intro ht hC
    refine ⟨(statusFiltered C s).filter (holds (searchPredicate t)), ?_, ?_⟩
    · rw [filterReviews_eq_ok_iff]
      exact ⟨fun _ r hr => searchPredicate_returns t r (hC r hr), by simp [ht]⟩
    · intro r n ro e hn hr he
      simp only [List.mem_filter, holds, searchPredicate_of_text t r n ro e hn hr he]
      simp [includes, or_assoc]
  · intro r r' hn hr he
    simp only [searchPredicate, hn, hr, he]

/-- C2 at a concrete collection: the term `AN` selects Ana by her name and nobody else, the
result is the list holding Ana alone, and the lower-cased term is `an`. -/
theorem filterReviews_search_rule_witness :
    ("AN" ≠ "" ∧ (∀ r ∈ statusFiltered [sampleAna, sampleBo] "all", hasTextFields r = true)) ∧
    (toLowerCase "AN" = "an" ∧ toLowerCase "Ana" = "ana" ∧
      filterReviews [sampleAna, sampleBo] "all" "AN" = .ok [sampleAna]) ∧
    ∃ out, filterReviews [sampleAna, sampleBo] "all" "AN" = .ok out ∧
      ∀ (r : Review) (n ro e : String),
        r.name = some n → r.role = some ro → r.email = some e →
        (r ∈ out ↔ r ∈ statusFiltered [sampleAna, sampleBo] "all" ∧
          ((toLowerCase "AN").data <:+: (toLowerCase n).data ∨
           (toLowerCase "AN").data <:+: (toLowerCase ro).data ∨
           (toLowerCase "AN").data <:+: (toLowerCase e).data)) :=
  ⟨⟨by decide, by decide⟩, ⟨by decide, by decide, by decide⟩,
    (filterReviews_search_rule [sampleAna, sampleBo] "all" "AN").2.1 (by decide) (by decide)⟩

/-- C3: whenever `filterReviews` returns, its result is a sublist of the collection (only
entities of the collection, none more often than there, in the same relative order); and it
does return whenever the status-filtered entities hold strings in the searched fields. -/
theorem filterReviews_sublist (C : List Review) (s t : String) :
    (∀ out, filterReviews C s t = .ok out →
      out.Sublist C ∧ (∀ r ∈ out, r ∈ C) ∧ ∀ r, out.count r ≤ C.count r) ∧
    ((∀ r ∈ statusFiltered C s, hasTextFields r = true) →
      ∃ out, filterReviews C s t = .ok out) := by
  constructor
  · intro out h
    have hsub : out.Sublist C := by
      obtain ⟨-, rfl⟩ := (filterReviews_eq_ok_iff C s t out).1 h
      split_ifs
      · exact (List.filter_sublist _).trans (statusFiltered_sublist C s)
      · exact statusFiltered_sublist C s
    exact ⟨hsub, fun r hr => hsub.subset hr, fun r => hsub.count_le r⟩
  · intro hC
    refine ⟨_, (filterReviews_eq_ok_iff C s t _).2 ⟨?_, rfl⟩⟩
    exact fun _ r hr => searchPredicate_returns t r (hC r hr)

/-- C3 at a concrete collection: the search for `bo` returns Bo alone, a sublist. -/
theorem filterReviews_sublist_witness :
    (filterReviews [sampleAna, sampleBo] "all" "bo" = .ok [sampleBo] ∧
      [sampleBo].Sublist [sampleAna, sampleBo]) ∧
    ((∀ r ∈ statusFiltered [sampleAna, sampleBo] "all", hasTextFields r = true) ∧
      ∃ out, filterReviews [sampleAna, sampleBo] "all" "bo" = .ok out) :=
  ⟨⟨by decide,
      ((filterReviews_sublist [sampleAna, sampleBo] "all" "bo").1 [sampleBo] (by decide)).1⟩,
    by decide, (filterReviews_sublist [sampleAna, sampleBo] "all" "bo").2 (by decide)⟩

theorem statusFiltered_filter_comm (C : List Review) (s : String) (q : Review → Bool) :
    (statusFiltered C s).filter q = statusFiltered (C.filter q) s := by
  unfold statusFiltered
  split_ifs <;> simp [List.filter_filter, Bool.and_comm]

theorem statusFiltered_all (C : List Review) : statusFiltered C "all" = C := by
  simp [statusFiltered]

theorem statusFiltered_approved (C : List Review) :
    statusFiltered C "approved" = C.filter (fun r => r.approved) := by
  simp [statusFiltered]

theorem statusFiltered_pending (C : List Review) :
    statusFiltered C "pending" = C.filter (fun r => !r.approved) := by
  simp [statusFiltered]

theorem statusFiltered_idem (C : List Review) (s : String) :
    statusFiltered (statusFiltered C s) s = statusFiltered C s := by
  unfold statusFiltered
  split_ifs <;> simp [List.filter_filter]

theorem filter_approved_perm (V : List Review) :
    (V.filter (fun r => r.approved) ++ V.filter (fun r => !r.approved)).Perm V := by
  induction V with
  | nil => simp
  | cons a as ih =>
    cases h : a.approved
    · simp only [List.filter_cons, h, Bool.not_false, Bool.false_eq_true, ↓reduceIte]
      exact List.perm_middle.trans (List.Perm.cons a ih)
    · simp only [List.filter_cons, h, Bool.not_true, Bool.false_eq_true, ↓reduceIte,
        List.cons_append]
      exact List.Perm.cons a ih

/-- C4: for every collection and term, whenever the `all` view exists the `approved` and the
`pending` view exist, they are the approved and the not approved entities of the `all` view
in its order, no entity is in both, every entity of the `all` view is in one of them, their
concatenation is a permutation of the `all` view, the lengths add up, and the entities of the
collection that are in one of the two, taken in collection order, are the `all` view; the
`all` view exists when the searched fields hold strings; the statistics satisfy
total = approved + pending. -/
theorem approved_pending_partition (C : List Review) (t : String) :
    (∀ V, filterReviews C "all" t = .ok V →
      ∃ A P, filterReviews C "approved" t = .ok A ∧ filterReviews C "pending" t = .ok P ∧
        A = V.filter (fun r => r.approved) ∧ P = V.filter (fun r => !r.approved) ∧
        (∀ r, ¬ (r ∈ A ∧ r ∈ P)) ∧ (∀ r, r ∈ V ↔ (r ∈ A ∨ r ∈ P)) ∧
        (A ++ P).Perm V ∧ V.length = A.length + P.length ∧
        C.filter (fun r => decide (r ∈ A ∨ r ∈ P)) = V) ∧
    ((∀ r ∈ C, hasTextFields r = true) → ∃ V, filterReviews C "all" t = .ok V) ∧
    statsTotal C = statsApproved C + statsPending C := by
  refine ⟨?_, ?_, ?_⟩
  · intro V hV
    obtain ⟨hret, hVeq⟩ := (filterReviews_eq_ok_iff C "all" t V).1 hV
    rw [statusFiltered_all] at hret hVeq
    have hperm := filter_approved_perm V
    have hmem : ∀ r, r ∈ V ↔
        (r ∈ V.filter (fun r => r.approved) ∨ r ∈ V.filter (fun r => !r.approved)) := by
      intro r
      simp only [List.mem_filter]
      cases r.approved <;> simp
    have hmerge : C.filter (fun r => decide (r ∈ V.filter (fun r => r.approved) ∨
        r ∈ V.filter (fun r => !r.approved))) = V := by
      have hcongr : C.filter (fun r => decide (r ∈ V.filter (fun r => r.approved) ∨
          r ∈ V.filter (fun r => !r.approved))) = C.filter (fun r => decide (r ∈ V)) := by
        apply List.filter_congr
        intro r _
        exact decide_eq_decide.2 (hmem r).symm
      rw [hcongr]
      by_cases ht : t = ""
      · simp only [ht, ne_eq, not_true_eq_false, ↓reduceIte] at hVeq
        rw [hVeq, List.filter_eq_self]
        intro r hr
        simpa using hr
      · simp only [ne_eq, ht, not_false_eq_true, ↓reduceIte] at hVeq
        rw [hVeq]
        apply List.filter_congr
        intro r hr
        cases hh : holds (searchPredicate t) r <;> simp [List.mem_filter, hr, hh]
    refine ⟨V.filter (fun r => r.approved), V.filter (fun r => !r.approved), ?_, ?_, rfl, rfl,
      ?_, hmem, hperm, ?_, hmerge⟩
    · rw [filterReviews_eq_ok_iff, statusFiltered_approved]
      refine ⟨fun ht r hr => hret ht r (List.mem_of_mem_filter hr), ?_⟩
      subst hVeq
      split_ifs <;> simp [List.filter_filter, Bool.and_comm]
    · rw [filterReviews_eq_ok_iff, statusFiltered_pending]
      refine ⟨fun ht r hr => hret ht r (List.mem_of_mem_filter hr), ?_⟩
      subst hVeq
      split_ifs <;> simp [List.filter_filter, Bool.and_comm]
    · intro r
      simp only [List.mem_filter]
      rintro ⟨⟨-, h₁⟩, -, h₂⟩
      simp [h₁] at h₂
    · have := hperm.length_eq
      simpa using this.symm
  · intro hC
    refine ⟨_, (filterReviews_eq_ok_iff C "all" t _).2 ⟨?_, rfl⟩⟩
    intro _ r hr
    rw [statusFiltered_all] at hr
    exact searchPredicate_returns t r (hC r hr)
  · have := (filter_approved_perm C).length_eq
    simpa [statsTotal, statsApproved, statsPending] using this.symm

/-- C4 at a concrete collection and the term `example`, found in both addresses. -/
theorem approved_pending_partition_witness :
    (filterReviews [sampleAna, sampleBo] "all" "example" = .ok [sampleAna, sampleBo] ∧
      ∃ A P, filterReviews [sampleAna, sampleBo] "approved" "example" = .ok A ∧
        filterReviews [sampleAna, sampleBo] "pending" "example" = .ok P ∧
        A = [sampleAna, sampleBo].filter (fun r => r.approved) ∧
        P = [sampleAna, sampleBo].filter (fun r => !r.approved) ∧
        (∀ r, ¬ (r ∈ A ∧ r ∈ P)) ∧ (∀ r, r ∈ [sampleAna, sampleBo] ↔ (r ∈ A ∨ r ∈ P)) ∧
        (A ++ P).Perm [sampleAna, sampleBo] ∧
        [sampleAna, sampleBo].length = A.length + P.length ∧
        [sampleAna, sampleBo].filter (fun r => decide (r ∈ A ∨ r ∈ P)) =
          [sampleAna, sampleBo]) ∧
    ((∀ r ∈ [sampleAna, sampleBo], hasTextFields r = true) ∧
      ∃ V, filterReviews [sampleAna, sampleBo] "all" "example" = .ok V) :=
  ⟨⟨by decide,
      (approved_pending_partition [sampleAna, sampleBo] "example").1 _ (by decide)⟩,
    by decide, (approved_pending_partition [sampleAna, sampleBo] "example").2.1 (by decide)⟩

/-- C6: `filterReviews` is a function of the collection, the status and the term alone (equal
inputs give equal results), and it is idempotent: applied to its own result with the same
status and term it returns that result unchanged; it returns whenever the status-filtered
entities hold strings in the searched fields. -/
theorem filterReviews_idempotent (C : List Review) (s t : String) :
    (∀ (C' : List Review) (s' t' : String), C' = C → s' = s → t' = t →
      filterReviews C' s' t' = filterReviews C s t) ∧
    (∀ out, filterReviews C s t = .ok out → filterReviews out s t = .ok out) ∧
    ((∀ r ∈ statusFiltered C s, hasTextFields r = true) →
      ∃ out, filterReviews C s t = .ok out ∧ filterReviews out s t = .ok out) := by
  have hidem : ∀ out, filterReviews C s t = .ok out → filterReviews out s t = .ok out := by
    intro out h
    obtain ⟨hret, hout⟩ := (filterReviews_eq_ok_iff C s t out).1 h
    rw [filterReviews_eq_ok_iff]
    by_cases ht : t = ""
    · simp only [ht, ne_eq, not_true_eq_false, ↓reduceIte, IsEmpty.forall_iff, true_and]
      simp only [ht, ne_eq, not_true_eq_false, ↓reduceIte] at hout
      rw [hout, statusFiltered_idem]
    · simp only [ne_eq, ht, not_false_eq_true, ↓reduceIte, forall_const] at hout hret ⊢
      have hfix : statusFiltered out s = out := by
        rw [hout, ← statusFiltered_filter_comm, statusFiltered_filter_comm C s,
          statusFiltered_idem, ← statusFiltered_filter_comm]
      rw [hfix]
      refine ⟨fun r hr => hret r ?_, ?_⟩
      · rw [hout] at hr
        exact List.mem_of_mem_filter hr
      · rw [hout, List.filter_filter]
        simp
  refine ⟨?_, hidem, ?_⟩
  · rintro C' s' t' rfl rfl rfl
    rfl
  · intro hC
    have h : filterReviews C s t = .ok _ :=
      (filterReviews_eq_ok_iff C s t _).2
        ⟨fun _ r hr => searchPredicate_returns t r (hC r hr), rfl⟩
    exact ⟨_, h, hidem _ h⟩

/-- C6 at a concrete collection: the pending view for the term `ana` is Ana alone, and
filtering that view again gives Ana alone. -/
theorem filterReviews_idempotent_witness :
    (filterReviews [sampleAna, sampleBo] "pending" "ana" = .ok [sampleAna] ∧
      filterReviews [sampleAna] "pending" "ana" = .ok [sampleAna]) ∧
    ((∀ r ∈ statusFiltered [sampleAna, sampleBo] "pending", hasTextFields r = true) ∧
      ∃ out, filterReviews [sampleAna, sampleBo] "pending" "ana" = .ok out ∧
        filterReviews out "pending" "ana" = .ok out) :=
  ⟨⟨by decide,
      (filterReviews_idempotent [sampleAna, sampleBo] "pending" "ana").2.1 _ (by decide)⟩,
    by decide,
    (filterReviews_idempotent [sampleAna, sampleBo] "pending" "ana").2.2 (by decide)⟩

/-! ### Case mapping -/

/-- The check `lowerImagesStable` succeeds: lower-casing maps every code point of a run of
`lowerTable` to a code point that lower-casing leaves alone. -/
theorem lowerImagesStable_true : lowerImagesStable = true := by
  set_option maxRecDepth 100000 in
  set_option maxHeartbeats 4000000 in
  decide

theorem toNat_ofNat_of_valid (n : Nat) (h : validCode n = true) : (Char.ofNat n).toNat = n := by
  have hv : n.isValidChar := by
    simp only [validCode, Bool.or_eq_true, Bool.and_eq_true, decide_eq_true_eq] at h
    exact h
  unfold Char.ofNat
  rw [dif_pos hv]
  have hlt : n < 4294967296 := by
    rcases hv with h₁ | ⟨_, h₂⟩ <;> omega
  simp [Char.ofNatAux, Char.toNat, UInt32.toNat, Nat.mod_eq_of_lt hlt]

theorem blockOf_subset {α : Type} (table : Blocks α) (n : Nat) (x : α)
    (h : x ∈ blockOf table n) : x ∈ runsOf table := by
  unfold blockOf at h
  cases hf : table.find? (fun b => decide (n ≤ b.1)) with
  | none => rw [hf] at h; simp at h
  | some b =>
    rw [hf] at h
    have hb : b ∈ table := List.mem_of_find?_eq_some hf
    unfold runsOf
    exact List.mem_flatten.2 ⟨b.2, List.mem_map.2 ⟨b, hb, rfl⟩, h⟩

theorem caseLookup_cases (table : Blocks CaseRun) (n : Nat) :
    caseLookup table n = n ∨
    ∃ r ∈ runsOf table, r.covers n = true ∧ caseLookup table n = r.2.2.2 + (n - r.1) := by
  unfold caseLookup
  cases hf : (blockOf table n).find? (fun r => r.covers n) with
  | none => exact Or.inl rfl
  | some r =>
    refine Or.inr ⟨r, blockOf_subset table n r (List.mem_of_find?_eq_some hf), ?_, rfl⟩
    exact @List.find?_some _ (fun r => CaseRun.covers r n) r (blockOf table n) hf

theorem covers_index (r : CaseRun) (n : Nat) (h : r.covers n = true) :
    ∃ k, k < (r.2.1 - r.1) / r.2.2.1 + 1 ∧ n - r.1 = k * r.2.2.1 := by
  simp only [CaseRun.covers, Bool.and_eq_true, decide_eq_true_eq] at h
  obtain ⟨⟨h₁, h₂⟩, h₃⟩ := h
  refine ⟨(n - r.1) / r.2.2.1, ?_, ?_⟩
  · exact Nat.lt_succ_of_le (Nat.div_le_div_right (by omega))
  · have := Nat.div_add_mod (n - r.1) r.2.2.1
    rw [h₃, Nat.add_zero, Nat.mul_comm] at this
    exact this.symm

theorem lowerTable_image (n : Nat) :
    caseLookup lowerTable n = n ∨ lowerStableCode (caseLookup lowerTable n) = true := by
  rcases caseLookup_cases lowerTable n with h | ⟨r, hr, hc, he⟩
  · exact Or.inl h
  · right
    obtain ⟨k, hk, hn⟩ := covers_index r n hc
    have hall := lowerImagesStable_true
    unfold lowerImagesStable at hall
    have h₁ := List.all_eq_true.1 hall r hr
    have h₂ := List.all_eq_true.1 h₁ k (List.mem_range.2 hk)
    rw [he, hn]
    exact h₂

theorem lowerChar_stable (c : Char) (hc : c.toNat ≠ 0x3A3) :
    ∀ d ∈ lowerChar c, d.toNat ≠ 0x3A3 ∧ lowerChar d = [d] := by
  intro d hd
  unfold lowerChar at hd
  by_cases h130 : c.toNat = 0x130
  · rw [if_pos h130] at hd
    simp only [List.mem_cons, List.mem_singleton, List.not_mem_nil, or_false] at hd
    rcases hd with rfl | rfl
    · decide
    · decide
  · rw [if_neg h130, List.mem_singleton] at hd
    rcases lowerTable_image c.toNat with h | h
    · rw [h, Char.ofNat_toNat] at hd
      subst hd
      refine ⟨hc, ?_⟩
      unfold lowerChar
      rw [if_neg h130, h, Char.ofNat_toNat]
    · simp only [lowerStableCode, Bool.and_eq_true, decide_eq_true_eq] at h
      obtain ⟨⟨⟨hv, h₁⟩, h₂⟩, h₃⟩ := h
      have hn : d.toNat = caseLookup lowerTable c.toNat := by
        rw [hd]; exact toNat_ofNat_of_valid _ hv
      refine ⟨by rw [hn]; exact h₁, ?_⟩
      unfold lowerChar
      rw [if_neg (by rw [hn]; exact h₂), hn, h₃, ← hd]

theorem lowerFrom_stable (l : List Char) :
    ∀ before : List Char, ∀ d ∈ lowerFrom before l, d.toNat ≠ 0x3A3 ∧ lowerChar d = [d] := by
  induction l with
  | nil => intro before d hd; simp [lowerFrom] at hd
  | cons c cs ih =>
    intro before d hd
    unfold lowerFrom at hd
    rcases List.mem_append.1 hd with h | h
    · by_cases hc : c.toNat = 0x3A3
      · rw [if_pos hc] at h
        split_ifs at h
        · rw [List.mem_singleton] at h; subst h; decide
        · rw [List.mem_singleton] at h; subst h; decide
      · rw [if_neg hc] at h
        exact lowerChar_stable c hc d h
    · exact ih _ d h

theorem lowerFrom_of_stable (l : List Char)
    (h : ∀ d ∈ l, d.toNat ≠ 0x3A3 ∧ lowerChar d = [d]) :
    ∀ before : List Char, lowerFrom before l = l := by
  induction l with
  | nil => intro before; rfl
  | cons c cs ih =>
    intro before
    have hc := h c (List.mem_cons_self _ _)
    unfold lowerFrom
    rw [if_neg hc.1, hc.2, ih (fun d hd => h d (List.mem_cons_of_mem _ hd))]
    rfl

theorem toLowerCase_idem (t : String) : toLowerCase (toLowerCase t) = toLowerCase t :=
  String.ext (lowerFrom_of_stable _ (lowerFrom_stable t.data []) [])

theorem lowerChar_ne_nil (c : Char) : lowerChar c ≠ [] := by
  unfold lowerChar
  split_ifs <;> simp

theorem lowerFrom_eq_nil (before l : List Char) (h : lowerFrom before l = []) : l = [] := by
  cases l with
  | nil => rfl
  | cons c cs =>
    unfold lowerFrom at h
    have h' := (List.append_eq_nil.1 h).1
    split_ifs at h'
    exact absurd h' (lowerChar_ne_nil c)

theorem toLowerCase_eq_empty (t : String) : toLowerCase t = "" ↔ t = "" := by
  constructor
  · intro h
    exact String.ext (lowerFrom_eq_nil [] t.data (congrArg String.data h))
  · rintro rfl; rfl

theorem upperSpecialNonEmpty_true : upperSpecialNonEmpty = true := by decide

theorem upperChar_ne_nil (c : Char) : upperChar c ≠ [] := by
  unfold upperChar
  cases hf : (blockOf upperSpecial c.toNat).find? (fun e => decide (e.1 = c.toNat)) with
  | none => simp
  | some e =>
    have he : e ∈ runsOf upperSpecial :=
      blockOf_subset upperSpecial c.toNat e (List.mem_of_find?_eq_some hf)
    have hall := upperSpecialNonEmpty_true
    unfold upperSpecialNonEmpty at hall
    have h₁ := List.all_eq_true.1 hall e he
    intro h
    have h₂ : e.2 = [] := List.map_eq_nil_iff.1 h
    rw [h₂] at h₁
    simp at h₁

theorem toUpperCase_eq_empty (t : String) : toUpperCase t = "" ↔ t = "" := by
  constructor
  · intro h
    have h' : (t.data.map upperChar).flatten = [] := congrArg String.data h
    cases hd : t.data with
    | nil => exact String.ext hd
    | cons c cs =>
      rw [hd] at h'
      simp only [List.map_cons, List.flatten_cons] at h'
      exact absurd (List.append_eq_nil.1 h').1 (upperChar_ne_nil c)
  · rintro rfl; rfl

theorem lowerFrom_eq_flatten (l : List Char) (h : ∀ c ∈ l, c.toNat ≠ 0x3A3) :
    ∀ before : List Char, lowerFrom before l = (l.map lowerChar).flatten := by
  induction l with
  | nil => intro before; rfl
  | cons c cs ih =>
    intro before
    unfold lowerFrom
    rw [if_neg (h c (List.mem_cons_self _ _)),
      ih (fun d hd => h d (List.mem_cons_of_mem _ hd))]
    rfl

theorem lower_upper_ascii_code : ∀ n, n < 128 →
    (∀ u ∈ upperChar (Char.ofNat n), u.toNat < 128) ∧
    ((upperChar (Char.ofNat n)).map lowerChar).flatten = lowerChar (Char.ofNat n) := by
  decide

theorem lower_upper_ascii (c : Char) (h : c.toNat < 128) :
    (∀ u ∈ upperChar c, u.toNat < 128) ∧
    ((upperChar c).map lowerChar).flatten = lowerChar c := by
  have := lower_upper_ascii_code c.toNat h
  rwa [Char.ofNat_toNat] at this

theorem lower_upper_ascii_list (cs : List Char) (h : ∀ c ∈ cs, c.toNat < 128) :
    (∀ u ∈ (cs.map upperChar).flatten, u.toNat < 128) ∧
    (((cs.map upperChar).flatten).map lowerChar).flatten = (cs.map lowerChar).flatten := by
  induction cs with
  | nil => exact ⟨by simp, rfl⟩
  | cons c cs ih =>
    have hc := lower_upper_ascii c (h c (List.mem_cons_self _ _))
    have hi := ih (fun d hd => h d (List.mem_cons_of_mem _ hd))
    constructor
    · intro u hu
      simp only [List.map_cons, List.flatten_cons, List.mem_append] at hu
      rcases hu with hu | hu
      · exact hc.1 u hu
      · exact hi.1 u hu
    · simp only [List.map_cons, List.flatten_cons, List.map_append, List.flatten_append]
      rw [hc.2, hi.2]

theorem toLowerCase_toUpperCase_ascii (t : String) (h : ∀ c ∈ t.data, c.toNat < 128) :
    toLowerCase (toUpperCase t) = toLowerCase t := by
  apply String.ext
  have hl := lower_upper_ascii_list t.data h
  show lowerFrom [] ((t.data.map upperChar).flatten) = lowerFrom [] t.data
  rw [lowerFrom_eq_flatten _ (fun c hc => by have := hl.1 c hc; omega),
    lowerFrom_eq_flatten _ (fun c hc => by have := h c hc; omega), hl.2]

theorem filterReviews_congr_term (C : List Review) (s t t' : String)
    (hempty : t = "" ↔ t' = "") (hlower : toLowerCase t = toLowerCase t') :
    filterReviews C s t = filterReviews C s t' := by
  have hp : searchPredicate t = searchPredicate t' := by
    funext r
    simp only [searchPredicate, hlower]
  unfold filterReviews
  by_cases ht : t = ""
  · have ht' := hempty.1 ht
    simp [ht, ht']
  · have ht' : t' ≠ "" := fun h => ht (hempty.2 h)
    simp [ht, ht', hp]

/-- C5, as stated, fails: the upper-cased form of the term `ß` is `SS`, the lower-cased name
`straße` contains `ß` but not `ss`, so the term finds the record and its upper-cased form
does not. -/
theorem filterReviews_upper_case_counterexample :
    toUpperCase "ß" = "SS" ∧
    filterReviews [sampleStrasse] "all" "ß" = .ok [sampleStrasse] ∧
    filterReviews [sampleStrasse] "all" (toUpperCase "ß") = .ok [] ∧
    filterReviews [sampleStrasse] "all" (toUpperCase "ß") ≠
      filterReviews [sampleStrasse] "all" "ß" := by
  refine ⟨by decide, by decide, by decide, by decide⟩

/-- C5, amended: `filterReviews` gives the same result for a term and for its lower-cased
form; it gives the same result for the upper-cased form whenever lower-casing the upper-cased
form gives the lower-cased term, which is so for every term of ASCII characters: the result
for `ALICE` equals the result for `alice`, and the result for `ŁUKASZ` that for `łukasz`. -/
theorem filterReviews_case_insensitive (C : List Review) (s t : String) :
    filterReviews C s (toLowerCase t) = filterReviews C s t ∧
    (toLowerCase (toUpperCase t) = toLowerCase t →
      filterReviews C s (toUpperCase t) = filterReviews C s t) ∧
    ((∀ c ∈ t.data, c.toNat < 128) →
      filterReviews C s (toUpperCase t) = filterReviews C s t) ∧
    filterReviews C s "ALICE" = filterReviews C s "alice" ∧
    filterReviews C s "ŁUKASZ" = filterReviews C s "łukasz" := by
  refine ⟨?_, ?_, ?_, ?_, ?_⟩
  · exact filterReviews_congr_term C s _ _ (toLowerCase_eq_empty t) (toLowerCase_idem t)
  · intro h
    exact filterReviews_congr_term C s _ _ (toUpperCase_eq_empty t) h
  · intro h
    exact filterReviews_congr_term C s _ _ (toUpperCase_eq_empty t)
      (toLowerCase_toUpperCase_ascii t h)
  · exact filterReviews_congr_term C s _ _ (by decide) (by decide)
  · exact filterReviews_congr_term C s _ _ (by decide) (by decide)

/-- C5, amended, at the term `alice`, whose upper-cased form is `ALICE`, and at the term
`łukasz`, whose upper-cased form `ŁUKASZ` is lower-cased to `łukasz` again and finds Łukasz. -/
theorem filterReviews_case_insensitive_witness :
    (toLowerCase (toUpperCase "alice") = toLowerCase "alice" ∧ toUpperCase "alice" = "ALICE") ∧
    filterReviews [sampleAna, sampleBo] "all" (toUpperCase "alice") =
      filterReviews [sampleAna, sampleBo] "all" "alice" ∧
    ((∀ c ∈ "alice".data, c.toNat < 128) ∧
      filterReviews [sampleStrasse] "all" (toUpperCase "alice") =
        filterReviews [sampleStrasse] "all" "alice") ∧
    ((toLowerCase (toUpperCase "łukasz") = toLowerCase "łukasz" ∧
        toUpperCase "łukasz" = "ŁUKASZ") ∧
      filterReviews [sampleAna, sampleLukasz] "all" (toUpperCase "łukasz") =
        filterReviews [sampleAna, sampleLukasz] "all" "łukasz" ∧
      filterReviews [sampleAna, sampleLukasz] "all" "łukasz" = .ok [sampleLukasz]) :=
  ⟨⟨by decide, by decide⟩,
    (filterReviews_case_insensitive [sampleAna, sampleBo] "all" "alice").2.1 (by decide),
    ⟨by decide,
      (filterReviews_case_insensitive [sampleStrasse] "all" "alice").2.2.1 (by decide)⟩,
    ⟨by decide, by decide⟩,
    (filterReviews_case_insensitive [sampleAna, sampleLukasz] "all" "łukasz").2.1 (by decide),
    by decide⟩

/-! ## Lemmas on the pattern matcher, `trim` and the error object -/

theorem matchHere_char_iff (c : Char) (rest : List RegexItem) (s : List Char) :
    matchHere (.char c :: rest) s = true ↔ ∃ s', s = c :: s' ∧ matchHere rest s' = true := by
  cases s with
  | nil => simp [matchHere]
  | cons x xs =>
    simp only [matchHere, Bool.and_eq_true, decide_eq_true_eq, List.cons.injEq]
    constructor
    · rintro ⟨rfl, h⟩
      exact ⟨xs, ⟨rfl, rfl⟩, h⟩
    · rintro ⟨s', ⟨rfl, rfl⟩, h⟩
      exact ⟨rfl, h⟩

theorem matchHere_plus_iff (cls : Char → Bool) (rest : List RegexItem) (s : List Char) :
    matchHere (.plusClass cls :: rest) s = true ↔
      ∃ x s', x ≠ [] ∧ (∀ c ∈ x, cls c = true) ∧ s = x ++ s' ∧ matchHere rest s' = true := by
  induction s with
  | nil =>
    simp only [matchHere, Bool.false_eq_true, false_iff]
    rintro ⟨x, s', hx, -, hs, -⟩
    cases x with
    | nil => exact hx rfl
    | cons a as => cases hs
  | cons a as ih =>
    simp only [matchHere, Bool.and_eq_true, Bool.or_eq_true]
    constructor
    · rintro ⟨ha, h | h⟩
      · exact ⟨[a], as, by simp, by simpa using ha, rfl, h⟩
      · obtain ⟨x, s', -, hx, rfl, hm⟩ := ih.1 h
        refine ⟨a :: x, s', by simp, ?_, rfl, hm⟩
        intro c hc
        rcases List.mem_cons.1 hc with rfl | hc
        · exact ha
        · exact hx c hc
    · rintro ⟨x, s', hx, hcls, hs, hm⟩
      cases x with
      | nil => exact absurd rfl hx
      | cons b bs =>
        simp only [List.cons_append, List.cons.injEq] at hs
        obtain ⟨rfl, rfl⟩ := hs
        refine ⟨hcls a (List.mem_cons_self _ _), ?_⟩
        cases bs with
        | nil => exact Or.inl hm
        | cons d ds =>
          refine Or.inr (ih.2 ⟨d :: ds, s', by simp, ?_, rfl, hm⟩)
          exact fun c hc => hcls c (List.mem_cons_of_mem _ hc)

theorem searchFrom_iff (re : List RegexItem) (s : List Char) :
    searchFrom re s = true ↔ ∃ pre suf, s = pre ++ suf ∧ matchHere re suf = true := by
  induction s with
  | nil =>
    simp only [searchFrom]
    constructor
    · intro h
      exact ⟨[], [], rfl, h⟩
    · rintro ⟨pre, suf, hs, h⟩
      have := List.append_eq_nil.1 hs.symm
      rw [this.2] at h
      exact h
  | cons a as ih =>
    simp only [searchFrom, Bool.or_eq_true]
    constructor
    · rintro (h | h)
      · exact ⟨[], a :: as, rfl, h⟩
      · obtain ⟨pre, suf, rfl, hm⟩ := ih.1 h
        exact ⟨a :: pre, suf, rfl, hm⟩
    · rintro ⟨pre, suf, hs, hm⟩
      cases pre with
      | nil =>
        simp only [List.nil_append] at hs
        subst hs
        exact Or.inl hm
      | cons b bs =>
        simp only [List.cons_append, List.cons.injEq] at hs
        exact Or.inr (ih.2 ⟨bs, suf, hs.2, hm⟩)

/-- The email pattern matches exactly the strings that hold, somewhere, one or more
characters other than white space, `@`, one or more such characters, `.`, and one or more
such characters. -/
theorem test_emailRegex_iff (s : String) :
    test emailRegex s = true ↔
      ∃ pre x y z post : List Char,
        s.data = pre ++ (x ++ Char.ofNat 0x40 :: (y ++ Char.ofNat 0x2E :: (z ++ post))) ∧
        x ≠ [] ∧ y ≠ [] ∧ z ≠ [] ∧
        (∀ c ∈ x, isWhiteSpace c = false) ∧ (∀ c ∈ y, isWhiteSpace c = false) ∧
        (∀ c ∈ z, isWhiteSpace c = false) := by
  have hcls : ∀ l : List Char,
      (∀ c ∈ l, nonWhiteSpace c = true) ↔ ∀ c ∈ l, isWhiteSpace c = false := by
    intro l
    simp [nonWhiteSpace]
  simp only [test, emailRegex, searchFrom_iff, matchHere_plus_iff, matchHere_char_iff, hcls]
  constructor
  · rintro ⟨pre, suf, hs, x, s₁, hx, hxc, rfl, s₂, rfl, y, s₃, hy, hyc, rfl, s₄, rfl, z, post,
      hz, hzc, rfl, -⟩
    exact ⟨pre, x, y, z, post, hs, hx, hy, hz, hxc, hyc, hzc⟩
  · rintro ⟨pre, x, y, z, post, hs, hx, hy, hz, hxc, hyc, hzc⟩
    exact ⟨pre, _, hs, x, _, hx, hxc, rfl, _, rfl, y, _, hy, hyc, rfl, _, rfl, z, post, hz, hzc,
      rfl, by simp [matchHere]⟩

theorem dropWhile_eq_nil_of_all (l : List Char)
    (h : ∀ c ∈ l.dropWhile isWhiteSpace, isWhiteSpace c = true) :
    l.dropWhile isWhiteSpace = [] := by
  by_contra hne
  have h₁ := List.head_dropWhile_not isWhiteSpace l hne
  have h₂ := h _ (List.head_mem hne)
  rw [h₁] at h₂
  exact Bool.false_ne_true h₂

theorem trimChars_eq_nil_iff (cs : List Char) :
    trimChars cs = [] ↔ ∀ c ∈ cs, isWhiteSpace c = true := by
  unfold trimChars
  rw [List.reverse_eq_nil_iff, List.dropWhile_eq_nil_iff]
  constructor
  · intro h
    have hd : cs.dropWhile isWhiteSpace = [] :=
      dropWhile_eq_nil_of_all cs (fun c hc => h c (List.mem_reverse.2 hc))
    exact List.dropWhile_eq_nil_iff.1 hd
  · intro h c hc
    have hd : cs.dropWhile isWhiteSpace = [] := List.dropWhile_eq_nil_iff.2 h
    rw [hd] at hc
    simp at hc

theorem trim_eq_empty_iff (s : String) :
    trim s = "" ↔ ∀ c ∈ s.data, isWhiteSpace c = true := by
  rw [← trimChars_eq_nil_iff]
  constructor
  · intro h
    exact congrArg String.data h
  · intro h
    exact String.ext h

/-- A string matched by the email pattern is not blank. -/
theorem trim_ne_empty_of_test (s : String) (h : test emailRegex s = true) : trim s ≠ "" := by
  obtain ⟨pre, x, y, z, post, hs, -, -, -, -, -, -⟩ := (test_emailRegex_iff s).1 h
  intro ht
  have hall := (trim_eq_empty_iff s).1 ht
  have hmem : Char.ofNat 0x40 ∈ s.data := by
    rw [hs]
    simp
  have := hall _ hmem
  revert this
  decide

/-- The trimmed characters with the white space removed before and after them. -/
theorem trimChars_decomp (cs : List Char) :
    ∃ pre post, cs = pre ++ (trimChars cs ++ post) ∧
      (∀ c ∈ pre, isWhiteSpace c = true) ∧ (∀ c ∈ post, isWhiteSpace c = true) := by
  refine ⟨cs.takeWhile isWhiteSpace,
    ((cs.dropWhile isWhiteSpace).reverse.takeWhile isWhiteSpace).reverse, ?_, ?_, ?_⟩
  · have h₁ := List.takeWhile_append_dropWhile isWhiteSpace cs
    have h₂ := List.takeWhile_append_dropWhile isWhiteSpace (cs.dropWhile isWhiteSpace).reverse
    have h₃ : trimChars cs ++
        ((cs.dropWhile isWhiteSpace).reverse.takeWhile isWhiteSpace).reverse =
        cs.dropWhile isWhiteSpace := by
      unfold trimChars
      rw [← List.reverse_append, h₂, List.reverse_reverse]
    rw [h₃, h₁]
  · intro c hc
    exact (List.mem_takeWhile_imp hc)
  · intro c hc
    exact (List.mem_takeWhile_imp (List.mem_reverse.1 hc))

theorem codeUnits_pos (c : Char) : 0 < codeUnits c := by
  unfold codeUnits
  split_ifs <;> omega

theorem sum_codeUnits_pos (l : List Char) (h : l ≠ []) : 0 < (l.map codeUnits).sum := by
  cases l with
  | nil => exact absurd rfl h
  | cons a as =>
    have := codeUnits_pos a
    simp only [List.map_cons, List.sum_cons]
    omega

theorem length_trim_le (s : String) : length (trim s) ≤ length s := by
  obtain ⟨pre, post, hs, -, -⟩ := trimChars_decomp s.data
  have : length s = (pre.map codeUnits).sum +
      (((trimChars s.data).map codeUnits).sum + (post.map codeUnits).sum) := by
    unfold length
    conv_lhs => rw [hs]
    simp only [List.map_append, List.sum_append]
  show ((trimChars s.data).map codeUnits).sum ≤ length s
  omega

theorem length_trim_lt (s : String) (h : trim s ≠ s) : length (trim s) < length s := by
  obtain ⟨pre, post, hs, -, -⟩ := trimChars_decomp s.data
  have hlen : length s = (pre.map codeUnits).sum +
      (((trimChars s.data).map codeUnits).sum + (post.map codeUnits).sum) := by
    unfold length
    conv_lhs => rw [hs]
    simp only [List.map_append, List.sum_append]
  have hne : pre ≠ [] ∨ post ≠ [] := by
    by_contra hcon
    push_neg at hcon
    rw [hcon.1, hcon.2] at hs
    simp only [List.nil_append, List.append_nil] at hs
    exact h (String.ext hs.symm)
  show ((trimChars s.data).map codeUnits).sum < length s
  rcases hne with hp | hp
  · have := sum_codeUnits_pos pre hp
    omega
  · have := sum_codeUnits_pos post hp
    omega

theorem Errors.get_set (errors : Errors) (key : String) (value : Option String) :
    (errors.set key value).get key = value := by
  unfold Errors.set Errors.get
  by_cases h : errors.any (fun kv => decide (kv.1 = key)) = true
  · rw [if_pos h]
    induction errors with
    | nil => simp at h
    | cons kv rest ih =>
      by_cases hk : kv.1 = key
      · simp [List.find?, hk]
      · have hrest : rest.any (fun kv => decide (kv.1 = key)) = true := by
          simpa [List.any_cons, hk] using h
        have := ih hrest
        simpa [List.find?, hk] using this
  · rw [if_neg h]
    have hnone : errors.find? (fun kv => decide (kv.1 = key)) = none := by
      rw [List.find?_eq_none]
      intro x hx hxk
      exact h (List.any_eq_true.2 ⟨x, hx, hxk⟩)
    simp [List.find?_append, hnone, List.find?]

/-! ## The review form: claims C7 to C10 -/

theorem length_empty : length "" = 0 := rfl

/-- The error object built by `validateForm`, field by field. -/
theorem validateForm_errors (f : FormFields) :
    (validateForm f).1 =
      (if trim f.name = "" then [("name", some "Name is required")] else []) ++
      (if trim f.email = "" then [("email", some "Email is required")]
        else if test emailRegex f.email = true then []
        else [("email", some "Invalid email format")]) ++
      (if trim f.role = "" then [("role", some "Role is required")] else []) ++
      (if trim f.review = "" then [("review", some "Review is required")]
        else if length (trim f.review) < 10 then
          [("review", some "Review must be at least 10 characters")]
        else []) := by
  unfold validateForm
  by_cases h₁ : trim f.name = "" <;> by_cases h₂ : trim f.email = "" <;>
    by_cases h₃ : test emailRegex f.email = true <;> by_cases h₄ : trim f.role = "" <;>
    by_cases h₅ : trim f.review = "" <;> by_cases h₆ : length (trim f.review) < 10 <;>
    simp only [h₁, h₂, h₃, h₄, h₅, h₆, if_true, if_false, Bool.not_true, Bool.not_false,
      Bool.false_eq_true, Bool.not_eq_true, List.nil_append, List.append_nil] <;>
    rfl

theorem validateForm_ok (f : FormFields) :
    (validateForm f).2 = decide ((validateForm f).1 = []) := by
  show decide ((validateForm f).1.keys.length = 0) = decide ((validateForm f).1 = [])
  congr 1
  simp [Errors.keys]

/-- C7: `validateForm` returns true if and only if the name and the role are not blank, the
email is not blank and matches the email pattern, and the trimmed review text has at least 10
characters; the keys of the error object are exactly the failing fields among name, email,
role and review, all of them at once and in this order, each with a message. -/
theorem validateForm_rules (f : FormFields) :
    ((validateForm f).2 = true ↔
      trim f.name ≠ "" ∧ trim f.role ≠ "" ∧
      (trim f.email ≠ "" ∧ test emailRegex f.email = true) ∧
      10 ≤ length (trim f.review)) ∧
    (validateForm f).1.keys =
      (if trim f.name ≠ "" then [] else ["name"]) ++
      (if trim f.email ≠ "" ∧ test emailRegex f.email = true then [] else ["email"]) ++
      (if trim f.role ≠ "" then [] else ["role"]) ++
      (if 10 ≤ length (trim f.review) then [] else ["review"]) ∧
    (∀ k ∈ (validateForm f).1.keys, ∃ msg, (validateForm f).1.get k = some msg) := by
  have hlen : trim f.review = "" → length (trim f.review) < 10 := by
    intro h
    rw [h, length_empty]
    omega
  rw [validateForm_ok, validateForm_errors]
  by_cases h₁ : trim f.name = "" <;> by_cases h₂ : trim f.email = "" <;>
    by_cases h₃ : test emailRegex f.email = true <;> by_cases h₄ : trim f.role = "" <;>
    by_cases h₅ : trim f.review = "" <;> by_cases h₆ : length (trim f.review) < 10 <;>
    first
      | exact absurd (hlen h₅) h₆
      | (have h₇ : ¬ 10 ≤ length (trim f.review) := by omega
         simp only [h₁, h₂, h₃, h₄, h₅, h₆, h₇, if_true, if_false, not_true_eq_false,
           not_false_eq_true, and_true, and_false, true_and, false_and, ne_eq]
         refine ⟨by simp [length_empty], by simp [Errors.keys, length_empty], ?_⟩
         simp [Errors.keys, Errors.get])
      | (have h₇ : 10 ≤ length (trim f.review) := by omega
         simp only [h₁, h₂, h₃, h₄, h₅, h₆, h₇, if_true, if_false, not_true_eq_false,
           not_false_eq_true, and_true, and_false, true_and, false_and, ne_eq]
         refine ⟨by simp [length_empty], by simp [Errors.keys, length_empty], ?_⟩
         simp [Errors.keys, Errors.get])

/-- C7 at concrete forms: a form with blank fields gets all four errors at once, each with a
message; the filled-in sample form passes. -/
theorem validateForm_rules_witness :
    (validateForm ⟨" ", "", "  ", "too short", none⟩).1.keys =
      ["name", "email", "role", "review"] ∧
    (∃ msg, (validateForm ⟨" ", "", "  ", "too short", none⟩).1.get "email" = some msg) ∧
    (validateForm sampleForm).2 = true :=
  ⟨by decide,
    (validateForm_rules ⟨" ", "", "  ", "too short", none⟩).2.2 "email" (by decide),
    by decide⟩

theorem handleSubmit_snd (st : ReviewFormState) :
    (handleSubmit st).2 =
      if (validateForm st.formData).2 = true then
        some (st.formData.entries.filter
          (fun kv => decide (kv.2 ≠ .null) && decide (kv.2 ≠ .text "")))
      else none := by
  unfold handleSubmit
  cases h : (validateForm st.formData).2 <;> simp [h]

/-- C8: in a form whose name, email and role are valid, a review text whose trimmed length is
below 10 is rejected with an error under the key `review` (the only key) and `onSubmit` is not
called, while a trimmed length of 10 or more is accepted without error and `onSubmit` is
called; the length is taken after trimming, so a text of at most 10 characters with leading
or trailing white space is rejected. -/
theorem review_length_threshold (st : ReviewFormState)
    (hname : trim st.formData.name ≠ "") (hrole : trim st.formData.role ≠ "")
    (hemail : trim st.formData.email ≠ "" ∧ test emailRegex st.formData.email = true) :
    (length (trim st.formData.review) < 10 →
      (validateForm st.formData).2 = false ∧
      (validateForm st.formData).1.keys = ["review"] ∧
      (∃ msg, (validateForm st.formData).1.get "review" = some msg) ∧
      (handleSubmit st).2 = none) ∧
    (10 ≤ length (trim st.formData.review) →
      validateForm st.formData = ([], true) ∧
      ∃ payload, (handleSubmit st).2 = some payload) ∧
    (length st.formData.review ≤ 10 → trim st.formData.review ≠ st.formData.review →
      (validateForm st.formData).2 = false ∧
      (∃ msg, (validateForm st.formData).1.get "review" = some msg) ∧
      (handleSubmit st).2 = none) := by
  have herr := validateForm_errors st.formData
  have hok := validateForm_ok st.formData
  rw [if_neg hname, if_neg hemail.1, if_pos hemail.2, if_neg hrole] at herr
  simp only [List.nil_append, List.append_nil] at herr
  have hshort : length (trim st.formData.review) < 10 →
      (validateForm st.formData).2 = false ∧
      (validateForm st.formData).1.keys = ["review"] ∧
      (∃ msg, (validateForm st.formData).1.get "review" = some msg) ∧
      (handleSubmit st).2 = none := by
    intro hlt
    have hne : (validateForm st.formData).1 ≠ [] := by
      rw [herr]
      split_ifs <;> simp
    have hfalse : (validateForm st.formData).2 = false := by
      rw [hok]
      exact decide_eq_false hne
    refine ⟨hfalse, ?_, ?_, ?_⟩
    · rw [herr]
      split_ifs <;> simp [Errors.keys]
    · rw [herr]
      split_ifs <;> simp [Errors.get]
    · rw [handleSubmit_snd, hfalse]
      simp
  refine ⟨hshort, ?_, ?_⟩
  · intro hge
    have hne : trim st.formData.review ≠ "" := by
      intro h
      rw [h, length_empty] at hge
      omega
    rw [if_neg hne, if_neg (by omega)] at herr
    have htrue : (validateForm st.formData).2 = true := by
      rw [hok, herr]
      rfl
    refine ⟨Prod.ext herr htrue, ?_⟩
    rw [handleSubmit_snd, htrue]
    exact ⟨_, rfl⟩
  · intro hle hpad
    have := length_trim_lt st.formData.review hpad
    obtain ⟨h₁, -, h₃, h₄⟩ := hshort (by omega)
    exact ⟨h₁, h₃, h₄⟩

/-- C8 at concrete texts: nine characters are rejected, ten are accepted, and ten characters
of which the first is a blank are rejected. -/
theorem review_length_threshold_witness :
    (length (trim "123456789") < 10 ∧
      (handleSubmit ⟨{ sampleForm with review := "123456789" }, none, []⟩).2 = none) ∧
    (10 ≤ length (trim "1234567890") ∧
      validateForm { sampleForm with review := "1234567890" } = ([], true)) ∧
    ((length " 123456789" ≤ 10 ∧ trim " 123456789" ≠ " 123456789") ∧
      (handleSubmit ⟨{ sampleForm with review := " 123456789" }, none, []⟩).2 = none) :=
  ⟨⟨by decide,
      ((review_length_threshold ⟨{ sampleForm with review := "123456789" }, none, []⟩
        (by decide) (by decide) (by decide)).1 (by decide)).2.2.2⟩,
    ⟨by decide,
      ((review_length_threshold ⟨{ sampleForm with review := "1234567890" }, none, []⟩
        (by decide) (by decide) (by decide)).2.1 (by decide)).1⟩,
    ⟨by decide, by decide⟩,
      ((review_length_threshold ⟨{ sampleForm with review := " 123456789" }, none, []⟩
        (by decide) (by decide) (by decide)).2.2 (by decide) (by decide)).2.2⟩

/-- C9: `handleImageChange` stores the selected file as the image of the form and sets the
image error to `null` if and only if the file has at most 5 * 1024 * 1024 bytes and its MIME
type begins with `image/`; otherwise the form data are unchanged and the key `image` carries a
message.  A file of 5 * 1024 * 1024 + 1 bytes is rejected, a file of exactly 5 * 1024 * 1024
bytes with an image type is accepted. -/
theorem handleImageChange_accepts_iff (st : ReviewFormState) (file : File) :
    (((handleImageChange st (some file)).formData.image = some file ∧
        (handleImageChange st (some file)).errors.get "image" = none) ↔
      (file.size ≤ 5 * 1024 * 1024 ∧ startsWith file.type "image/" = true)) ∧
    (file.size ≤ 5 * 1024 * 1024 ∧ startsWith file.type "image/" = true →
      handleImageChange st (some file) =
        { st with
          formData := { st.formData with image := some file }
          errors := st.errors.set "image" none }) ∧
    (¬ (file.size ≤ 5 * 1024 * 1024 ∧ startsWith file.type "image/" = true) →
      (handleImageChange st (some file)).formData = st.formData ∧
      ∃ msg, (handleImageChange st (some file)).errors.get "image" = some msg) ∧
    (file.size = 5 * 1024 * 1024 + 1 →
      (handleImageChange st (some file)).formData = st.formData ∧
      (handleImageChange st (some file)).errors.get "image" =
        some "Image size must be less than 5MB") ∧
    (file.size = 5 * 1024 * 1024 → startsWith file.type "image/" = true →
      (handleImageChange st (some file)).formData.image = some file ∧
      (handleImageChange st (some file)).errors.get "image" = none) := by
  have hbig : file.size > 5 * 1024 * 1024 →
      (handleImageChange st (some file)).formData = st.formData ∧
      (handleImageChange st (some file)).errors.get "image" =
        some "Image size must be less than 5MB" := by
    intro h
    simp only [handleImageChange, if_pos h, Errors.get_set, and_self]
  have htype : ¬ file.size > 5 * 1024 * 1024 → startsWith file.type "image/" = false →
      (handleImageChange st (some file)).formData = st.formData ∧
      (handleImageChange st (some file)).errors.get "image" =
        some "Please select a valid image file" := by
    intro h₁ h₂
    simp only [handleImageChange, if_neg h₁, h₂, Bool.not_false, if_true, Errors.get_set,
      and_self]
  have hgood : file.size ≤ 5 * 1024 * 1024 ∧ startsWith file.type "image/" = true →
      handleImageChange st (some file) =
        { st with
          formData := { st.formData with image := some file }
          errors := st.errors.set "image" none } := by
    rintro ⟨h₁, h₂⟩
    have h₁' : ¬ file.size > 5 * 1024 * 1024 := by omega
    simp only [handleImageChange, if_neg h₁', h₂, Bool.not_true, Bool.false_eq_true, if_false]
  have hbad : ¬ (file.size ≤ 5 * 1024 * 1024 ∧ startsWith file.type "image/" = true) →
      (handleImageChange st (some file)).formData = st.formData ∧
      ∃ msg, (handleImageChange st (some file)).errors.get "image" = some msg := by
    intro h
    by_cases h₁ : file.size > 5 * 1024 * 1024
    · exact ⟨(hbig h₁).1, _, (hbig h₁).2⟩
    · have h₂ : startsWith file.type "image/" = false := by
        cases hs : startsWith file.type "image/"
        · rfl
        · exact absurd ⟨by omega, hs⟩ h
      exact ⟨(htype h₁ h₂).1, _, (htype h₁ h₂).2⟩
  have hacc : file.size ≤ 5 * 1024 * 1024 ∧ startsWith file.type "image/" = true →
      (handleImageChange st (some file)).formData.image = some file ∧
      (handleImageChange st (some file)).errors.get "image" = none := by
    intro h
    rw [hgood h]
    exact ⟨rfl, Errors.get_set _ _ _⟩
  refine ⟨⟨?_, hacc⟩, hgood, hbad, ?_, ?_⟩
  · rintro ⟨-, hnone⟩
    by_contra h
    obtain ⟨-, msg, hmsg⟩ := hbad h
    rw [hmsg] at hnone
    cases hnone
  · intro h
    exact hbig (by omega)
  · intro h₁ h₂
    exact hacc ⟨by omega, h₂⟩

/-- C9 at concrete files: a PNG of exactly 5 MB is stored, one byte more is rejected. -/
theorem handleImageChange_accepts_iff_witness :
    ((samplePhoto.size = 5 * 1024 * 1024 ∧ startsWith samplePhoto.type "image/" = true) ∧
      (handleImageChange ⟨sampleForm, none, []⟩ (some samplePhoto)).formData.image =
        some samplePhoto) ∧
    (handleImageChange ⟨sampleForm, none, []⟩
        (some { samplePhoto with size := 5 * 1024 * 1024 + 1 })).errors.get "image" =
      some "Image size must be less than 5MB" :=
  ⟨⟨by decide,
      ((handleImageChange_accepts_iff ⟨sampleForm, none, []⟩ samplePhoto).2.2.2.2
        (by decide) (by decide)).1⟩,
    ((handleImageChange_accepts_iff ⟨sampleForm, none, []⟩
      { samplePhoto with size := 5 * 1024 * 1024 + 1 }).2.2.2.1 (by decide)).2⟩

/-- C10, as stated, fails: the email `a@b` has a local part, one `@` and a domain, all free of
white space, and `validateForm` reports `Invalid email format`, so the form is rejected. -/
theorem validateForm_email_counterexample :
    (validateForm { sampleForm with email := "a@b" }).1.get "email" =
      some "Invalid email format" ∧
    (validateForm { sampleForm with email := "a@b" }).2 = false ∧
    (validateForm { sampleForm with email := " x a@b.c y " }).1.get "email" = none := by
  refine ⟨by decide, by decide, by decide⟩

/-- C10, amended: `validateForm` reports no email error exactly when the email holds,
somewhere, one or more characters other than white space, `@`, one or more such characters,
`.`, and one or more such characters.  So every email made of a local part, `@`, and a domain
of the form `y.z`, with the three parts not empty and free of white space, passes the rule; a
blank email fails with `Email is required`, and every other email without such a substring
fails with `Invalid email format`. -/
theorem validateForm_email_rule (f : FormFields) :
    ((validateForm f).1.get "email" = none ↔
      ∃ pre x y z post : List Char,
        f.email.data = pre ++ (x ++ Char.ofNat 0x40 :: (y ++ Char.ofNat 0x2E :: (z ++ post))) ∧
        x ≠ [] ∧ y ≠ [] ∧ z ≠ [] ∧
        (∀ c ∈ x, isWhiteSpace c = false) ∧ (∀ c ∈ y, isWhiteSpace c = false) ∧
        (∀ c ∈ z, isWhiteSpace c = false)) ∧
    (∀ x y z : List Char, x ≠ [] → y ≠ [] → z ≠ [] →
      (∀ c ∈ x, isWhiteSpace c = false) → (∀ c ∈ y, isWhiteSpace c = false) →
      (∀ c ∈ z, isWhiteSpace c = false) →
      f.email.data = x ++ Char.ofNat 0x40 :: (y ++ Char.ofNat 0x2E :: z) →
      (validateForm f).1.get "email" = none) ∧
    (trim f.email = "" → (validateForm f).1.get "email" = some "Email is required") ∧
    (trim f.email ≠ "" → test emailRegex f.email = false →
      (validateForm f).1.get "email" = some "Invalid email format") := by
  have hget : (validateForm f).1.get "email" =
      if trim f.email = "" then some "Email is required"
      else if test emailRegex f.email = true then none
      else some "Invalid email format" := by
    rw [validateForm_errors]
    by_cases h₁ : trim f.name = "" <;> by_cases h₂ : trim f.email = "" <;>
      by_cases h₃ : test emailRegex f.email = true <;> by_cases h₄ : trim f.role = "" <;>
      by_cases h₅ : trim f.review = "" <;> by_cases h₆ : length (trim f.review) < 10 <;>
      simp only [h₁, h₂, h₃, h₄, h₅, h₆, if_true, if_false, List.nil_append,
        List.append_nil] <;>
      rfl
  have hiff : (validateForm f).1.get "email" = none ↔ test emailRegex f.email = true := by
    rw [hget]
    constructor
    · intro h
      by_contra hn
      split_ifs at h
    · intro h
      rw [if_neg (trim_ne_empty_of_test f.email h), if_pos h]
  refine ⟨hiff.trans (test_emailRegex_iff f.email), ?_, ?_, ?_⟩
  · intro x y z hx hy hz hxc hyc hzc hdata
    refine (hiff.trans (test_emailRegex_iff f.email)).2
      ⟨[], x, y, z, [], ?_, hx, hy, hz, hxc, hyc, hzc⟩
    simpa using hdata
  · intro h
    rw [hget, if_pos h]
  · intro h₁ h₂
    rw [hget, if_neg h₁, if_neg (by simp [h₂])]

/-- C10, amended, at the email `a@b.c`. -/
theorem validateForm_email_rule_witness :
    ({ sampleForm with email := "a@b.c" } : FormFields).email.data =
      ['a'] ++ Char.ofNat 0x40 :: (['b'] ++ Char.ofNat 0x2E :: ['c']) ∧
    (validateForm { sampleForm with email := "a@b.c" }).1.get "email" = none :=
  ⟨by decide,
    (validateForm_email_rule { sampleForm with email := "a@b.c" }).2.1 ['a'] ['b'] ['c']
      (by decide) (by decide) (by decide) (by decide) (by decide) (by decide) (by decide)⟩

/-! ## Submission of the form: claims C11 to C13 -/

theorem trim_empty : trim "" = "" := rfl

theorem ne_empty_of_trim_ne_empty (s : String) (h : trim s ≠ "") : s ≠ "" := by
  intro hs
  rw [hs] at h
  exact h trim_empty

theorem validateForm_true_iff (f : FormFields) :
    (validateForm f).2 = true ↔
      trim f.name ≠ "" ∧ trim f.role ≠ "" ∧
      (trim f.email ≠ "" ∧ test emailRegex f.email = true) ∧
      10 ≤ length (trim f.review) := by
  have hlen : trim f.review = "" → length (trim f.review) < 10 := by
    intro h
    rw [h, length_empty]
    omega
  rw [validateForm_ok, validateForm_errors]
  by_cases h₁ : trim f.name = "" <;> by_cases h₂ : trim f.email = "" <;>
    by_cases h₃ : test emailRegex f.email = true <;> by_cases h₄ : trim f.role = "" <;>
    by_cases h₅ : trim f.review = "" <;> by_cases h₆ : length (trim f.review) < 10 <;>
    first
      | exact absurd (hlen h₅) h₆
      | (have h₇ : ¬ 10 ≤ length (trim f.review) := by omega
         simp [h₁, h₂, h₃, h₄, h₅, h₆, h₇, length_empty])
      | (have h₇ : 10 ≤ length (trim f.review) := by omega
         simp [h₁, h₂, h₃, h₄, h₅, h₆, h₇, length_empty])

theorem handleSubmit_fst (st : ReviewFormState) :
    (handleSubmit st).1 = { st with errors := (validateForm st.formData).1 } := by
  unfold handleSubmit
  cases h : (validateForm st.formData).2 <;> simp [h]

/-- C11: `handleSubmit` calls `onSubmit` if and only if `validateForm` returns true.  When a
required field is in error, the click on the submit button hands over no payload, leaves the
console state as it is and produces no event (no request, no notification); the failure is
in the error object of the form alone, whose data are unchanged.  When the form is valid the
click runs `handleFormSubmit` with the payload, and the create or update request goes out. -/
theorem handleSubmit_gate {β : Type} (mutated : FetchOutcome β)
    (listed : FetchOutcome (List Review)) (app : AppState) (form : ReviewFormState) :
    (((handleSubmit form).2).isSome = true ↔ (validateForm form.formData).2 = true) ∧
    ((validateForm form.formData).2 = false →
      (handleSubmit form).2 = none ∧
      (submitForm mutated listed app form).1 = ⟨app, []⟩ ∧
      requestsOf (submitForm mutated listed app form).1.trace = [] ∧
      toastsOf (submitForm mutated listed app form).1.trace = [] ∧
      (submitForm mutated listed app form).2.errors = (validateForm form.formData).1 ∧
      (submitForm mutated listed app form).2.errors ≠ [] ∧
      (submitForm mutated listed app form).2.formData = form.formData) ∧
    ((validateForm form.formData).2 = true →
      ∃ payload, (handleSubmit form).2 = some payload ∧
        (submitForm mutated listed app form).1 = handleFormSubmit payload mutated listed app ∧
        ∃ r, (requestsOf (submitForm mutated listed app form).1.trace).head? = some r ∧
          r.body = some payload ∧ (r.method = "PUT" ∨ r.method = "POST")) := by
  refine ⟨?_, ?_, ?_⟩
  · rw [handleSubmit_snd]
    cases h : (validateForm form.formData).2 <;> simp
  · intro h
    have hnone : (handleSubmit form).2 = none := by
      rw [handleSubmit_snd, h]
      simp
    have hne : (validateForm form.formData).1 ≠ [] := by
      have := validateForm_ok form.formData
      rw [h] at this
      intro hnil
      rw [hnil] at this
      simp at this
    refine ⟨hnone, ?_, ?_, ?_, ?_, ?_, ?_⟩ <;>
      simp only [submitForm, hnone, handleSubmit_fst, requestsOf, toastsOf]
    exact hne
  · intro h
    have hsome := handleSubmit_snd form
    rw [h] at hsome
    simp only [if_true] at hsome
    refine ⟨_, hsome, ?_, ?_⟩
    · simp only [submitForm, hsome]
    · simp only [submitForm, hsome, handleFormSubmit, handleFormSubmitBegin, Run.andThen,
        List.cons_append, List.nil_append, requestsOf, List.head?_cons]
      cases app.editingReview with
      | none => exact ⟨_, rfl, rfl, Or.inr rfl⟩
      | some review => exact ⟨_, rfl, rfl, Or.inl rfl⟩

/-- C11 at concrete forms: a form with a blank name changes nothing in the console; the
filled-in sample form hands its payload to `handleFormSubmit`. -/
theorem handleSubmit_gate_witness :
    ((validateForm { sampleForm with name := " " }).2 = false ∧
      (submitForm (.ok sampleDone) (.error (.typeError "fetch")) initialState
        ⟨{ sampleForm with name := " " }, none, []⟩).1 = ⟨initialState, []⟩) ∧
    ((validateForm sampleForm).2 = true ∧
      ∃ payload, (handleSubmit ⟨sampleForm, none, []⟩).2 = some payload) :=
  ⟨⟨by decide,
      ((handleSubmit_gate (.ok sampleDone) (.error (.typeError "fetch")) initialState
        ⟨{ sampleForm with name := " " }, none, []⟩).2.1 (by decide)).2.1⟩,
    by decide,
    (((handleSubmit_gate (.ok sampleDone) (.error (.typeError "fetch")) initialState
      ⟨sampleForm, none, []⟩).2.2 (by decide)).imp fun _ h => h.1)⟩

/-- C12: for a form that passes validation the payload handed to `onSubmit` is made of the
properties of `formData`, in the order name, email, role, review, image, whose value is
neither `null` nor the empty string, each with the value of the form: the four text fields
and, if and only if the form holds an image file, the key `image`; no other key occurs, in
particular not `id`, `_id`, `createdAt` or `approved`. -/
theorem handleSubmit_payload (st : ReviewFormState)
    (hvalid : (validateForm st.formData).2 = true) :
    ∃ payload, (handleSubmit st).2 = some payload ∧
      payload = st.formData.entries.filter
        (fun kv => decide (kv.2 ≠ .null) && decide (kv.2 ≠ .text "")) ∧
      payload =
        [("name", .text st.formData.name), ("email", .text st.formData.email),
          ("role", .text st.formData.role), ("review", .text st.formData.review)] ++
        (match st.formData.image with
         | some f => [("image", FieldValue.file f)]
         | none => []) ∧
      (∀ k ∈ payload.map Prod.fst, k ∈ ["name", "email", "role", "review", "image"]) ∧
      "id" ∉ payload.map Prod.fst ∧ "_id" ∉ payload.map Prod.fst ∧
      "createdAt" ∉ payload.map Prod.fst ∧ "approved" ∉ payload.map Prod.fst ∧
      ("image" ∈ payload.map Prod.fst ↔ st.formData.image.isSome = true) := by
  have hsome := handleSubmit_snd st
  rw [hvalid] at hsome
  simp only [if_true] at hsome
  obtain ⟨hn, hr, ⟨he, -⟩, hlen⟩ := (validateForm_true_iff st.formData).1 hvalid
  have hname : st.formData.name ≠ "" := ne_empty_of_trim_ne_empty _ hn
  have hrole : st.formData.role ≠ "" := ne_empty_of_trim_ne_empty _ hr
  have hemail : st.formData.email ≠ "" := ne_empty_of_trim_ne_empty _ he
  have hreview : st.formData.review ≠ "" := by
    apply ne_empty_of_trim_ne_empty
    intro h
    rw [h, length_empty] at hlen
    omega
  have hlist : st.formData.entries.filter
      (fun kv => decide (kv.2 ≠ .null) && decide (kv.2 ≠ .text "")) =
      [("name", .text st.formData.name), ("email", .text st.formData.email),
        ("role", .text st.formData.role), ("review", .text st.formData.review)] ++
      (match st.formData.image with
       | some f => [("image", FieldValue.file f)]
       | none => []) := by
    cases himg : st.formData.image <;>
      simp [FormFields.entries, List.filter, himg, hname, hrole, hemail, hreview]
  refine ⟨_, hsome, rfl, hlist, ?_⟩
  rw [hlist]
  cases himg : st.formData.image <;> simp

/-- C12 at the sample form holding the sample photo: five entries, the image last. -/
theorem handleSubmit_payload_witness :
    (validateForm { sampleForm with image := some samplePhoto }).2 = true ∧
    ∃ payload,
      (handleSubmit ⟨{ sampleForm with image := some samplePhoto }, none, []⟩).2 =
        some payload ∧
      payload.map Prod.fst = ["name", "email", "role", "review", "image"] :=
  ⟨by decide,
    (handleSubmit_payload ⟨{ sampleForm with image := some samplePhoto }, none, []⟩
      (by decide)).imp fun _ h => ⟨h.1, by rw [h.2.2.1]; rfl⟩⟩

theorem handleImageChange_formData_of_reject (st : ReviewFormState) (file : File)
    (h : ¬ (file.size ≤ 5 * 1024 * 1024 ∧ startsWith file.type "image/" = true)) :
    (handleImageChange st (some file)).formData = st.formData := by
  by_cases h₁ : file.size > 5 * 1024 * 1024
  · simp only [handleImageChange, if_pos h₁]
  · have h₂ : startsWith file.type "image/" = false := by
      cases hs : startsWith file.type "image/"
      · rfl
      · exact absurd ⟨by omega, hs⟩ h
    simp only [handleImageChange, if_neg h₁, h₂, Bool.not_false, if_true]

theorem payload_without_image (st : ReviewFormState) (himg : st.formData.image = none)
    (payload : List (String × FieldValue)) (hp : (handleSubmit st).2 = some payload) :
    (∀ v, ("image", v) ∉ payload) ∧ "image" ∉ payload.map Prod.fst := by
  have hmem : ∀ v, ("image", v) ∉ payload := by
    intro v hv
    rw [handleSubmit_snd] at hp
    split_ifs at hp
    injection hp with hp
    rw [← hp, List.mem_filter] at hv
    obtain ⟨hin, hpred⟩ := hv
    simp only [FormFields.entries, himg, List.mem_cons, Prod.mk.injEq, List.mem_singleton,
      List.not_mem_nil, or_false] at hin
    rcases hin with h | h | h | h | h
    · exact absurd h.1 (by decide)
    · exact absurd h.1 (by decide)
    · exact absurd h.1 (by decide)
    · exact absurd h.1 (by decide)
    · rw [h.2] at hpred
      simp at hpred
  refine ⟨hmem, ?_⟩
  intro hk
  obtain ⟨⟨k, v⟩, hkv, hfst⟩ := List.mem_map.1 hk
  simp only at hfst
  subst hfst
  exact hmem v hkv

theorem formInput_image_none (st : ReviewFormState) (i : FormInput)
    (hst : st.formData.image = none) (hi : selectsImage i = false) :
    (formInput st i).formData.image = none := by
  cases i with
  | name v => exact hst
  | email v => exact hst
  | role v => exact hst
  | review v => exact hst
  | preview u => exact hst
  | image file =>
    cases file with
    | none => exact hst
    | some file =>
      have hrej : ¬ (file.size ≤ 5 * 1024 * 1024 ∧ startsWith file.type "image/" = true) := by
        intro h
        simp [selectsImage, h.1, h.2] at hi
      show (handleImageChange st (some file)).formData.image = none
      rw [handleImageChange_formData_of_reject st file hrej, hst]

theorem foldl_formInput_image_none (inputs : List FormInput) (st : ReviewFormState)
    (hst : st.formData.image = none) (hno : ∀ i ∈ inputs, selectsImage i = false) :
    (inputs.foldl formInput st).formData.image = none := by
  induction inputs generalizing st with
  | nil => exact hst
  | cons i rest ih =>
    simp only [List.foldl_cons]
    apply ih
    · exact formInput_image_none st i hst (hno i (List.mem_cons_self _ _))
    · exact fun j hj => hno j (List.mem_cons_of_mem _ hj)

/-- C13: an existing review, with or without a stored image, is opened in the edit form;
after any inputs among which no file is accepted as image, the image field of the form is
`null`, and the payload handed over by `handleSubmit` (there is one when the form is valid)
has no entry with the key `image`. -/
theorem edit_without_new_image (review : Review) (inputs : List FormInput)
    (hno : ∀ i ∈ inputs, selectsImage i = false) :
    (initialFormState (some review)).formData.image = none ∧
    (inputs.foldl formInput (initialFormState (some review))).formData.image = none ∧
    ((validateForm (inputs.foldl formInput (initialFormState (some review))).formData).2 = true →
      ∃ payload,
        (handleSubmit (inputs.foldl formInput (initialFormState (some review)))).2 =
          some payload ∧
        "image" ∉ payload.map Prod.fst) ∧
    (∀ payload,
      (handleSubmit (inputs.foldl formInput (initialFormState (some review)))).2 =
        some payload →
      ∀ v, ("image", v) ∉ payload) := by
  have himg := foldl_formInput_image_none inputs (initialFormState (some review)) rfl hno
  refine ⟨rfl, himg, ?_, ?_⟩
  · intro hvalid
    have hsome := handleSubmit_snd (inputs.foldl formInput (initialFormState (some review)))
    rw [hvalid] at hsome
    simp only [if_true] at hsome
    exact ⟨_, hsome, (payload_without_image _ himg _ hsome).2⟩
  · intro payload hp
    exact (payload_without_image _ himg _ hp).1

/-- C13 at the sample record with a stored image, after retyping the role and a rejected
choice of a text file: the payload has the four text fields and no image. -/
theorem edit_without_new_image_witness :
    (∀ i ∈ [FormInput.role "Author", FormInput.image (some ⟨"notes.txt", 12, "text/plain"⟩)],
      selectsImage i = false) ∧
    (handleSubmit
      ([FormInput.role "Author", FormInput.image (some ⟨"notes.txt", 12, "text/plain"⟩)].foldl
        formInput (initialFormState (some { sampleAna with image := some "ana.png" })))).2 =
      some [("name", .text "Ana"), ("email", .text "ana@example.org"),
        ("role", .text "Author"), ("review", .text "Very good work")] ∧
    ∀ v, ("image", v) ∉
      [("name", FieldValue.text "Ana"), ("email", .text "ana@example.org"),
        ("role", .text "Author"), ("review", .text "Very good work")] :=
  ⟨by decide, by decide,
    (edit_without_new_image { sampleAna with image := some "ana.png" }
      [FormInput.role "Author", FormInput.image (some ⟨"notes.txt", 12, "text/plain"⟩)]
      (by decide)).2.2.2 _ (by decide)⟩

/-! ## Lemmas on the gateway and on the runs of the handlers -/

theorem ApiCall.result_ok_iff {β : Type} (call : ApiCall β) (o : FetchOutcome β) (d : β) :
    call.result o = .ok d ↔ ∃ r, o = .ok r ∧ r.ok = true ∧ r.body = some d := by
  cases o with
  | error e => simp [ApiCall.result]
  | ok r =>
    cases hok : r.ok <;> cases hb : r.body <;> simp [ApiCall.result, hok, hb]

/-- Whether an operation returns depends on the outcome of `fetch` alone. -/
theorem ApiCall.result_ok_indep {β : Type} (call call' : ApiCall β) (o : FetchOutcome β)
    (d : β) : call.result o = .ok d ↔ call'.result o = .ok d := by
  rw [ApiCall.result_ok_iff, ApiCall.result_ok_iff]

theorem fetchReviews_of_ok (o : FetchOutcome (List Review)) (st : AppState)
    (data : List Review) (h : api.getAllReviews.result o = .ok data) :
    fetchReviews o st =
      ⟨{ st with reviews := data, loading := false },
        [.request api.getAllReviews.request]⟩ := by
  simp only [fetchReviews, fetchReviewsBegin, fetchReviewsSettle, Run.andThen, h,
    List.append_nil]

theorem fetchReviews_of_error (o : FetchOutcome (List Review)) (st : AppState) (e : JsError)
    (h : api.getAllReviews.result o = .error e) :
    fetchReviews o st =
      ⟨{ st with
          loading := false
          toast := some ⟨"Failed to fetch reviews. Make sure your backend is running.",
            "error"⟩ },
        [.request api.getAllReviews.request, .consoleError "Error fetching reviews:",
          .toast ⟨"Failed to fetch reviews. Make sure your backend is running.",
            "error"⟩]⟩ := by
  simp only [fetchReviews, fetchReviewsBegin, fetchReviewsSettle, Run.andThen, h, showToast,
    List.append_nil, List.cons_append, List.nil_append]

/-- What `fetchReviews` leaves alone, and the value of the loading flag after it. -/
theorem fetchReviews_frame (o : FetchOutcome (List Review)) (st : AppState) :
    (fetchReviews o st).state.loadingStates = st.loadingStates ∧
    (fetchReviews o st).state.showForm = st.showForm ∧
    (fetchReviews o st).state.editingReview = st.editingReview ∧
    (fetchReviews o st).state.filter = st.filter ∧
    (fetchReviews o st).state.searchTerm = st.searchTerm ∧
    (fetchReviews o st).state.filteredReviews = st.filteredReviews ∧
    (fetchReviews o st).state.loading = false := by
  cases h : api.getAllReviews.result o with
  | ok data => rw [fetchReviews_of_ok o st data h]; simp
  | error e => rw [fetchReviews_of_error o st e h]; simp

theorem handleApprove_of_error {β : Type} (id : String) (o₁ : FetchOutcome β)
    (o₂ : FetchOutcome (List Review)) (st : AppState) (e : JsError)
    (h : (api.approveReview id).result o₁ = .error e) :
    handleApprove id o₁ o₂ st =
      ⟨{ st with
          toast := some ⟨"Failed to approve review. Please try again.", "error"⟩
          loadingStates := { st.loadingStates with approving := none } },
        [.request (api.approveReview id : ApiCall Unit).request,
          .consoleError "Error approving review:",
          .toast ⟨"Failed to approve review. Please try again.", "error"⟩]⟩ := by
  simp only [handleApprove, handleApproveBegin, handleApproveSettle, handleApproveCatch,
    Run.andThen, h, showToast, List.append_nil, List.cons_append, List.nil_append]

theorem handleApprove_of_ok {β : Type} (id : String) (o₁ : FetchOutcome β)
    (o₂ : FetchOutcome (List Review)) (st : AppState) (d : β)
    (h : (api.approveReview id).result o₁ = .ok d) :
    handleApprove id o₁ o₂ st =
      ⟨{ (fetchReviews o₂ st).state with
          toast := some ⟨"Review approved successfully!", "success"⟩
          loadingStates := { st.loadingStates with approving := none } },
        .request (api.approveReview id : ApiCall Unit).request ::
          ((fetchReviews o₂ st).trace ++
            [.toast ⟨"Review approved successfully!", "success"⟩])⟩ := by
  cases h₂ : api.getAllReviews.result o₂ with
  | ok data =>
    simp only [handleApprove, handleApproveBegin, handleApproveSettle, handleApproveEnd,
      Run.andThen, h, showToast, List.append_nil, List.cons_append, List.nil_append,
      fetchReviews_of_ok o₂ _ data h₂]
  | error e =>
    simp only [handleApprove, handleApproveBegin, handleApproveSettle, handleApproveEnd,
      Run.andThen, h, showToast, List.append_nil, List.cons_append, List.nil_append,
      fetchReviews_of_error o₂ _ e h₂]

theorem handleDelete_of_declined {β : Type} (id : String) (o₁ : FetchOutcome β)
    (o₂ : FetchOutcome (List Review)) (st : AppState) :
    handleDelete id false o₁ o₂ st = ⟨st, []⟩ := by
  simp [handleDelete]

theorem handleDelete_of_error {β : Type} (id : String) (o₁ : FetchOutcome β)
    (o₂ : FetchOutcome (List Review)) (st : AppState) (e : JsError)
    (h : (api.deleteReview id).result o₁ = .error e) :
    handleDelete id true o₁ o₂ st =
      ⟨{ st with
          toast := some ⟨"Failed to delete review. Please try again.", "error"⟩
          loadingStates := { st.loadingStates with deleting := none } },
        [.request (api.deleteReview id : ApiCall Unit).request,
          .consoleError "Error deleting review:",
          .toast ⟨"Failed to delete review. Please try again.", "error"⟩]⟩ := by
  simp only [handleDelete, handleDeleteBegin, handleDeleteSettle, handleDeleteCatch,
    Run.andThen, h, showToast, List.append_nil, List.cons_append, List.nil_append,
    Bool.not_true, Bool.false_eq_true, if_false]

theorem handleDelete_of_ok {β : Type} (id : String) (o₁ : FetchOutcome β)
    (o₂ : FetchOutcome (List Review)) (st : AppState) (d : β)
    (h : (api.deleteReview id).result o₁ = .ok d) :
    handleDelete id true o₁ o₂ st =
      ⟨{ (fetchReviews o₂ st).state with
          toast := some ⟨"Review deleted successfully!", "success"⟩
          loadingStates := { st.loadingStates with deleting := none } },
        .request (api.deleteReview id : ApiCall Unit).request ::
          ((fetchReviews o₂ st).trace ++
            [.toast ⟨"Review deleted successfully!", "success"⟩])⟩ := by
  cases h₂ : api.getAllReviews.result o₂ with
  | ok data =>
    simp only [handleDelete, handleDeleteBegin, handleDeleteSettle, handleDeleteEnd,
      Run.andThen, h, showToast, List.append_nil, List.cons_append, List.nil_append,
      fetchReviews_of_ok o₂ _ data h₂, Bool.not_true, Bool.false_eq_true, if_false]
  | error e =>
    simp only [handleDelete, handleDeleteBegin, handleDeleteSettle, handleDeleteEnd,
      Run.andThen, h, showToast, List.append_nil, List.cons_append, List.nil_append,
      fetchReviews_of_error o₂ _ e h₂, Bool.not_true, Bool.false_eq_true, if_false]

theorem handleFormSubmit_update_of_error {β : Type} (formData : List (String × FieldValue))
    (o₁ : FetchOutcome β) (o₂ : FetchOutcome (List Review)) (st : AppState) (review : Review)
    (e : JsError) (hedit : st.editingReview = some review)
    (h : (api.updateReview review._id formData).result o₁ = .error e) :
    handleFormSubmit formData o₁ o₂ st =
      ⟨{ st with
          toast := some ⟨"Failed to update review. Please try again.", "error"⟩
          loadingStates := { st.loadingStates with submitting := false } },
        [.request (api.updateReview review._id formData : ApiCall Unit).request,
          .consoleError "Error submitting form:",
          .toast ⟨"Failed to update review. Please try again.", "error"⟩]⟩ := by
  simp only [handleFormSubmit, handleFormSubmitBegin, handleFormSubmitSettle,
    handleFormSubmitCatch, Run.andThen, hedit, h, showToast, List.append_nil,
    List.cons_append, List.nil_append, Option.isSome_some, if_true]
  rfl

theorem handleFormSubmit_create_of_error {β : Type} (formData : List (String × FieldValue))
    (o₁ : FetchOutcome β) (o₂ : FetchOutcome (List Review)) (st : AppState) (e : JsError)
    (hedit : st.editingReview = none)
    (h : (api.createReview formData).result o₁ = .error e) :
    handleFormSubmit formData o₁ o₂ st =
      ⟨{ st with
          toast := some ⟨"Failed to create review. Please try again.", "error"⟩
          loadingStates := { st.loadingStates with submitting := false } },
        [.request (api.createReview formData : ApiCall Unit).request,
          .consoleError "Error submitting form:",
          .toast ⟨"Failed to create review. Please try again.", "error"⟩]⟩ := by
  simp only [handleFormSubmit, handleFormSubmitBegin, handleFormSubmitSettle,
    handleFormSubmitCatch, Run.andThen, hedit, h, showToast, List.append_nil,
    List.cons_append, List.nil_append, Option.isSome_none, Bool.false_eq_true, if_false]
  rfl

theorem handleFormSubmit_update_of_ok {β : Type} (formData : List (String × FieldValue))
    (o₁ : FetchOutcome β) (o₂ : FetchOutcome (List Review)) (st : AppState) (review : Review)
    (d : β) (hedit : st.editingReview = some review)
    (h : (api.updateReview review._id formData).result o₁ = .ok d) :
    handleFormSubmit formData o₁ o₂ st =
      ⟨{ (fetchReviews o₂
            { st with toast := some ⟨"Review updated successfully!", "success"⟩ }).state with
          showForm := false
          editingReview := none
          loadingStates := { st.loadingStates with submitting := false } },
        .request (api.updateReview review._id formData : ApiCall Unit).request ::
          .toast ⟨"Review updated successfully!", "success"⟩ ::
          (fetchReviews o₂ st).trace⟩ := by
  cases h₂ : api.getAllReviews.result o₂ with
  | ok data =>
    simp only [handleFormSubmit, handleFormSubmitBegin, handleFormSubmitSettle,
      handleFormSubmitEnd, Run.andThen, hedit, h, showToast, List.append_nil,
      List.cons_append, List.nil_append, fetchReviews_of_ok o₂ _ data h₂]
  | error e =>
    simp only [handleFormSubmit, handleFormSubmitBegin, handleFormSubmitSettle,
      handleFormSubmitEnd, Run.andThen, hedit, h, showToast, List.append_nil,
      List.cons_append, List.nil_append, fetchReviews_of_error o₂ _ e h₂]

theorem handleFormSubmit_create_of_ok {β : Type} (formData : List (String × FieldValue))
    (o₁ : FetchOutcome β) (o₂ : FetchOutcome (List Review)) (st : AppState) (d : β)
    (hedit : st.editingReview = none)
    (h : (api.createReview formData).result o₁ = .ok d) :
    handleFormSubmit formData o₁ o₂ st =
      ⟨{ (fetchReviews o₂
            { st with toast := some ⟨"Review created successfully!", "success"⟩ }).state with
          showForm := false
          editingReview := none
          loadingStates := { st.loadingStates with submitting := false } },
        .request (api.createReview formData : ApiCall Unit).request ::
          .toast ⟨"Review created successfully!", "success"⟩ ::
          (fetchReviews o₂ st).trace⟩ := by
  cases h₂ : api.getAllReviews.result o₂ with
  | ok data =>
    simp only [handleFormSubmit, handleFormSubmitBegin, handleFormSubmitSettle,
      handleFormSubmitEnd, Run.andThen, hedit, h, showToast, List.append_nil,
      List.cons_append, List.nil_append, fetchReviews_of_ok o₂ _ data h₂]
  | error e =>
    simp only [handleFormSubmit, handleFormSubmitBegin, handleFormSubmitSettle,
      handleFormSubmitEnd, Run.andThen, hedit, h, showToast, List.append_nil,
      List.cons_append, List.nil_append, fetchReviews_of_error o₂ _ e h₂]

theorem requestsOf_append (xs ys : List Event) :
    requestsOf (xs ++ ys) = requestsOf xs ++ requestsOf ys := by
  induction xs with
  | nil => rfl
  | cons e es ih => cases e <;> simp [requestsOf, ih]

theorem toastsOf_append (xs ys : List Event) :
    toastsOf (xs ++ ys) = toastsOf xs ++ toastsOf ys := by
  induction xs with
  | nil => rfl
  | cons e es ih => cases e <;> simp [toastsOf, ih]

theorem requestsOf_fetchReviews (o : FetchOutcome (List Review)) (st : AppState) :
    requestsOf (fetchReviews o st).trace = [api.getAllReviews.request] := by
  cases h : api.getAllReviews.result o with
  | ok data => rw [fetchReviews_of_ok o st data h]; rfl
  | error e => rw [fetchReviews_of_error o st e h]; rfl

theorem handleApproveSettle_approving {β : Type} (id : String) (o₁ : FetchOutcome β)
    (o₂ : FetchOutcome (List Review)) (st : AppState) :
    (handleApproveSettle id o₁ o₂ st).state.loadingStates =
      { st.loadingStates with approving := none } := by
  unfold handleApproveSettle
  cases (api.approveReview id).result o₁ with
  | error e => simp [handleApproveCatch, Run.andThen, showToast]
  | ok d =>
    simp [handleApproveEnd, Run.andThen, showToast, (fetchReviews_frame o₂ st).1]

theorem handleDeleteSettle_deleting {β : Type} (id : String) (o₁ : FetchOutcome β)
    (o₂ : FetchOutcome (List Review)) (st : AppState) :
    (handleDeleteSettle id o₁ o₂ st).state.loadingStates =
      { st.loadingStates with deleting := none } := by
  unfold handleDeleteSettle
  cases (api.deleteReview id).result o₁ with
  | error e => simp [handleDeleteCatch, Run.andThen, showToast]
  | ok d =>
    simp [handleDeleteEnd, Run.andThen, showToast, (fetchReviews_frame o₂ st).1]

theorem handleFormSubmitSettle_submitting {β : Type} (editing : Option Review)
    (formData : List (String × FieldValue)) (o₁ : FetchOutcome β)
    (o₂ : FetchOutcome (List Review)) (st : AppState) :
    (handleFormSubmitSettle editing formData o₁ o₂ st).state.loadingStates =
      { st.loadingStates with submitting := false } := by
  unfold handleFormSubmitSettle
  cases editing with
  | none =>
    cases h : (api.createReview formData).result o₁ with
    | error e => simp [h, handleFormSubmitCatch, Run.andThen, showToast]
    | ok d =>
      simp [h, handleFormSubmitEnd, Run.andThen, showToast, (fetchReviews_frame o₂ _).1]
  | some review =>
    cases h : (api.updateReview review._id formData).result o₁ with
    | error e => simp [h, handleFormSubmitCatch, Run.andThen, showToast]
    | ok d =>
      simp [h, handleFormSubmitEnd, Run.andThen, showToast, (fetchReviews_frame o₂ _).1]

/-! ## Busy flags: claims C14 and C15 -/

/-- C14: whatever the outcomes of the gateway calls, the busy field a handler sets is idle
again once the handler has settled: `approving` is `null` after `handleApprove`, `deleting`
is `null` after a confirmed `handleDelete`, `submitting` is `false` after
`handleFormSubmit`; the same holds whatever the state in which the call settles. -/
theorem busy_flags_cleared {β : Type} (id : String) (formData : List (String × FieldValue))
    (o₁ : FetchOutcome β) (o₂ : FetchOutcome (List Review)) (st : AppState) :
    ((handleApproveBegin id st).state.loadingStates.approving = some id ∧
      (handleApprove id o₁ o₂ st).state.loadingStates.approving = none) ∧
    ((handleDeleteBegin id st).state.loadingStates.deleting = some id ∧
      (handleDelete id true o₁ o₂ st).state.loadingStates.deleting = none) ∧
    ((handleFormSubmitBegin formData st).state.loadingStates.submitting = true ∧
      (handleFormSubmit formData o₁ o₂ st).state.loadingStates.submitting = false) ∧
    (∀ st' : AppState,
      (handleApproveSettle id o₁ o₂ st').state.loadingStates.approving = none ∧
      (handleDeleteSettle id o₁ o₂ st').state.loadingStates.deleting = none ∧
      ∀ editing : Option Review,
        (handleFormSubmitSettle editing formData o₁ o₂ st').state.loadingStates.submitting =
          false) := by
  refine ⟨⟨rfl, ?_⟩, ⟨rfl, ?_⟩, ⟨rfl, ?_⟩, ?_⟩
  · show (handleApproveSettle id o₁ o₂ _).state.loadingStates.approving = none
    rw [handleApproveSettle_approving]
  · show (handleDeleteSettle id o₁ o₂ _).state.loadingStates.deleting = none
    rw [handleDeleteSettle_deleting]
  · show (handleFormSubmitSettle _ formData o₁ o₂ _).state.loadingStates.submitting = false
    rw [handleFormSubmitSettle_submitting]
  · intro st'
    refine ⟨?_, ?_, ?_⟩
    · rw [handleApproveSettle_approving]
    · rw [handleDeleteSettle_deleting]
    · intro editing
      rw [handleFormSubmitSettle_submitting]

/-- C15, as stated, fails: the approving slot holds one id.  With approve calls for the rows
1 and 3 in flight, row 1 is not shown busy; and once the call for row 1 has settled, row 3,
whose call is still in flight, is not shown busy either.  The same happens with two delete
calls. -/
theorem busy_slot_shared_counterexample :
    isApproving
      ((handleApproveBegin "1" sampleConsole).andThen
        (handleApproveBegin "3")).state.loadingStates sampleAna = false ∧
    isApproving
      (((handleApproveBegin "1" sampleConsole).andThen (handleApproveBegin "3")).andThen
        (handleApproveSettle "1" (.ok sampleDone)
          (.ok ⟨200, "OK", some [{ sampleAna with approved := true }, sampleStrasse],
            none⟩))).state.loadingStates sampleStrasse = false ∧
    isDeleting
      ((handleDeleteBegin "1" sampleConsole).andThen
        (handleDeleteBegin "3")).state.loadingStates sampleAna = false ∧
    isDeleting
      (((handleDeleteBegin "1" sampleConsole).andThen (handleDeleteBegin "3")).andThen
        (handleDeleteSettle "1" (.ok sampleDone)
          (.ok ⟨200, "OK", some [sampleStrasse], none⟩))).state.loadingStates
        sampleStrasse = false := by
  refine ⟨by decide, by decide, by decide, by decide⟩

/-- C15, amended: the busy state has one slot per kind of operation, each holding at most
one id.  No step of an approve changes the deleting slot and no step of a delete changes the
approving slot, so with approve of row a and delete of row b in flight both rows are shown
busy, and when one of the two calls settles the other row is still shown busy.  Two
operations of the same kind share the slot: with approve of a and then of b in flight (a and
b distinct) only row b is shown busy, and the settling of any approve call clears the slot
for every row. -/
theorem busy_slots_per_kind {β : Type} (ra rb : Review) (o₁ : FetchOutcome β)
    (o₂ : FetchOutcome (List Review)) (st : AppState) :
    ((handleApproveBegin ra._id st).state.loadingStates.deleting = st.loadingStates.deleting ∧
      (handleApproveSettle ra._id o₁ o₂ st).state.loadingStates.deleting =
        st.loadingStates.deleting ∧
      (handleDeleteBegin rb._id st).state.loadingStates.approving =
        st.loadingStates.approving ∧
      (handleDeleteSettle rb._id o₁ o₂ st).state.loadingStates.approving =
        st.loadingStates.approving) ∧
    (isApproving ((handleApproveBegin ra._id st).andThen
        (handleDeleteBegin rb._id)).state.loadingStates ra = true ∧
      isDeleting ((handleApproveBegin ra._id st).andThen
        (handleDeleteBegin rb._id)).state.loadingStates rb = true ∧
      isDeleting (((handleApproveBegin ra._id st).andThen (handleDeleteBegin rb._id)).andThen
        (handleApproveSettle ra._id o₁ o₂)).state.loadingStates rb = true ∧
      isApproving (((handleApproveBegin ra._id st).andThen (handleDeleteBegin rb._id)).andThen
        (handleDeleteSettle rb._id o₁ o₂)).state.loadingStates ra = true) ∧
    (ra._id ≠ rb._id →
      isApproving ((handleApproveBegin ra._id st).andThen
        (handleApproveBegin rb._id)).state.loadingStates ra = false ∧
      isApproving ((handleApproveBegin ra._id st).andThen
        (handleApproveBegin rb._id)).state.loadingStates rb = true) ∧
    (∀ st' : AppState,
      isApproving (handleApproveSettle ra._id o₁ o₂ st').state.loadingStates rb = false ∧
      isDeleting (handleDeleteSettle ra._id o₁ o₂ st').state.loadingStates rb = false) := by
  refine ⟨⟨rfl, ?_, rfl, ?_⟩, ⟨?_, ?_, ?_, ?_⟩, ?_, ?_⟩
  · rw [handleApproveSettle_approving]
  · rw [handleDeleteSettle_deleting]
  · simp [isApproving, Run.andThen, handleApproveBegin, handleDeleteBegin]
  · simp [isDeleting, Run.andThen, handleApproveBegin, handleDeleteBegin]
  · simp only [Run.andThen, handleApproveSettle_approving]
    simp [isDeleting, handleApproveBegin, handleDeleteBegin]
  · simp only [Run.andThen, handleDeleteSettle_deleting]
    simp [isApproving, handleApproveBegin, handleDeleteBegin]
  · intro hne
    constructor
    · simp only [isApproving, Run.andThen, handleApproveBegin, decide_eq_false_iff_not,
        Option.some.injEq]
      exact fun h => hne h.symm
    · simp [isApproving, Run.andThen, handleApproveBegin]
  · intro st'
    constructor
    · rw [handleApproveSettle_approving]
      simp [isApproving]
    · rw [handleDeleteSettle_deleting]
      simp [isDeleting]

/-- C15, amended, at a console showing Ana (id 1) and the record with id 3. -/
theorem busy_slots_per_kind_witness :
    sampleAna._id ≠ sampleStrasse._id ∧
    isApproving ((handleApproveBegin sampleAna._id sampleConsole).andThen
      (handleApproveBegin sampleStrasse._id)).state.loadingStates sampleAna = false ∧
    isApproving ((handleApproveBegin sampleAna._id sampleConsole).andThen
      (handleApproveBegin sampleStrasse._id)).state.loadingStates sampleStrasse = true :=
  ⟨by decide,
    (busy_slots_per_kind sampleAna sampleStrasse (.ok sampleDone)
      (.error (.typeError "fetch")) sampleConsole).2.2.1 (by decide)⟩

/-! ## Mutations and the refetch: claims C16 and C17 -/

theorem mutation_request_ne_list (r : Request) (h : r.method ≠ "GET") :
    r ≠ api.getAllReviews.request := by
  intro heq
  apply h
  rw [heq]
  rfl

/-- C16: when the gateway call of a mutation fails (approve, confirmed delete, update,
create), then after the handler has settled the collection, the status filter, the search
term and the visible rows are what they were, so `filterReviews` gives the same view; no list
request was issued (the only request is that of the mutation); and the busy field of the
handler is idle. -/
theorem failed_mutation_changes_nothing {β : Type} (id : String)
    (formData : List (String × FieldValue)) (o₁ : FetchOutcome β)
    (o₂ : FetchOutcome (List Review)) (st : AppState) :
    (∀ e, (api.approveReview id).result o₁ = .error e →
      (handleApprove id o₁ o₂ st).state.reviews = st.reviews ∧
      (handleApprove id o₁ o₂ st).state.filter = st.filter ∧
      (handleApprove id o₁ o₂ st).state.searchTerm = st.searchTerm ∧
      (handleApprove id o₁ o₂ st).state.filteredReviews = st.filteredReviews ∧
      requestsOf (handleApprove id o₁ o₂ st).trace =
        [(api.approveReview id : ApiCall Unit).request] ∧
      api.getAllReviews.request ∉ requestsOf (handleApprove id o₁ o₂ st).trace ∧
      (handleApprove id o₁ o₂ st).state.loadingStates.approving = none) ∧
    (∀ e, (api.deleteReview id).result o₁ = .error e →
      (handleDelete id true o₁ o₂ st).state.reviews = st.reviews ∧
      (handleDelete id true o₁ o₂ st).state.filter = st.filter ∧
      (handleDelete id true o₁ o₂ st).state.searchTerm = st.searchTerm ∧
      (handleDelete id true o₁ o₂ st).state.filteredReviews = st.filteredReviews ∧
      requestsOf (handleDelete id true o₁ o₂ st).trace =
        [(api.deleteReview id : ApiCall Unit).request] ∧
      api.getAllReviews.request ∉ requestsOf (handleDelete id true o₁ o₂ st).trace ∧
      (handleDelete id true o₁ o₂ st).state.loadingStates.deleting = none) ∧
    (∀ review e, st.editingReview = some review →
      (api.updateReview review._id formData).result o₁ = .error e →
      (handleFormSubmit formData o₁ o₂ st).state.reviews = st.reviews ∧
      (handleFormSubmit formData o₁ o₂ st).state.filter = st.filter ∧
      (handleFormSubmit formData o₁ o₂ st).state.searchTerm = st.searchTerm ∧
      (handleFormSubmit formData o₁ o₂ st).state.filteredReviews = st.filteredReviews ∧
      requestsOf (handleFormSubmit formData o₁ o₂ st).trace =
        [(api.updateReview review._id formData : ApiCall Unit).request] ∧
      api.getAllReviews.request ∉ requestsOf (handleFormSubmit formData o₁ o₂ st).trace ∧
      (handleFormSubmit formData o₁ o₂ st).state.loadingStates.submitting = false) ∧
    (∀ e, st.editingReview = none → (api.createReview formData).result o₁ = .error e →
      (handleFormSubmit formData o₁ o₂ st).state.reviews = st.reviews ∧
      (handleFormSubmit formData o₁ o₂ st).state.filter = st.filter ∧
      (handleFormSubmit formData o₁ o₂ st).state.searchTerm = st.searchTerm ∧
      (handleFormSubmit formData o₁ o₂ st).state.filteredReviews = st.filteredReviews ∧
      requestsOf (handleFormSubmit formData o₁ o₂ st).trace =
        [(api.createReview formData : ApiCall Unit).request] ∧
      api.getAllReviews.request ∉ requestsOf (handleFormSubmit formData o₁ o₂ st).trace ∧
      (handleFormSubmit formData o₁ o₂ st).state.loadingStates.submitting = false) := by
  refine ⟨?_, ?_, ?_, ?_⟩
  · intro e h
    rw [handleApprove_of_error id o₁ o₂ st e h]
    refine ⟨rfl, rfl, rfl, rfl, rfl, ?_, rfl⟩
    simp only [requestsOf, List.mem_singleton]
    exact fun heq =>
      mutation_request_ne_list _ (show _ ≠ "GET" from by simp [api.approveReview,
        api.deleteReview, api.updateReview, api.createReview]) heq.symm
  · intro e h
    rw [handleDelete_of_error id o₁ o₂ st e h]
    refine ⟨rfl, rfl, rfl, rfl, rfl, ?_, rfl⟩
    simp only [requestsOf, List.mem_singleton]
    exact fun heq =>
      mutation_request_ne_list _ (show _ ≠ "GET" from by simp [api.approveReview,
        api.deleteReview, api.updateReview, api.createReview]) heq.symm
  · intro review e hedit h
    rw [handleFormSubmit_update_of_error formData o₁ o₂ st review e hedit h]
    refine ⟨rfl, rfl, rfl, rfl, rfl, ?_, rfl⟩
    simp only [requestsOf, List.mem_singleton]
    exact fun heq =>
      mutation_request_ne_list _ (show _ ≠ "GET" from by simp [api.approveReview,
        api.deleteReview, api.updateReview, api.createReview]) heq.symm
  · intro e hedit h
    rw [handleFormSubmit_create_of_error formData o₁ o₂ st e hedit h]
    refine ⟨rfl, rfl, rfl, rfl, rfl, ?_, rfl⟩
    simp only [requestsOf, List.mem_singleton]
    exact fun heq =>
      mutation_request_ne_list _ (show _ ≠ "GET" from by simp [api.approveReview,
        api.deleteReview, api.updateReview, api.createReview]) heq.symm

/-- C16 at the sample console: the server answers the approve call for row 1 with 404. -/
theorem failed_mutation_changes_nothing_witness :
    (api.approveReview "1").result (.ok sampleNotFound) =
      .error (.error "Failed to approve review: Not Found") ∧
    (handleApprove "1" (.ok sampleNotFound) (.error (.typeError "fetch"))
      sampleConsole).state.reviews = sampleConsole.reviews ∧
    (handleApprove "1" (.ok sampleNotFound) (.error (.typeError "fetch"))
      sampleConsole).state.loadingStates.approving = none :=
  ⟨by decide,
    ((failed_mutation_changes_nothing "1" [] (.ok sampleNotFound)
      (.error (.typeError "fetch")) sampleConsole).1
        (.error "Failed to approve review: Not Found") (by decide)).1,
    ((failed_mutation_changes_nothing "1" [] (.ok sampleNotFound)
      (.error (.typeError "fetch")) sampleConsole).1
        (.error "Failed to approve review: Not Found") (by decide)).2.2.2.2.2.2⟩

theorem count_list_request (r : Request) (h : r ≠ api.getAllReviews.request) :
    ([r, api.getAllReviews.request] : List Request).count api.getAllReviews.request = 1 := by
  simp [List.count_cons, h]

theorem requestsOf_nil : requestsOf [] = [] := rfl

theorem requestsOf_request (r : Request) (es : List Event) :
    requestsOf (.request r :: es) = r :: requestsOf es := rfl

theorem requestsOf_toast (t : Toast) (es : List Event) :
    requestsOf (.toast t :: es) = requestsOf es := rfl

theorem requestsOf_consoleError (l : String) (es : List Event) :
    requestsOf (.consoleError l :: es) = requestsOf es := rfl

theorem toastsOf_nil : toastsOf [] = [] := rfl

theorem toastsOf_request (r : Request) (es : List Event) :
    toastsOf (.request r :: es) = toastsOf es := rfl

theorem toastsOf_toast (t : Toast) (es : List Event) :
    toastsOf (.toast t :: es) = t :: toastsOf es := rfl

theorem toastsOf_consoleError (l : String) (es : List Event) :
    toastsOf (.consoleError l :: es) = toastsOf es := rfl

theorem fetchReviews_reviews (o : FetchOutcome (List Review)) (st : AppState) :
    (∀ data, api.getAllReviews.result o = .ok data → (fetchReviews o st).state.reviews = data) ∧
    (∀ e, api.getAllReviews.result o = .error e →
      (fetchReviews o st).state.reviews = st.reviews) := by
  constructor
  · intro data h
    rw [fetchReviews_of_ok o st data h]
  · intro e h
    rw [fetchReviews_of_error o st e h]

/-- C17: after a successful approve, delete, update or create call the handler issues exactly
one list request, right after the request of the mutation; whenever the list call succeeds
the collection held afterwards is exactly the returned sequence, whatever was held before;
and in every case the collection held after a handler is either the one held before or the
sequence returned by the list call: it is never patched locally. -/
theorem refetch_after_success {β : Type} (id : String)
    (formData : List (String × FieldValue)) (o₁ : FetchOutcome β)
    (o₂ : FetchOutcome (List Review)) (st : AppState) :
    (∀ d, (api.approveReview id).result o₁ = .ok d →
      requestsOf (handleApprove id o₁ o₂ st).trace =
        [(api.approveReview id : ApiCall Unit).request, api.getAllReviews.request] ∧
      (requestsOf (handleApprove id o₁ o₂ st).trace).count api.getAllReviews.request = 1 ∧
      ∀ data, api.getAllReviews.result o₂ = .ok data →
        (handleApprove id o₁ o₂ st).state.reviews = data) ∧
    (∀ d, (api.deleteReview id).result o₁ = .ok d →
      requestsOf (handleDelete id true o₁ o₂ st).trace =
        [(api.deleteReview id : ApiCall Unit).request, api.getAllReviews.request] ∧
      (requestsOf (handleDelete id true o₁ o₂ st).trace).count api.getAllReviews.request = 1 ∧
      ∀ data, api.getAllReviews.result o₂ = .ok data →
        (handleDelete id true o₁ o₂ st).state.reviews = data) ∧
    (∀ review d, st.editingReview = some review →
      (api.updateReview review._id formData).result o₁ = .ok d →
      requestsOf (handleFormSubmit formData o₁ o₂ st).trace =
        [(api.updateReview review._id formData : ApiCall Unit).request,
          api.getAllReviews.request] ∧
      (requestsOf (handleFormSubmit formData o₁ o₂ st).trace).count
        api.getAllReviews.request = 1 ∧
      ∀ data, api.getAllReviews.result o₂ = .ok data →
        (handleFormSubmit formData o₁ o₂ st).state.reviews = data) ∧
    (∀ d, st.editingReview = none → (api.createReview formData).result o₁ = .ok d →
      requestsOf (handleFormSubmit formData o₁ o₂ st).trace =
        [(api.createReview formData : ApiCall Unit).request, api.getAllReviews.request] ∧
      (requestsOf (handleFormSubmit formData o₁ o₂ st).trace).count
        api.getAllReviews.request = 1 ∧
      ∀ data, api.getAllReviews.result o₂ = .ok data →
        (handleFormSubmit formData o₁ o₂ st).state.reviews = data) ∧
    (∀ data, api.getAllReviews.result o₂ = .ok data →
      (fetchReviews o₂ st).state.reviews = data) ∧
    (∀ r ∈ [handleApprove id o₁ o₂ st, handleDelete id true o₁ o₂ st,
        handleDelete id false o₁ o₂ st, handleFormSubmit formData o₁ o₂ st,
        fetchReviews o₂ st],
      r.state.reviews = st.reviews ∨ api.getAllReviews.result o₂ = .ok r.state.reviews) := by
  have hfetch : ∀ s : AppState, (fetchReviews o₂ s).state.reviews = s.reviews ∨
      api.getAllReviews.result o₂ = .ok (fetchReviews o₂ s).state.reviews := by
    intro s
    cases h : api.getAllReviews.result o₂ with
    | ok data => right; rw [(fetchReviews_reviews o₂ s).1 data h]
    | error e => left; exact (fetchReviews_reviews o₂ s).2 e h
  refine ⟨?_, ?_, ?_, ?_, ?_, ?_⟩
  · intro d h
    rw [handleApprove_of_ok id o₁ o₂ st d h]
    simp only [requestsOf_request, requestsOf_toast, requestsOf_nil, requestsOf_append,
      requestsOf_fetchReviews, List.append_nil, List.singleton_append]
    refine ⟨trivial, count_list_request _ (mutation_request_ne_list _
      (show _ ≠ "GET" from by simp [api.approveReview])), ?_⟩
    intro data hd
    exact (fetchReviews_reviews o₂ st).1 data hd
  · intro d h
    rw [handleDelete_of_ok id o₁ o₂ st d h]
    simp only [requestsOf_request, requestsOf_toast, requestsOf_nil, requestsOf_append,
      requestsOf_fetchReviews, List.append_nil, List.singleton_append]
    refine ⟨trivial, count_list_request _ (mutation_request_ne_list _
      (show _ ≠ "GET" from by simp [api.deleteReview])), ?_⟩
    intro data hd
    exact (fetchReviews_reviews o₂ st).1 data hd
  · intro review d hedit h
    rw [handleFormSubmit_update_of_ok formData o₁ o₂ st review d hedit h]
    simp only [requestsOf_request, requestsOf_toast, requestsOf_fetchReviews]
    refine ⟨trivial, count_list_request _ (mutation_request_ne_list _
      (show _ ≠ "GET" from by simp [api.updateReview])), ?_⟩
    intro data hd
    exact (fetchReviews_reviews o₂ _).1 data hd
  · intro d hedit h
    rw [handleFormSubmit_create_of_ok formData o₁ o₂ st d hedit h]
    simp only [requestsOf_request, requestsOf_toast, requestsOf_fetchReviews]
    refine ⟨trivial, count_list_request _ (mutation_request_ne_list _
      (show _ ≠ "GET" from by simp [api.createReview])), ?_⟩
    intro data hd
    exact (fetchReviews_reviews o₂ _).1 data hd
  · exact (fetchReviews_reviews o₂ st).1
  · intro r hr
    simp only [List.mem_cons, List.mem_singleton, List.not_mem_nil, or_false] at hr
    rcases hr with rfl | rfl | rfl | rfl | rfl
    · cases h : (api.approveReview id).result o₁ with
      | ok d => rw [handleApprove_of_ok id o₁ o₂ st d h]; exact hfetch st
      | error e => rw [handleApprove_of_error id o₁ o₂ st e h]; exact Or.inl rfl
    · cases h : (api.deleteReview id).result o₁ with
      | ok d => rw [handleDelete_of_ok id o₁ o₂ st d h]; exact hfetch st
      | error e => rw [handleDelete_of_error id o₁ o₂ st e h]; exact Or.inl rfl
    · rw [handleDelete_of_declined]; exact Or.inl rfl
    · cases hedit : st.editingReview with
      | none =>
        cases h : (api.createReview formData).result o₁ with
        | ok d =>
          rw [handleFormSubmit_create_of_ok formData o₁ o₂ st d hedit h]
          exact hfetch _
        | error e =>
          rw [handleFormSubmit_create_of_error formData o₁ o₂ st e hedit h]
          exact Or.inl rfl
      | some review =>
        cases h : (api.updateReview review._id formData).result o₁ with
        | ok d =>
          rw [handleFormSubmit_update_of_ok formData o₁ o₂ st review d hedit h]
          exact hfetch _
        | error e =>
          rw [handleFormSubmit_update_of_error formData o₁ o₂ st review e hedit h]
          exact Or.inl rfl
    · exact hfetch st

/-- C17 at the sample console: the approve call for row 1 succeeds and the list call returns
Ana approved and the other record; that sequence is the collection held afterwards. -/
theorem refetch_after_success_witness :
    ((api.approveReview "1").result (.ok sampleDone) = .ok () ∧
      api.getAllReviews.result
        (.ok ⟨200, "OK", some [{ sampleAna with approved := true }, sampleStrasse], none⟩) =
        .ok [{ sampleAna with approved := true }, sampleStrasse]) ∧
    (handleApprove "1" (.ok sampleDone)
      (.ok ⟨200, "OK", some [{ sampleAna with approved := true }, sampleStrasse], none⟩)
      sampleConsole).state.reviews = [{ sampleAna with approved := true }, sampleStrasse] :=
  ⟨⟨by decide, by decide⟩,
    ((refetch_after_success "1" [] (.ok sampleDone)
      (.ok ⟨200, "OK", some [{ sampleAna with approved := true }, sampleStrasse], none⟩)
      sampleConsole).1 () (by decide)).2.2 _ (by decide)⟩

/-! ## The gateway: claim C18 -/

/-- C18, as stated, fails: for the response 404 `Not Found` whose body carries the message
`Review not found`, the error of `api.approveReview` is `Failed to approve review: Not Found`,
which holds neither the status code nor the message of the server; two responses that differ
in status code and in server message but have the same status text give the same error; and
a response with a success status whose body is not JSON gives no decoded body but a
`SyntaxError`. -/
theorem api_error_counterexample :
    (api.approveReview "1").result (.ok sampleNotFound) =
      .error (.error "Failed to approve review: Not Found") ∧
    includes "Failed to approve review: Not Found" "Review not found" = false ∧
    includes "Failed to approve review: Not Found" "404" = false ∧
    (api.deleteReview "1").result
        (.ok (⟨404, "", none, some "Review not found"⟩ : Response Unit)) =
      (api.deleteReview "1").result (.ok ⟨500, "", none, some "Database unreachable"⟩) ∧
    api.getAllReviews.result (.ok ⟨200, "OK", none, none⟩) = .error .syntaxError := by
  refine ⟨by decide, by decide, by decide, by decide, by decide⟩

/-- C18, amended: each of the six operations hands one request to `fetch` and returns the
decoded body if and only if the response has a status from 200 to 299 and a JSON body; on
every other status it fails with an `Error` whose message is the text of the operation
followed by the status text of the response, whatever the status code and the body, so that
no message supplied by the server is carried; a rejected `fetch` fails with its own error
and a success status with a body that is not JSON with a `SyntaxError`. -/
theorem api_result_contract {β : Type} (call : ApiCall β) (outcome : FetchOutcome β)
    (id : String) (formData : List (String × FieldValue)) :
    (∀ d, call.result outcome = .ok d ↔
      ∃ r, outcome = .ok r ∧ (200 ≤ r.status ∧ r.status ≤ 299) ∧ r.body = some d) ∧
    (∀ r, outcome = .ok r → ¬ (200 ≤ r.status ∧ r.status ≤ 299) →
      call.result outcome = .error (.error (call.failure ++ r.statusText))) ∧
    (∀ r r' : Response β, r.statusText = r'.statusText →
      ¬ (200 ≤ r.status ∧ r.status ≤ 299) → ¬ (200 ≤ r'.status ∧ r'.status ≤ 299) →
      call.result (.ok r) = call.result (.ok r')) ∧
    (∀ e, outcome = .error e → call.result outcome = .error e) ∧
    (∀ r, outcome = .ok r → (200 ≤ r.status ∧ r.status ≤ 299) → r.body = none →
      call.result outcome = .error .syntaxError) ∧
    (api.getAllReviews.request = ⟨"GET", API_BASE_URL ++ "/", none⟩ ∧
      api.getAllReviews.failure = "Failed to fetch reviews: " ∧
      api.getApprovedReviews.request = ⟨"GET", API_BASE_URL ++ "/approved", none⟩ ∧
      api.getApprovedReviews.failure = "Failed to fetch approved reviews: " ∧
      (api.approveReview id : ApiCall β).request =
        ⟨"PATCH", API_BASE_URL ++ "/" ++ id ++ "/approve", none⟩ ∧
      (api.approveReview id : ApiCall β).failure = "Failed to approve review: " ∧
      (api.deleteReview id : ApiCall β).request =
        ⟨"DELETE", API_BASE_URL ++ "/" ++ id, none⟩ ∧
      (api.deleteReview id : ApiCall β).failure = "Failed to delete review: " ∧
      (api.updateReview id formData : ApiCall β).request =
        ⟨"PUT", API_BASE_URL ++ "/" ++ id, some formData⟩ ∧
      (api.updateReview id formData : ApiCall β).failure = "Failed to update review: " ∧
      (api.createReview formData : ApiCall β).request =
        ⟨"POST", API_BASE_URL ++ "/", some formData⟩ ∧
      (api.createReview formData : ApiCall β).failure = "Failed to create review: ") := by
  have hok : ∀ r : Response β, r.ok = true ↔ (200 ≤ r.status ∧ r.status ≤ 299) := by
    intro r
    simp [Response.ok]
  have hbad : ∀ r : Response β, ¬ (200 ≤ r.status ∧ r.status ≤ 299) →
      call.result (.ok r) = .error (.error (call.failure ++ r.statusText)) := by
    intro r hr
    have : r.ok = false := by
      cases h : r.ok
      · rfl
      · exact absurd ((hok r).1 h) hr
    simp [ApiCall.result, this]
  refine ⟨?_, ?_, ?_, ?_, ?_, ?_⟩
  · intro d
    rw [ApiCall.result_ok_iff]
    constructor
    · rintro ⟨r, h₁, h₂, h₃⟩
      exact ⟨r, h₁, (hok r).1 h₂, h₃⟩
    · rintro ⟨r, h₁, h₂, h₃⟩
      exact ⟨r, h₁, (hok r).2 h₂, h₃⟩
  · rintro r rfl hr
    exact hbad r hr
  · intro r r' htext hr hr'
    rw [hbad r hr, hbad r' hr', htext]
  · rintro e rfl
    rfl
  · rintro r rfl hr hbody
    simp [ApiCall.result, (hok r).2 hr, hbody]
  · exact ⟨rfl, rfl, rfl, rfl, rfl, rfl, rfl, rfl, rfl, rfl, rfl, rfl⟩

/-- C18, amended, at the sample responses: 200 with a JSON body returns the body, 404 fails
with the text of the operation and the status text. -/
theorem api_result_contract_witness :
    (api.deleteReview "1").result (.ok sampleDone) = .ok () ∧
    (api.deleteReview "1").result (.ok sampleNotFound) =
      .error (.error ((api.deleteReview "1" : ApiCall Unit).failure ++ "Not Found")) :=
  ⟨((api_result_contract (api.deleteReview "1") (.ok sampleDone) "1" []).1 ()).2
      ⟨sampleDone, rfl, by decide, rfl⟩,
    (api_result_contract (api.deleteReview "1") (.ok sampleNotFound) "1" []).2.1
      sampleNotFound rfl (by decide)⟩

/-! ## Failures and the form dialog: claims C19 and C20 -/

theorem toastsOf_fetchReviews (o : FetchOutcome (List Review)) (st : AppState) :
    (∀ data, api.getAllReviews.result o = .ok data → toastsOf (fetchReviews o st).trace = []) ∧
    (∀ e, api.getAllReviews.result o = .error e →
      toastsOf (fetchReviews o st).trace =
        [⟨"Failed to fetch reviews. Make sure your backend is running.", "error"⟩]) := by
  constructor
  · intro data h
    rw [fetchReviews_of_ok o st data h]
    rfl
  · intro e h
    rw [fetchReviews_of_error o st e h]
    rfl

/-- C19: every handler is a total function of the state and the outcomes of its calls, so a
failed gateway call never leaves it as an exception.  When the list call fails,
`fetchReviews` emits exactly one notification, tagged `error`; when the call of a mutation
fails, `handleApprove`, `handleDelete` and `handleFormSubmit` emit exactly one notification,
tagged `error`; and when the list call fails inside a handler whose mutation succeeded, the
notification of `fetchReviews` is the only one tagged `error` (the other is the success
notification of the handler). -/
theorem failures_notified_once {β : Type} (id : String)
    (formData : List (String × FieldValue)) (o₁ : FetchOutcome β)
    (o₂ : FetchOutcome (List Review)) (st : AppState) :
    (∀ e, api.getAllReviews.result o₂ = .error e →
      toastsOf (fetchReviews o₂ st).trace =
        [⟨"Failed to fetch reviews. Make sure your backend is running.", "error"⟩]) ∧
    (∀ e, (api.approveReview id).result o₁ = .error e →
      toastsOf (handleApprove id o₁ o₂ st).trace =
        [⟨"Failed to approve review. Please try again.", "error"⟩]) ∧
    (∀ e, (api.deleteReview id).result o₁ = .error e →
      toastsOf (handleDelete id true o₁ o₂ st).trace =
        [⟨"Failed to delete review. Please try again.", "error"⟩]) ∧
    (∀ review e, st.editingReview = some review →
      (api.updateReview review._id formData).result o₁ = .error e →
      toastsOf (handleFormSubmit formData o₁ o₂ st).trace =
        [⟨"Failed to update review. Please try again.", "error"⟩]) ∧
    (∀ e, st.editingReview = none → (api.createReview formData).result o₁ = .error e →
      toastsOf (handleFormSubmit formData o₁ o₂ st).trace =
        [⟨"Failed to create review. Please try again.", "error"⟩]) ∧
    (∀ e, api.getAllReviews.result o₂ = .error e →
      (∀ d, (api.approveReview id).result o₁ = .ok d →
        (toastsOf (handleApprove id o₁ o₂ st).trace).filter
            (fun t => decide (t.type = "error")) =
          [⟨"Failed to fetch reviews. Make sure your backend is running.", "error"⟩]) ∧
      (∀ d, (api.deleteReview id).result o₁ = .ok d →
        (toastsOf (handleDelete id true o₁ o₂ st).trace).filter
            (fun t => decide (t.type = "error")) =
          [⟨"Failed to fetch reviews. Make sure your backend is running.", "error"⟩]) ∧
      (∀ review d, st.editingReview = some review →
        (api.updateReview review._id formData).result o₁ = .ok d →
        (toastsOf (handleFormSubmit formData o₁ o₂ st).trace).filter
            (fun t => decide (t.type = "error")) =
          [⟨"Failed to fetch reviews. Make sure your backend is running.", "error"⟩]) ∧
      (∀ d, st.editingReview = none → (api.createReview formData).result o₁ = .ok d →
        (toastsOf (handleFormSubmit formData o₁ o₂ st).trace).filter
            (fun t => decide (t.type = "error")) =
          [⟨"Failed to fetch reviews. Make sure your backend is running.", "error"⟩])) := by
  refine ⟨(toastsOf_fetchReviews o₂ st).2, ?_, ?_, ?_, ?_, ?_⟩
  · intro e h
    rw [handleApprove_of_error id o₁ o₂ st e h]
    rfl
  · intro e h
    rw [handleDelete_of_error id o₁ o₂ st e h]
    rfl
  · intro review e hedit h
    rw [handleFormSubmit_update_of_error formData o₁ o₂ st review e hedit h]
    rfl
  · intro e hedit h
    rw [handleFormSubmit_create_of_error formData o₁ o₂ st e hedit h]
    rfl
  · intro e he
    refine ⟨?_, ?_, ?_, ?_⟩
    · intro d h
      rw [handleApprove_of_ok id o₁ o₂ st d h]
      simp only [toastsOf_request, toastsOf_append, (toastsOf_fetchReviews o₂ st).2 e he,
        toastsOf_toast, toastsOf_nil]
      decide
    · intro d h
      rw [handleDelete_of_ok id o₁ o₂ st d h]
      simp only [toastsOf_request, toastsOf_append, (toastsOf_fetchReviews o₂ st).2 e he,
        toastsOf_toast, toastsOf_nil]
      decide
    · intro review d hedit h
      rw [handleFormSubmit_update_of_ok formData o₁ o₂ st review d hedit h]
      simp only [toastsOf_request, toastsOf_toast, (toastsOf_fetchReviews o₂ st).2 e he]
      decide
    · intro d hedit h
      rw [handleFormSubmit_create_of_ok formData o₁ o₂ st d hedit h]
      simp only [toastsOf_request, toastsOf_toast, (toastsOf_fetchReviews o₂ st).2 e he]
      decide

/-- C19 at the sample console: the delete call for row 1 is answered with 404. -/
theorem failures_notified_once_witness :
    (api.deleteReview "1").result (.ok sampleNotFound) =
      .error (.error "Failed to delete review: Not Found") ∧
    toastsOf (handleDelete "1" true (.ok sampleNotFound) (.error (.typeError "fetch"))
      sampleConsole).trace = [⟨"Failed to delete review. Please try again.", "error"⟩] :=
  ⟨by decide,
    (failures_notified_once "1" [] (.ok sampleNotFound) (.error (.typeError "fetch"))
      sampleConsole).2.2.1 (.error "Failed to delete review: Not Found") (by decide)⟩

/-- C20: when the update or create call succeeds, `handleFormSubmit` ends with the form
closed (`showForm` false) and `editingReview` `null`, whatever the outcome of the list call;
when it fails, `showForm` and `editingReview` are what they were and the notification is the
error notification of the update or of the create. -/
theorem form_closed_iff_saved {β : Type} (formData : List (String × FieldValue))
    (o₁ : FetchOutcome β) (o₂ : FetchOutcome (List Review)) (st : AppState) :
    (∀ review d, st.editingReview = some review →
      (api.updateReview review._id formData).result o₁ = .ok d →
      (handleFormSubmit formData o₁ o₂ st).state.showForm = false ∧
      (handleFormSubmit formData o₁ o₂ st).state.editingReview = none) ∧
    (∀ d, st.editingReview = none → (api.createReview formData).result o₁ = .ok d →
      (handleFormSubmit formData o₁ o₂ st).state.showForm = false ∧
      (handleFormSubmit formData o₁ o₂ st).state.editingReview = none) ∧
    (∀ review e, st.editingReview = some review →
      (api.updateReview review._id formData).result o₁ = .error e →
      (handleFormSubmit formData o₁ o₂ st).state.showForm = st.showForm ∧
      (handleFormSubmit formData o₁ o₂ st).state.editingReview = st.editingReview ∧
      (handleFormSubmit formData o₁ o₂ st).state.toast =
        some ⟨"Failed to update review. Please try again.", "error"⟩) ∧
    (∀ e, st.editingReview = none → (api.createReview formData).result o₁ = .error e →
      (handleFormSubmit formData o₁ o₂ st).state.showForm = st.showForm ∧
      (handleFormSubmit formData o₁ o₂ st).state.editingReview = st.editingReview ∧
      (handleFormSubmit formData o₁ o₂ st).state.toast =
        some ⟨"Failed to create review. Please try again.", "error"⟩) := by
  refine ⟨?_, ?_, ?_, ?_⟩
  · intro review d hedit h
    rw [handleFormSubmit_update_of_ok formData o₁ o₂ st review d hedit h]
    exact ⟨rfl, rfl⟩
  · intro d hedit h
    rw [handleFormSubmit_create_of_ok formData o₁ o₂ st d hedit h]
    exact ⟨rfl, rfl⟩
  · intro review e hedit h
    rw [handleFormSubmit_update_of_error formData o₁ o₂ st review e hedit h]
    exact ⟨rfl, rfl, rfl⟩
  · intro e hedit h
    rw [handleFormSubmit_create_of_error formData o₁ o₂ st e hedit h]
    exact ⟨rfl, rfl, rfl⟩

/-- C20 at the sample console with Ana opened in the form: a successful update closes the
form even though the list call fails; a rejected update leaves it open on Ana. -/
theorem form_closed_iff_saved_witness :
    ((handleEdit sampleAna sampleConsole).editingReview = some sampleAna ∧
      (api.updateReview sampleAna._id []).result (.ok sampleDone) = .ok ()) ∧
    ((handleFormSubmit [] (.ok sampleDone) (.error (.typeError "fetch"))
        (handleEdit sampleAna sampleConsole)).state.showForm = false ∧
      (handleFormSubmit [] (.ok sampleDone) (.error (.typeError "fetch"))
        (handleEdit sampleAna sampleConsole)).state.editingReview = none) ∧
    ((handleFormSubmit [] (.ok sampleNotFound) (.error (.typeError "fetch"))
        (handleEdit sampleAna sampleConsole)).state.showForm = true ∧
      (handleFormSubmit [] (.ok sampleNotFound) (.error (.typeError "fetch"))
        (handleEdit sampleAna sampleConsole)).state.editingReview = some sampleAna) :=
  ⟨⟨rfl, by decide⟩,
    (form_closed_iff_saved [] (.ok sampleDone) (.error (.typeError "fetch"))
      (handleEdit sampleAna sampleConsole)).1 sampleAna () rfl (by decide),
    ((form_closed_iff_saved [] (.ok sampleNotFound) (.error (.typeError "fetch"))
      (handleEdit sampleAna sampleConsole)).2.2.1 sampleAna
        (.error "Failed to update review: Not Found") rfl (by decide)).1,
    ((form_closed_iff_saved [] (.ok sampleNotFound) (.error (.typeError "fetch"))
      (handleEdit sampleAna sampleConsole)).2.2.1 sampleAna
        (.error "Failed to update review: Not Found") rfl (by decide)).2.1⟩

/-! ## The image error and the mount: claims C21 and C22 -/

theorem Errors.get_set_of_ne (errors : Errors) (key key' : String) (value : Option String)
    (h : key' ≠ key) : (errors.set key value).get key' = errors.get key' := by
  unfold Errors.set Errors.get
  by_cases hany : errors.any (fun kv => decide (kv.1 = key)) = true
  · rw [if_pos hany]
    clear hany
    induction errors with
    | nil => rfl
    | cons kv rest ih =>
      by_cases hk : kv.1 = key
      · have hk' : ¬ kv.1 = key' := fun h' => h (h'.symm.trans hk)
        have hd : decide (kv.1 = key') = false := decide_eq_false hk'
        simp only [List.map_cons, if_pos hk, List.find?_cons, hd]
        exact ih
      · by_cases hk' : kv.1 = key'
        · have hd : decide (kv.1 = key') = true := decide_eq_true hk'
          simp only [List.map_cons, if_neg hk, List.find?_cons, hd]
        · have hd : decide (kv.1 = key') = false := decide_eq_false hk'
          simp only [List.map_cons, if_neg hk, List.find?_cons, hd]
          exact ih
  · rw [if_neg hany]
    rw [List.find?_append]
    have : ([(key, value)] : Errors).find? (fun kv => decide (kv.1 = key')) = none := by
      simp [List.find?, Ne.symm h]
    rw [this]
    cases errors.find? (fun kv => decide (kv.1 = key')) <;> rfl

theorem Errors.filter_set (errors : Errors) (key : String) (value : Option String) :
    (errors.set key value).filter (fun kv => decide (kv.1 ≠ key)) =
      errors.filter (fun kv => decide (kv.1 ≠ key)) := by
  have hmap : ∀ l : Errors,
      (l.map (fun kv => if kv.1 = key then (kv.1, value) else kv)).filter
          (fun kv => decide (kv.1 ≠ key)) =
        l.filter (fun kv => decide (kv.1 ≠ key)) := by
    intro l
    induction l with
    | nil => rfl
    | cons kv rest ih =>
      by_cases hk : kv.1 = key
      · have hd : decide (kv.1 ≠ key) = false := decide_eq_false (not_not.2 hk)
        simp only [List.map_cons, if_pos hk, List.filter_cons, hd, Bool.false_eq_true,
          if_false]
        exact ih
      · have hd : decide (kv.1 ≠ key) = true := decide_eq_true hk
        simp only [List.map_cons, if_neg hk, List.filter_cons, hd, if_true, ih]
  unfold Errors.set
  split_ifs
  · exact hmap errors
  · simp [List.filter_append]

theorem Errors.keys_set_subset (errors : Errors) (key : String) (value : Option String) :
    ∀ k ∈ (errors.set key value).keys, k = key ∨ k ∈ errors.keys := by
  intro k hk
  unfold Errors.set at hk
  unfold Errors.keys at hk ⊢
  split_ifs at hk
  · obtain ⟨kv, hkv, rfl⟩ := List.mem_map.1 hk
    obtain ⟨kv', hkv', rfl⟩ := List.mem_map.1 hkv
    by_cases h : kv'.1 = key
    · left
      simp [h]
    · right
      simp only [h, if_false]
      exact List.mem_map.2 ⟨kv', hkv', rfl⟩
  · simp only [List.map_append, List.map_cons, List.map_nil, List.mem_append,
      List.mem_singleton] at hk
    rcases hk with hk | hk
    · exact Or.inr hk
    · exact Or.inl hk

theorem handleImageChange_of_reject (st : ReviewFormState) (file : File)
    (h : ¬ (file.size ≤ 5 * 1024 * 1024 ∧ startsWith file.type "image/" = true)) :
    ∃ msg, handleImageChange st (some file) =
      { st with errors := st.errors.set "image" (some msg) } := by
  by_cases h₁ : file.size > 5 * 1024 * 1024
  · exact ⟨"Image size must be less than 5MB", by simp only [handleImageChange, if_pos h₁]⟩
  · have h₂ : startsWith file.type "image/" = false := by
      cases hs : startsWith file.type "image/"
      · rfl
      · exact absurd ⟨by omega, hs⟩ h
    exact ⟨"Please select a valid image file",
      by simp only [handleImageChange, if_neg h₁, h₂, Bool.not_false, if_true]⟩

/-- C21: when `handleImageChange` rejects the selected file (too large, or not an image), the
form data (name, email, role, review and the image held before) and the preview are
unchanged; in the error object only the entry `image` changes: every other key reads as
before, the entries of the other keys are the same, no key other than `image` is added, and
`image` carries a message.  A following `handleSubmit` on valid required fields hands over
its payload and leaves an empty error object. -/
theorem rejected_image_frame (st : ReviewFormState) (file : File)
    (hrej : ¬ (file.size ≤ 5 * 1024 * 1024 ∧ startsWith file.type "image/" = true)) :
    (handleImageChange st (some file)).formData = st.formData ∧
    (handleImageChange st (some file)).imagePreview = st.imagePreview ∧
    (∀ k, k ≠ "image" →
      (handleImageChange st (some file)).errors.get k = st.errors.get k) ∧
    (handleImageChange st (some file)).errors.filter (fun kv => decide (kv.1 ≠ "image")) =
      st.errors.filter (fun kv => decide (kv.1 ≠ "image")) ∧
    (∀ k ∈ (handleImageChange st (some file)).errors.keys, k = "image" ∨ k ∈ st.errors.keys) ∧
    (∃ msg, (handleImageChange st (some file)).errors.get "image" = some msg) ∧
    ((validateForm st.formData).2 = true →
      (∃ payload, (handleSubmit (handleImageChange st (some file))).2 = some payload ∧
        (handleSubmit st).2 = some payload) ∧
      (handleSubmit (handleImageChange st (some file))).1.errors = []) := by
  obtain ⟨msg, hmsg⟩ := handleImageChange_of_reject st file hrej
  rw [hmsg]
  refine ⟨rfl, rfl, ?_, ?_, ?_, ?_, ?_⟩
  · intro k hk
    exact Errors.get_set_of_ne st.errors "image" k (some msg) hk
  · exact Errors.filter_set st.errors "image" (some msg)
  · exact Errors.keys_set_subset st.errors "image" (some msg)
  · exact ⟨msg, Errors.get_set st.errors "image" (some msg)⟩
  · intro hvalid
    refine ⟨⟨st.formData.entries.filter
      (fun kv => decide (kv.2 ≠ .null) && decide (kv.2 ≠ .text "")), ?_, ?_⟩, ?_⟩
    · rw [handleSubmit_snd]
      simp only [hvalid, if_true]
    · rw [handleSubmit_snd]
      simp only [hvalid, if_true]
    · rw [handleSubmit_fst]
      have := validateForm_ok st.formData
      rw [hvalid] at this
      simpa using this

/-- C21 at the sample form with an error on the name and a file of 6 MB: the name error stays,
the image error is added, and the submission goes through. -/
theorem rejected_image_frame_witness :
    ¬ (({ samplePhoto with size := 6 * 1024 * 1024 } : File).size ≤ 5 * 1024 * 1024 ∧
      startsWith ({ samplePhoto with size := 6 * 1024 * 1024 } : File).type "image/" = true) ∧
    (handleImageChange ⟨sampleForm, none, [("name", some "Name is required")]⟩
      (some { samplePhoto with size := 6 * 1024 * 1024 })).errors =
      [("name", some "Name is required"), ("image", some "Image size must be less than 5MB")] ∧
    (handleImageChange ⟨sampleForm, none, [("name", some "Name is required")]⟩
      (some { samplePhoto with size := 6 * 1024 * 1024 })).formData = sampleForm ∧
    (handleSubmit (handleImageChange ⟨sampleForm, none, [("name", some "Name is required")]⟩
      (some { samplePhoto with size := 6 * 1024 * 1024 }))).1.errors = [] :=
  ⟨by decide, by decide,
    (rejected_image_frame ⟨sampleForm, none, [("name", some "Name is required")]⟩
      { samplePhoto with size := 6 * 1024 * 1024 } (by decide)).1,
    ((rejected_image_frame ⟨sampleForm, none, [("name", some "Name is required")]⟩
      { samplePhoto with size := 6 * 1024 * 1024 } (by decide)).2.2.2.2.2.2 (by decide)).2⟩

/-- C22: when the list call issued on mount fails, then after `fetchReviews` has settled the
collection held is the empty list, the loading flag is false and the notification is the
error notification of `fetchReviews`; the only request was the list request. -/
theorem failed_mount {e : JsError} (outcome : FetchOutcome (List Review))
    (hfail : api.getAllReviews.result outcome = .error e) :
    (mountEffect outcome).state.reviews = [] ∧
    (mountEffect outcome).state.filteredReviews = [] ∧
    (mountEffect outcome).state.loading = false ∧
    (mountEffect outcome).state.toast =
      some ⟨"Failed to fetch reviews. Make sure your backend is running.", "error"⟩ ∧
    requestsOf (mountEffect outcome).trace = [api.getAllReviews.request] ∧
    filterReviews (mountEffect outcome).state.reviews (mountEffect outcome).state.filter
      (mountEffect outcome).state.searchTerm = .ok [] := by
  unfold mountEffect
  rw [fetchReviews_of_error outcome initialState e hfail]
  exact ⟨rfl, rfl, rfl, rfl, rfl, rfl⟩

/-- C22 at three failures: the request does not get through, the server answers 500, the body
of a 200 response is not JSON. -/
theorem failed_mount_witness :
    (api.getAllReviews.result (.error (.typeError "fetch")) = .error (.typeError "fetch") ∧
      (mountEffect (.error (.typeError "fetch"))).state.reviews = []) ∧
    (api.getAllReviews.result (.ok ⟨500, "Internal Server Error", none, none⟩) =
        .error (.error "Failed to fetch reviews: Internal Server Error") ∧
      (mountEffect (.ok ⟨500, "Internal Server Error", none, none⟩)).state.loading = false) ∧
    (api.getAllReviews.result (.ok ⟨200, "OK", none, none⟩) = .error .syntaxError ∧
      (mountEffect (.ok ⟨200, "OK", none, none⟩)).state.toast =
        some ⟨"Failed to fetch reviews. Make sure your backend is running.", "error"⟩) :=
  ⟨⟨rfl, (failed_mount (.error (.typeError "fetch")) rfl).1⟩,
    ⟨by decide, (failed_mount (.ok ⟨500, "Internal Server Error", none, none⟩)
      (show _ = .error (.error "Failed to fetch reviews: Internal Server Error") from
        by decide)).2.2.1⟩,
    ⟨by decide, (failed_mount (.ok ⟨200, "OK", none, none⟩)
      (show _ = .error .syntaxError from by decide)).2.2.2.1⟩⟩

/-! ## Delete, notifications and the FAQ feed: claims C23 to C25 -/

theorem addressed_deleteReview (id : String) :
    Remote.addressed (api.deleteReview id : ApiCall Unit).request = some id := by
  have hurl : (api.deleteReview id : ApiCall Unit).request.url = API_BASE_URL ++ "/" ++ id :=
    rfl
  have hp : startsWith (API_BASE_URL ++ "/" ++ id) (API_BASE_URL ++ "/") = true := by
    simp only [startsWith, decide_eq_true_eq, String.data_append]
    exact List.prefix_append _ _
  unfold Remote.addressed
  rw [hurl, if_pos hp]
  congr 1

theorem sentBeforeList_handleDelete {β : Type} (id : String) (o₁ : FetchOutcome β)
    (o₂ : FetchOutcome (List Review)) (st : AppState) (d : β)
    (h : (api.deleteReview id).result o₁ = .ok d) :
    requestsOf (handleDelete id true o₁ o₂ st).trace =
      [(api.deleteReview id : ApiCall Unit).request, api.getAllReviews.request] ∧
    sentBeforeList (handleDelete id true o₁ o₂ st).trace =
      [(api.deleteReview id : ApiCall Unit).request] := by
  have hreq : requestsOf (handleDelete id true o₁ o₂ st).trace =
      [(api.deleteReview id : ApiCall Unit).request, api.getAllReviews.request] := by
    rw [handleDelete_of_ok id o₁ o₂ st d h]
    simp only [requestsOf_request, requestsOf_append, requestsOf_fetchReviews, requestsOf_toast,
      requestsOf_nil, List.append_nil]
  refine ⟨hreq, ?_⟩
  have h₁ : decide ((api.deleteReview id : ApiCall Unit).request ≠ api.getAllReviews.request) =
      true :=
    decide_eq_true (mutation_request_ne_list _ (show "DELETE" ≠ "GET" from by decide))
  have h₂ : decide (api.getAllReviews.request ≠ api.getAllReviews.request) = false :=
    decide_eq_false (fun hne => hne rfl)
  unfold sentBeforeList
  rw [hreq, List.takeWhile_cons, h₁, List.takeWhile_cons, h₂]
  rfl

theorem serve_deleteReview (remote : Remote) (id : String) :
    remote.serve [(api.deleteReview id : ApiCall Unit).request] =
      some ⟨remote.reviews.filter fun r => decide (r._id ≠ id)⟩ := by
  have hm : (api.deleteReview id : ApiCall Unit).request.method = "DELETE" := rfl
  simp only [Remote.serve, Remote.step, hm, if_true, addressed_deleteReview]

/-- C23: the console runs a confirmed `handleDelete` against the remote system of the spec and
the delete call succeeds.  Then the requests sent are the `DELETE` for the id and the list
request, the remote system that has served what was sent before the list request holds its
former collection without the entities of that id, and when the list call succeeds with the
collection the remote system holds at that moment, the collection held by the console is that
collection and has no entity whose id equals the id. -/
theorem delete_then_refresh {β : Type} (remote : Remote) (id : String) (o₁ : FetchOutcome β)
    (o₂ : FetchOutcome (List Review)) (st : AppState) (d : β)
    (hdel : (api.deleteReview id).result o₁ = .ok d) :
    requestsOf (handleDelete id true o₁ o₂ st).trace =
      [(api.deleteReview id : ApiCall Unit).request, api.getAllReviews.request] ∧
    remote.serve (sentBeforeList (handleDelete id true o₁ o₂ st).trace) =
      some ⟨remote.reviews.filter fun r => decide (r._id ≠ id)⟩ ∧
    (∀ after : Remote,
      remote.serve (sentBeforeList (handleDelete id true o₁ o₂ st).trace) = some after →
      api.getAllReviews.result o₂ = .ok after.reviews →
      (handleDelete id true o₁ o₂ st).state.reviews = after.reviews ∧
      ∀ r ∈ (handleDelete id true o₁ o₂ st).state.reviews, r._id ≠ id) := by
  obtain ⟨hreq, hsent⟩ := sentBeforeList_handleDelete id o₁ o₂ st d hdel
  have hserve := serve_deleteReview remote id
  refine ⟨hreq, by rw [hsent, hserve], ?_⟩
  intro after hafter hlist
  rw [hsent, hserve] at hafter
  have hheld : (handleDelete id true o₁ o₂ st).state.reviews = after.reviews := by
    rw [handleDelete_of_ok id o₁ o₂ st d hdel]
    exact (fetchReviews_reviews o₂ st).1 after.reviews hlist
  refine ⟨hheld, ?_⟩
  intro r hr
  rw [hheld, ← Option.some.inj hafter] at hr
  exact of_decide_eq_true (List.mem_filter.1 hr).2

/-- C23 at the sample console, whose two records the remote system holds: the delete call for
id 1 is acknowledged, the remote system is left with the other record, the list call returns
it, and no entity with id 1 is held afterwards. -/
theorem delete_then_refresh_witness :
    ((api.deleteReview "1").result (.ok sampleDone) = .ok () ∧
      (Remote.mk [sampleAna, sampleStrasse]).serve
        (sentBeforeList (handleDelete "1" true (.ok sampleDone)
          (.ok ⟨200, "OK", some [sampleStrasse], none⟩) sampleConsole).trace) =
        some ⟨[sampleStrasse]⟩ ∧
      api.getAllReviews.result (.ok ⟨200, "OK", some [sampleStrasse], none⟩) =
        .ok (Remote.mk [sampleStrasse]).reviews) ∧
    (handleDelete "1" true (.ok sampleDone) (.ok ⟨200, "OK", some [sampleStrasse], none⟩)
      sampleConsole).state.reviews = [sampleStrasse] ∧
    ∀ r ∈ (handleDelete "1" true (.ok sampleDone)
      (.ok ⟨200, "OK", some [sampleStrasse], none⟩) sampleConsole).state.reviews,
      r._id ≠ "1" :=
  ⟨⟨by decide, by decide, by decide⟩,
    ((delete_then_refresh ⟨[sampleAna, sampleStrasse]⟩ "1" (.ok sampleDone)
      (.ok ⟨200, "OK", some [sampleStrasse], none⟩) sampleConsole () (by decide)).2.2
      ⟨[sampleStrasse]⟩ (by decide) (by decide)).1,
    ((delete_then_refresh ⟨[sampleAna, sampleStrasse]⟩ "1" (.ok sampleDone)
      (.ok ⟨200, "OK", some [sampleStrasse], none⟩) sampleConsole () (by decide)).2.2
      ⟨[sampleStrasse]⟩ (by decide) (by decide)).2⟩

/-- C24, as stated, fails: the server acknowledges the delete call with the message `Done` and
the notification reads `Review deleted successfully!`; the server rejects the approve call
with the message `Review not found` and the notification reads
`Failed to approve review. Please try again.`. -/
theorem toast_message_counterexample :
    sampleDone.message = some "Done" ∧
    (handleDelete "1" true (.ok sampleDone) (.ok ⟨200, "OK", some [sampleStrasse], none⟩)
      sampleConsole).state.toast = some ⟨"Review deleted successfully!", "success"⟩ ∧
    sampleNotFound.message = some "Review not found" ∧
    toastsOf (handleApprove "1" (.ok sampleNotFound) (.error (.typeError "fetch"))
      sampleConsole).trace = [⟨"Failed to approve review. Please try again.", "error"⟩] := by
  refine ⟨rfl, by decide, rfl, by decide⟩

theorem toastsOf_fetchReviews_eq (o : FetchOutcome (List Review)) (st : AppState) :
    toastsOf (fetchReviews o st).trace =
      match api.getAllReviews.result o with
      | .ok _ => []
      | .error _ =>
        [⟨"Failed to fetch reviews. Make sure your backend is running.", "error"⟩] := by
  cases h : api.getAllReviews.result o with
  | ok data => exact (toastsOf_fetchReviews o st).1 data h
  | error e => exact (toastsOf_fetchReviews o st).2 e h

theorem toastsOf_handleApprove {β : Type} (id : String) (o₁ : FetchOutcome β)
    (o₂ : FetchOutcome (List Review)) (st : AppState) :
    toastsOf (handleApprove id o₁ o₂ st).trace =
      match (api.approveReview id).result o₁ with
      | .error _ => [⟨"Failed to approve review. Please try again.", "error"⟩]
      | .ok _ =>
        toastsOf (fetchReviews o₂ st).trace ++ [⟨"Review approved successfully!", "success"⟩] := by
  cases h : (api.approveReview id).result o₁ with
  | error e => rw [handleApprove_of_error id o₁ o₂ st e h]; rfl
  | ok d =>
    rw [handleApprove_of_ok id o₁ o₂ st d h]
    simp only [toastsOf_request, toastsOf_append, toastsOf_toast, toastsOf_nil]

theorem toastsOf_handleDelete {β : Type} (id : String) (o₁ : FetchOutcome β)
    (o₂ : FetchOutcome (List Review)) (st : AppState) :
    toastsOf (handleDelete id true o₁ o₂ st).trace =
      match (api.deleteReview id).result o₁ with
      | .error _ => [⟨"Failed to delete review. Please try again.", "error"⟩]
      | .ok _ =>
        toastsOf (fetchReviews o₂ st).trace ++ [⟨"Review deleted successfully!", "success"⟩] := by
  cases h : (api.deleteReview id).result o₁ with
  | error e => rw [handleDelete_of_error id o₁ o₂ st e h]; rfl
  | ok d =>
    rw [handleDelete_of_ok id o₁ o₂ st d h]
    simp only [toastsOf_request, toastsOf_append, toastsOf_toast, toastsOf_nil]

theorem toastsOf_handleFormSubmit_update {β : Type} (formData : List (String × FieldValue))
    (o₁ : FetchOutcome β) (o₂ : FetchOutcome (List Review)) (st : AppState) (review : Review)
    (hedit : st.editingReview = some review) :
    toastsOf (handleFormSubmit formData o₁ o₂ st).trace =
      match (api.updateReview review._id formData).result o₁ with
      | .error _ => [⟨"Failed to update review. Please try again.", "error"⟩]
      | .ok _ =>
        ⟨"Review updated successfully!", "success"⟩ :: toastsOf (fetchReviews o₂ st).trace := by
  cases h : (api.updateReview review._id formData).result o₁ with
  | error e => rw [handleFormSubmit_update_of_error formData o₁ o₂ st review e hedit h]; rfl
  | ok d =>
    rw [handleFormSubmit_update_of_ok formData o₁ o₂ st review d hedit h]
    simp only [toastsOf_request, toastsOf_toast]

theorem toastsOf_handleFormSubmit_create {β : Type} (formData : List (String × FieldValue))
    (o₁ : FetchOutcome β) (o₂ : FetchOutcome (List Review)) (st : AppState)
    (hedit : st.editingReview = none) :
    toastsOf (handleFormSubmit formData o₁ o₂ st).trace =
      match (api.createReview formData).result o₁ with
      | .error _ => [⟨"Failed to create review. Please try again.", "error"⟩]
      | .ok _ =>
        ⟨"Review created successfully!", "success"⟩ :: toastsOf (fetchReviews o₂ st).trace := by
  cases h : (api.createReview formData).result o₁ with
  | error e => rw [handleFormSubmit_create_of_error formData o₁ o₂ st e hedit h]; rfl
  | ok d =>
    rw [handleFormSubmit_create_of_ok formData o₁ o₂ st d hedit h]
    simp only [toastsOf_request, toastsOf_toast]

/-- Whether an operation returns depends on the status and on the body being JSON alone. -/
theorem ApiCall.result_shape {β : Type} (call : ApiCall β) (r r' : Response β)
    (hstatus : r.status = r'.status) (hbody : r.body.isSome = r'.body.isSome) :
    (∀ e, call.result (.ok r) = .error e → ∃ e', call.result (.ok r') = .error e') ∧
    (∀ d, call.result (.ok r) = .ok d → ∃ d', call.result (.ok r') = .ok d') := by
  have hok : r.ok = r'.ok := by simp [Response.ok, hstatus]
  constructor
  · intro e h
    cases hr : call.result (.ok r') with
    | error e' => exact ⟨e', rfl⟩
    | ok d' =>
      obtain ⟨x, hx, hxok, hxb⟩ := (ApiCall.result_ok_iff call _ d').1 hr
      injection hx with hx
      subst hx
      have hb : r.body.isSome = true := by rw [hbody, hxb]; rfl
      obtain ⟨d, hd⟩ := Option.isSome_iff_exists.1 hb
      have := (ApiCall.result_ok_iff call (.ok r) d).2 ⟨r, rfl, by rw [hok, hxok], hd⟩
      rw [h] at this
      cases this
  · intro d h
    obtain ⟨x, hx, hxok, hxb⟩ := (ApiCall.result_ok_iff call _ d).1 h
    injection hx with hx
    subst hx
    have hb : r'.body.isSome = true := by rw [← hbody, hxb]; rfl
    obtain ⟨d', hd'⟩ := Option.isSome_iff_exists.1 hb
    exact ⟨d', (ApiCall.result_ok_iff call (.ok r') d').2 ⟨r', rfl, by rw [← hok, hxok], hd'⟩⟩

/-- C24, amended: in the review console the message of every notification is a fixed text,
chosen by the operation and by whether its calls succeeded: `Review approved successfully!`
or `Failed to approve review. Please try again.`, and likewise for delete, update and create,
with `Failed to fetch reviews. Make sure your backend is running.` for a failed list call.
No message supplied by the server is used: two responses to the mutation with the same
status, both with or both without a JSON body, give the same notifications whatever their
messages and status texts. -/
theorem toast_messages_fixed {β : Type} (id : String)
    (formData : List (String × FieldValue)) (o₁ : FetchOutcome β)
    (o₂ : FetchOutcome (List Review)) (st : AppState) :
    toastsOf (handleApprove id o₁ o₂ st).trace =
      (match (api.approveReview id).result o₁ with
       | .error _ => [⟨"Failed to approve review. Please try again.", "error"⟩]
       | .ok _ =>
         (match api.getAllReviews.result o₂ with
          | .ok _ => []
          | .error _ =>
            [⟨"Failed to fetch reviews. Make sure your backend is running.", "error"⟩]) ++
         [⟨"Review approved successfully!", "success"⟩]) ∧
    toastsOf (handleDelete id true o₁ o₂ st).trace =
      (match (api.deleteReview id).result o₁ with
       | .error _ => [⟨"Failed to delete review. Please try again.", "error"⟩]
       | .ok _ =>
         (match api.getAllReviews.result o₂ with
          | .ok _ => []
          | .error _ =>
            [⟨"Failed to fetch reviews. Make sure your backend is running.", "error"⟩]) ++
         [⟨"Review deleted successfully!", "success"⟩]) ∧
    (∀ review, st.editingReview = some review →
      toastsOf (handleFormSubmit formData o₁ o₂ st).trace =
        (match (api.updateReview review._id formData).result o₁ with
         | .error _ => [⟨"Failed to update review. Please try again.", "error"⟩]
         | .ok _ =>
           ⟨"Review updated successfully!", "success"⟩ ::
           (match api.getAllReviews.result o₂ with
            | .ok _ => []
            | .error _ =>
              [⟨"Failed to fetch reviews. Make sure your backend is running.", "error"⟩]))) ∧
    (st.editingReview = none →
      toastsOf (handleFormSubmit formData o₁ o₂ st).trace =
        (match (api.createReview formData).result o₁ with
         | .error _ => [⟨"Failed to create review. Please try again.", "error"⟩]
         | .ok _ =>
           ⟨"Review created successfully!", "success"⟩ ::
           (match api.getAllReviews.result o₂ with
            | .ok _ => []
            | .error _ =>
              [⟨"Failed to fetch reviews. Make sure your backend is running.", "error"⟩]))) ∧
    (∀ r r' : Response β, r.status = r'.status → r.body.isSome = r'.body.isSome →
      toastsOf (handleApprove id (.ok r) o₂ st).trace =
        toastsOf (handleApprove id (.ok r') o₂ st).trace ∧
      toastsOf (handleDelete id true (.ok r) o₂ st).trace =
        toastsOf (handleDelete id true (.ok r') o₂ st).trace ∧
      toastsOf (handleFormSubmit formData (.ok r) o₂ st).trace =
        toastsOf (handleFormSubmit formData (.ok r') o₂ st).trace) := by
  refine ⟨?_, ?_, ?_, ?_, ?_⟩
  · rw [toastsOf_handleApprove, toastsOf_fetchReviews_eq]
  · rw [toastsOf_handleDelete, toastsOf_fetchReviews_eq]
  · intro review hedit
    rw [toastsOf_handleFormSubmit_update formData o₁ o₂ st review hedit,
      toastsOf_fetchReviews_eq]
  · intro hedit
    rw [toastsOf_handleFormSubmit_create formData o₁ o₂ st hedit, toastsOf_fetchReviews_eq]
  · intro r r' hstatus hbody
    have hshape : ∀ call : ApiCall β,
        (match call.result (.ok r) with
          | .error _ => true
          | .ok _ => false) =
        (match call.result (.ok r') with
          | .error _ => true
          | .ok _ => false) := by
      intro call
      cases h : call.result (.ok r) with
      | error e =>
        obtain ⟨e', he'⟩ := (ApiCall.result_shape call r r' hstatus hbody).1 e h
        rw [he']
      | ok d =>
        obtain ⟨d', hd'⟩ := (ApiCall.result_shape call r r' hstatus hbody).2 d h
        rw [hd']
    refine ⟨?_, ?_, ?_⟩
    · rw [toastsOf_handleApprove, toastsOf_handleApprove]
      have := hshape (api.approveReview id)
      cases h : (api.approveReview id).result (.ok r) <;>
        cases h' : (api.approveReview id).result (.ok r') <;> simp_all
    · rw [toastsOf_handleDelete, toastsOf_handleDelete]
      have := hshape (api.deleteReview id)
      cases h : (api.deleteReview id).result (.ok r) <;>
        cases h' : (api.deleteReview id).result (.ok r') <;> simp_all
    · cases hedit : st.editingReview with
      | none =>
        rw [toastsOf_handleFormSubmit_create formData _ o₂ st hedit,
          toastsOf_handleFormSubmit_create formData _ o₂ st hedit]
        have := hshape (api.createReview formData)
        cases h : (api.createReview formData).result (.ok r) <;>
          cases h' : (api.createReview formData).result (.ok r') <;> simp_all
      | some review =>
        rw [toastsOf_handleFormSubmit_update formData _ o₂ st review hedit,
          toastsOf_handleFormSubmit_update formData _ o₂ st review hedit]
        have := hshape (api.updateReview review._id formData)
        cases h : (api.updateReview review._id formData).result (.ok r) <;>
          cases h' : (api.updateReview review._id formData).result (.ok r') <;> simp_all

/-- C24, amended, at two acknowledgements of a delete call that differ in their message
alone. -/
theorem toast_messages_fixed_witness :
    (sampleDone.status = ({ sampleDone with message := some "Removed for good" } :
        Response Unit).status ∧
      sampleDone.body.isSome = ({ sampleDone with message := some "Removed for good" } :
        Response Unit).body.isSome) ∧
    toastsOf (handleDelete "1" true (.ok sampleDone) (.error (.typeError "fetch"))
        sampleConsole).trace =
      toastsOf (handleDelete "1" true
        (.ok { sampleDone with message := some "Removed for good" })
        (.error (.typeError "fetch")) sampleConsole).trace :=
  ⟨⟨rfl, rfl⟩,
    ((toast_messages_fixed "1" [] (.ok sampleDone) (.error (.typeError "fetch"))
      sampleConsole).2.2.2.2 sampleDone { sampleDone with message := some "Removed for good" }
      rfl rfl).2.1⟩

/-- C25: `showToast` of the FAQ console puts the new message at the end of the feed and keeps
every message that was in the feed, in the same order: the feed before is a prefix of the
feed after, which is one message longer and ends with the new message. -/
theorem faqShowToast_appends (toasts : List FaqToast) (now : Nat) (message : String)
    (type : Option String) :
    faqShowToast toasts now message type = toasts ++ [⟨now, message, type.getD "info"⟩] ∧
    toasts <+: faqShowToast toasts now message type ∧
    (faqShowToast toasts now message type).take toasts.length = toasts ∧
    (faqShowToast toasts now message type).length = toasts.length + 1 ∧
    (faqShowToast toasts now message type).getLast? = some ⟨now, message, type.getD "info"⟩ ∧
    (∀ (i : Nat) (t : FaqToast), toasts.get? i = some t →
      (faqShowToast toasts now message type).get? i = some t) := by
  refine ⟨rfl, ⟨_, rfl⟩, ?_, ?_, ?_, ?_⟩
  · simp [faqShowToast]
  · simp [faqShowToast]
  · simp [faqShowToast]
  · intro i t h
    have hi : i < toasts.length := by
      by_contra hcon
      have : toasts.get? i = none := List.get?_eq_none.2 (by omega)
      rw [this] at h
      cases h
    simp only [faqShowToast, List.get?_eq_getElem?] at h ⊢
    rw [List.getElem?_append_left hi]
    exact h

/-- C25 at a feed of two messages: the third goes last and the two stay in place. -/
theorem faqShowToast_appends_witness :
    ([⟨10, "FAQ created successfully!", "success"⟩,
        ⟨20, "Failed to delete FAQ", "error"⟩] : List FaqToast).get? 1 =
      some ⟨20, "Failed to delete FAQ", "error"⟩ ∧
    (faqShowToast [⟨10, "FAQ created successfully!", "success"⟩,
        ⟨20, "Failed to delete FAQ", "error"⟩] 30 "No FAQs found. Add your first FAQ!"
        none).get? 1 = some ⟨20, "Failed to delete FAQ", "error"⟩ ∧
    faqShowToast [⟨10, "FAQ created successfully!", "success"⟩,
        ⟨20, "Failed to delete FAQ", "error"⟩] 30 "No FAQs found. Add your first FAQ!" none =
      [⟨10, "FAQ created successfully!", "success"⟩, ⟨20, "Failed to delete FAQ", "error"⟩,
        ⟨30, "No FAQs found. Add your first FAQ!", "info"⟩] :=
  ⟨rfl,
    (faqShowToast_appends [⟨10, "FAQ created successfully!", "success"⟩,
      ⟨20, "Failed to delete FAQ", "error"⟩] 30 "No FAQs found. Add your first FAQ!"
      none).2.2.2.2.2 1 _ rfl,
    by decide⟩

/-! ## Composition and totality of the filter: claims C26 and C27 -/

theorem filterE_append {α : Type} (p : α → Except JsError Bool) (A B : List α) :
    filterE p (A ++ B) =
      (filterE p A).bind fun a => (filterE p B).bind fun b => .ok (a ++ b) := by
  induction A with
  | nil =>
    cases h : filterE p B <;> simp [filterE, Except.bind, h]
  | cons x xs ih =>
    cases hx : p x with
    | error e => simp [filterE, Except.bind, hx]
    | ok b =>
      cases hxs : filterE p xs with
      | error e =>
        rw [hxs] at ih
        simp [filterE, Except.bind, hx, hxs, ih]
      | ok rest =>
        rw [hxs] at ih
        cases hB : filterE p B with
        | error e =>
          rw [hB] at ih
          simp only [Except.bind] at ih
          simp [filterE, Except.bind, hx, hxs, hB, ih]
        | ok out =>
          rw [hB] at ih
          simp only [Except.bind] at ih
          cases b <;> simp [filterE, Except.bind, hx, hxs, hB, ih]

theorem statusFiltered_append (A B : List Review) (s : String) :
    statusFiltered (A ++ B) s = statusFiltered A s ++ statusFiltered B s := by
  unfold statusFiltered
  split_ifs <;> simp [List.filter_append]

theorem filterE_error_of_mem {α : Type} (p : α → Except JsError Bool) (l : List α) (a : α)
    (e : JsError) (ha : a ∈ l) (he : p a = .error e) : ∃ e', filterE p l = .error e' := by
  cases h : filterE p l with
  | error e' => exact ⟨e', rfl⟩
  | ok out =>
    obtain ⟨b, hb⟩ := ((filterE_eq_ok_iff p l out).1 h).1 a ha
    rw [he] at hb
    cases hb

/-- C26: the status filter and the search filter compose: the view for a status and a term is
the search, under the status `all`, of the view for that status and the empty term; it is
also the status view, with the empty term, of the search under `all`, whenever that search
returns (as it does when the searched fields hold strings); and the filter distributes over
concatenation, errors included. -/
theorem filterReviews_compose (C A B : List Review) (s t : String) :
    filterReviews C s t = (filterReviews C s "").bind (fun V => filterReviews V "all" t) ∧
    (∀ V, filterReviews C "all" t = .ok V → filterReviews C s t = filterReviews V s "") ∧
    ((∀ r ∈ C, hasTextFields r = true) →
      ∃ V, filterReviews C "all" t = .ok V ∧ filterReviews C s t = filterReviews V s "" ∧
        filterReviews C s t = (filterReviews C "all" t).bind (fun W => filterReviews W s "")) ∧
    filterReviews (A ++ B) s t =
      ((filterReviews A s t).bind fun a => (filterReviews B s t).bind fun b => .ok (a ++ b)) ∧
    (∀ a b, filterReviews A s t = .ok a → filterReviews B s t = .ok b →
      filterReviews (A ++ B) s t = .ok (a ++ b)) := by
  have hcomm : ∀ V, filterReviews C "all" t = .ok V →
      filterReviews C s t = filterReviews V s "" := by
    intro V hV
    obtain ⟨hret, hVeq⟩ := (filterReviews_eq_ok_iff C "all" t V).1 hV
    rw [statusFiltered_all] at hret hVeq
    have hr : filterReviews V s "" = .ok (statusFiltered V s) := by simp [filterReviews]
    rw [hr, filterReviews_eq_ok_iff]
    by_cases ht : t = ""
    · simp only [ht, ne_eq, not_true_eq_false, ↓reduceIte] at hVeq
      simp [ht, hVeq]
    · simp only [ne_eq, ht, not_false_eq_true, ↓reduceIte] at hVeq
      refine ⟨fun _ r hr => hret ht r ((statusFiltered_sublist C s).subset hr), ?_⟩
      simp only [ne_eq, ht, not_false_eq_true, ↓reduceIte]
      rw [hVeq, statusFiltered_filter_comm]
  have happ : filterReviews (A ++ B) s t =
      ((filterReviews A s t).bind fun a =>
        (filterReviews B s t).bind fun b => .ok (a ++ b)) := by
    unfold filterReviews
    by_cases ht : t = ""
    · simp [ht, Except.bind, statusFiltered_append]
    · simp only [ne_eq, ht, not_false_eq_true, ↓reduceIte, statusFiltered_append]
      exact filterE_append _ _ _
  refine ⟨?_, hcomm, ?_, happ, ?_⟩
  · have h₁ : filterReviews C s "" = .ok (statusFiltered C s) := by simp [filterReviews]
    rw [h₁]
    simp only [Except.bind]
    unfold filterReviews
    rw [statusFiltered_all]
  · intro hC
    have hV : filterReviews C "all" t = .ok _ :=
      (filterReviews_eq_ok_iff C "all" t _).2
        ⟨fun _ r hr => searchPredicate_returns t r
          (hC r (by rw [statusFiltered_all] at hr; exact hr)), rfl⟩
    refine ⟨_, hV, hcomm _ hV, ?_⟩
    rw [hV]
    exact hcomm _ hV
  · intro a b ha hb
    rw [happ, ha, hb]
    rfl

/-- C26 at a concrete collection: the pending view for the term `an` computed in the three
ways. -/
theorem filterReviews_compose_witness :
    (∀ r ∈ [sampleAna, sampleBo, sampleStrasse], hasTextFields r = true) ∧
    filterReviews [sampleAna, sampleBo, sampleStrasse] "pending" "an" = .ok [sampleAna] ∧
    (∃ V, filterReviews [sampleAna, sampleBo, sampleStrasse] "all" "an" = .ok V ∧
      filterReviews [sampleAna, sampleBo, sampleStrasse] "pending" "an" =
        filterReviews V "pending" "") ∧
    filterReviews ([sampleAna] ++ [sampleBo, sampleStrasse]) "pending" "an" =
      .ok ([sampleAna] ++ []) :=
  ⟨by decide, by decide,
    ((filterReviews_compose [sampleAna, sampleBo, sampleStrasse] [] [] "pending" "an").2.2.1
      (by decide)).imp fun _ h => ⟨h.1, h.2.1⟩,
    (filterReviews_compose [] [sampleAna] [sampleBo, sampleStrasse] "pending" "an").2.2.2.2
      _ _ (by decide) (by decide)⟩

/-- C27: `filterReviews` returns for every status and term when each entity holds strings as
name, role and email, and it always returns with the empty term, whatever is missing.  With a
non-empty term it raises as soon as some entity that passes the status filter lacks its name,
or has a name that does not match and lacks its role, or has a name and a role that do not
match and lacks its email; a missing role or email behind a field that matches is not
reached: the term `łukasz` finds the record named Łukasz that has neither role nor email, and
the term `an` raises on it.  It returns exactly when the callback returns on every entity
that passes the status filter. -/
theorem filterReviews_total_iff (C : List Review) (s t : String) :
    ((∀ r ∈ C, hasTextFields r = true) → ∃ out, filterReviews C s t = .ok out) ∧
    filterReviews C s "" = .ok (statusFiltered C s) ∧
    (t ≠ "" → (∃ r ∈ statusFiltered C s, r.name = none) →
      ∃ e, filterReviews C s t = .error e) ∧
    (t ≠ "" →
      (∃ r ∈ statusFiltered C s, ∃ n, r.name = some n ∧
        includes (toLowerCase n) (toLowerCase t) = false ∧ r.role = none) →
      ∃ e, filterReviews C s t = .error e) ∧
    (t ≠ "" →
      (∃ r ∈ statusFiltered C s, ∃ n ro, r.name = some n ∧
        includes (toLowerCase n) (toLowerCase t) = false ∧ r.role = some ro ∧
        includes (toLowerCase ro) (toLowerCase t) = false ∧ r.email = none) →
      ∃ e, filterReviews C s t = .error e) ∧
    (∀ r : Review, ∀ n, r.name = some n → includes (toLowerCase n) (toLowerCase t) = true →
      searchPredicate t r = .ok true) ∧
    ((∃ out, filterReviews C s t = .ok out) ↔
      (t = "" ∨ ∀ r ∈ statusFiltered C s, ∃ b, searchPredicate t r = .ok b)) ∧
    (filterReviews [sampleRoleless] "all" "łukasz" = .ok [sampleRoleless] ∧
      filterReviews [sampleRoleless] "all" "an" = .error (.typeError "toLowerCase")) := by
  have hraise : t ≠ "" → ∀ r ∈ statusFiltered C s, ∀ e, searchPredicate t r = .error e →
      ∃ e', filterReviews C s t = .error e' := by
    intro ht r hr e he
    unfold filterReviews
    simp only [ne_eq, ht, not_false_eq_true, ↓reduceIte]
    exact filterE_error_of_mem _ _ r e hr he
  refine ⟨?_, by simp [filterReviews], ?_, ?_, ?_, ?_, ?_, by decide, by decide⟩
  · intro hC
    refine ⟨_, (filterReviews_eq_ok_iff C s t _).2 ⟨?_, rfl⟩⟩
    exact fun _ r hr =>
      searchPredicate_returns t r (hC r ((statusFiltered_sublist C s).subset hr))
  · rintro ht ⟨r, hr, hn⟩
    exact hraise ht r hr (.typeError "toLowerCase")
      (by simp [searchPredicate, fieldToLowerCase, hn])
  · rintro ht ⟨r, hr, n, hn, hinc, hro⟩
    exact hraise ht r hr (.typeError "toLowerCase")
      (by simp [searchPredicate, fieldToLowerCase, hn, hinc, hro])
  · rintro ht ⟨r, hr, n, ro, hn, hinc, hro, hinc', hem⟩
    exact hraise ht r hr (.typeError "toLowerCase")
      (by simp [searchPredicate, fieldToLowerCase, hn, hinc, hro, hinc', hem])
  · intro r n hn hinc
    simp [searchPredicate, fieldToLowerCase, hn, hinc]
  · constructor
    · rintro ⟨out, hout⟩
      by_cases ht : t = ""
      · exact Or.inl ht
      · exact Or.inr (((filterReviews_eq_ok_iff C s t out).1 hout).1 ht)
    · intro h
      refine ⟨_, (filterReviews_eq_ok_iff C s t _).2 ⟨?_, rfl⟩⟩
      intro ht
      rcases h with h | h
      · exact absurd h ht
      · exact h

/-- C27 at a collection with a pending record that has no name: the search raises under the
statuses `all` and `pending`, returns under `approved`, where the record is filtered out
first, and returns with the empty term.  At the record named Łukasz without role: the term
`łukasz` is in the lower-cased name, so the callback returns true without reading the role;
the term `an` is not, so the search raises. -/
theorem filterReviews_total_iff_witness :
    ("an" ≠ "" ∧ ∃ r ∈ statusFiltered [sampleAna, sampleNameless, sampleBo] "pending",
      r.name = none) ∧
    (∃ e, filterReviews [sampleAna, sampleNameless, sampleBo] "pending" "an" = .error e) ∧
    filterReviews [sampleAna, sampleNameless, sampleBo] "approved" "bo" = .ok [sampleBo] ∧
    filterReviews [sampleAna, sampleNameless, sampleBo] "all" "" =
      .ok [sampleAna, sampleNameless, sampleBo] ∧
    ((sampleRoleless.name = some "Łukasz" ∧ sampleRoleless.role = none ∧
        includes (toLowerCase "Łukasz") (toLowerCase "łukasz") = true) ∧
      searchPredicate "łukasz" sampleRoleless = .ok true) ∧
    (("an" ≠ "" ∧ ∃ r ∈ statusFiltered [sampleRoleless] "all", ∃ n, r.name = some n ∧
        includes (toLowerCase n) (toLowerCase "an") = false ∧ r.role = none) ∧
      ∃ e, filterReviews [sampleRoleless] "all" "an" = .error e) :=
  ⟨⟨by decide, sampleNameless, by decide, rfl⟩,
    (filterReviews_total_iff [sampleAna, sampleNameless, sampleBo] "pending" "an").2.2.1
      (by decide) ⟨sampleNameless, by decide, rfl⟩,
    by decide, by decide,
    ⟨⟨rfl, rfl, by decide⟩,
      (filterReviews_total_iff [] "all" "łukasz").2.2.2.2.2.1 sampleRoleless "Łukasz" rfl
        (by decide)⟩,
    ⟨⟨by decide, sampleRoleless, by decide, "Łukasz", rfl, by decide, rfl⟩,
      (filterReviews_total_iff [sampleRoleless] "all" "an").2.2.2.1 (by decide)
        ⟨sampleRoleless, by decide, "Łukasz", rfl, by decide, rfl⟩⟩⟩

/-! ## Failed refetch, the email pattern, a declined delete: claims C28 to C30 -/

/-- C28: when the approve or the delete call succeeds and the list call that follows fails,
the failure stays inside `fetchReviews`: the `catch` block of the handler does not run, the
collection held is the one from before the mutation, the error notification of
`fetchReviews` is followed and replaced by the success notification of the handler, and the
handler ends with the busy slot idle and the loading flag false. -/
theorem refetch_failure_absorbed {β : Type} (id : String) (o₁ : FetchOutcome β)
    (o₂ : FetchOutcome (List Review)) (st : AppState) (e : JsError)
    (hlist : api.getAllReviews.result o₂ = .error e) :
    (∀ d, (api.approveReview id).result o₁ = .ok d →
      (handleApprove id o₁ o₂ st).trace =
        [.request (api.approveReview id : ApiCall Unit).request,
          .request api.getAllReviews.request, .consoleError "Error fetching reviews:",
          .toast ⟨"Failed to fetch reviews. Make sure your backend is running.", "error"⟩,
          .toast ⟨"Review approved successfully!", "success"⟩] ∧
      (handleApprove id o₁ o₂ st).state.reviews = st.reviews ∧
      (handleApprove id o₁ o₂ st).state.toast =
        some ⟨"Review approved successfully!", "success"⟩ ∧
      (handleApprove id o₁ o₂ st).state.loadingStates.approving = none ∧
      (handleApprove id o₁ o₂ st).state.loading = false) ∧
    (∀ d, (api.deleteReview id).result o₁ = .ok d →
      (handleDelete id true o₁ o₂ st).trace =
        [.request (api.deleteReview id : ApiCall Unit).request,
          .request api.getAllReviews.request, .consoleError "Error fetching reviews:",
          .toast ⟨"Failed to fetch reviews. Make sure your backend is running.", "error"⟩,
          .toast ⟨"Review deleted successfully!", "success"⟩] ∧
      (handleDelete id true o₁ o₂ st).state.reviews = st.reviews ∧
      (handleDelete id true o₁ o₂ st).state.toast =
        some ⟨"Review deleted successfully!", "success"⟩ ∧
      (handleDelete id true o₁ o₂ st).state.loadingStates.deleting = none ∧
      (handleDelete id true o₁ o₂ st).state.loading = false) ∧
    (fetchReviews o₂ st).state.toast =
      some ⟨"Failed to fetch reviews. Make sure your backend is running.", "error"⟩ := by
  refine ⟨?_, ?_, ?_⟩
  · intro d h
    rw [handleApprove_of_ok id o₁ o₂ st d h, fetchReviews_of_error o₂ st e hlist]
    exact ⟨rfl, rfl, rfl, rfl, rfl⟩
  · intro d h
    rw [handleDelete_of_ok id o₁ o₂ st d h, fetchReviews_of_error o₂ st e hlist]
    exact ⟨rfl, rfl, rfl, rfl, rfl⟩
  · rw [fetchReviews_of_error o₂ st e hlist]

/-- C28 at the sample console: the approve call for row 1 succeeds and the list request does
not get through. -/
theorem refetch_failure_absorbed_witness :
    (api.getAllReviews.result (.error (.typeError "fetch")) = .error (.typeError "fetch") ∧
      (api.approveReview "1").result (.ok sampleDone) = .ok ()) ∧
    (handleApprove "1" (.ok sampleDone) (.error (.typeError "fetch")) sampleConsole).state.reviews
      = sampleConsole.reviews ∧
    (handleApprove "1" (.ok sampleDone) (.error (.typeError "fetch")) sampleConsole).state.toast
      = some ⟨"Review approved successfully!", "success"⟩ :=
  ⟨⟨rfl, by decide⟩,
    ((refetch_failure_absorbed "1" (.ok sampleDone) (.error (.typeError "fetch")) sampleConsole
      (.typeError "fetch") rfl).1 () (by decide)).2.1,
    ((refetch_failure_absorbed "1" (.ok sampleDone) (.error (.typeError "fetch")) sampleConsole
      (.typeError "fetch") rfl).1 () (by decide)).2.2.1⟩

/-- The entry `email` of the error object built by `validateForm`. -/
theorem validateForm_email_get (f : FormFields) :
    (validateForm f).1.get "email" =
      if trim f.email = "" then some "Email is required"
      else if test emailRegex f.email = true then none
      else some "Invalid email format" := by
  rw [validateForm_errors]
  by_cases h₁ : trim f.name = "" <;> by_cases h₂ : trim f.email = "" <;>
    by_cases h₃ : test emailRegex f.email = true <;> by_cases h₄ : trim f.role = "" <;>
    by_cases h₅ : trim f.review = "" <;> by_cases h₆ : length (trim f.review) < 10 <;>
    simp only [h₁, h₂, h₃, h₄, h₅, h₆, if_true, if_false, List.nil_append,
      List.append_nil] <;>
    rfl

/-- C29: the email rule of `validateForm` is a match without anchors: the email passes if and
only if it is not blank and holds, somewhere, one or more characters other than white space,
`@`, one or more such characters, `.`, and one or more such characters.  So `a@b`, whose
domain has no dot, is rejected, while ` x a@b.c y `, with text and white space around the
address, and `a@@b.c`, with two `@`, are accepted. -/
theorem email_rule_unanchored (f : FormFields) :
    ((validateForm f).1.get "email" = none ↔
      trim f.email ≠ "" ∧
      ∃ pre x y z post : List Char,
        f.email.data = pre ++ (x ++ Char.ofNat 0x40 :: (y ++ Char.ofNat 0x2E :: (z ++ post))) ∧
        x ≠ [] ∧ y ≠ [] ∧ z ≠ [] ∧
        (∀ c ∈ x, isWhiteSpace c = false) ∧ (∀ c ∈ y, isWhiteSpace c = false) ∧
        (∀ c ∈ z, isWhiteSpace c = false)) ∧
    (f.email = "a@b" → (validateForm f).1.get "email" = some "Invalid email format") ∧
    (f.email = " x a@b.c y " → (validateForm f).1.get "email" = none) ∧
    (f.email = "a@@b.c" → (validateForm f).1.get "email" = none) ∧
    (f.email = "a@b.c" → (validateForm f).1.get "email" = none) := by
  refine ⟨?_, ?_, ?_, ?_, ?_⟩
  · rw [validateForm_email_get, ← test_emailRegex_iff]
    constructor
    · intro h
      by_cases h₁ : trim f.email = ""
      · rw [if_pos h₁] at h
        cases h
      · rw [if_neg h₁] at h
        by_cases h₂ : test emailRegex f.email = true
        · exact ⟨h₁, h₂⟩
        · rw [if_neg h₂] at h
          cases h
    · rintro ⟨h₁, h₂⟩
      rw [if_neg h₁, if_pos h₂]
  · intro h
    rw [validateForm_email_get, h]
    decide
  · intro h
    rw [validateForm_email_get, h]
    decide
  · intro h
    rw [validateForm_email_get, h]
    decide
  · intro h
    rw [validateForm_email_get, h]
    decide

/-- C29 at forms with the three emails named there. -/
theorem email_rule_unanchored_witness :
    (validateForm { sampleForm with email := "a@b" }).1.get "email" =
      some "Invalid email format" ∧
    (validateForm { sampleForm with email := " x a@b.c y " }).1.get "email" = none ∧
    (validateForm { sampleForm with email := "a@@b.c" }).1.get "email" = none :=
  ⟨(email_rule_unanchored { sampleForm with email := "a@b" }).2.1 rfl,
    (email_rule_unanchored { sampleForm with email := " x a@b.c y " }).2.2.1 rfl,
    (email_rule_unanchored { sampleForm with email := "a@@b.c" }).2.2.2.1 rfl⟩

/-- C30: when the user declines the confirmation, `handleDelete` returns at once: no event
happens (no request, no notification) and the state of the console, with the collection, the
busy fields, the notification and the fields of the form dialog, is what it was. -/
theorem declined_delete_changes_nothing {β : Type} (id : String) (o₁ : FetchOutcome β)
    (o₂ : FetchOutcome (List Review)) (st : AppState) :
    handleDelete id false o₁ o₂ st = ⟨st, []⟩ ∧
    (handleDelete id false o₁ o₂ st).state = st ∧
    requestsOf (handleDelete id false o₁ o₂ st).trace = [] ∧
    toastsOf (handleDelete id false o₁ o₂ st).trace = [] ∧
    (handleDelete id false o₁ o₂ st).state.reviews = st.reviews ∧
    (handleDelete id false o₁ o₂ st).state.loadingStates = st.loadingStates ∧
    (handleDelete id false o₁ o₂ st).state.toast = st.toast ∧
    (handleDelete id false o₁ o₂ st).state.showForm = st.showForm ∧
    (handleDelete id false o₁ o₂ st).state.editingReview = st.editingReview := by
  rw [handleDelete_of_declined]
  exact ⟨rfl, rfl, rfl, rfl, rfl, rfl, rfl, rfl, rfl⟩

end DigitalLabAdmin
